import Mathlib

/-!
# Common/Vulkan/VulkanRenderManager.cpp

A shallow embedding of the step recorder and the step executor of the Vulkan
render manager, and the properties of the specification checked against it.

Conventions of the embedding.

* Handles (`VkFramebuffer`, `VkRenderPass`, `VkImage`, `VkImageView`) are natural
  numbers, `0` being `VK_NULL_HANDLE`.
* A non-null `VKRFramebuffer *` is the address of the object, a natural number; the
  objects live in the heap `fbs` of the manager.  A nullable pointer is an `Option`,
  `none` being `nullptr` (the backbuffer, for a render step).
* A command buffer is the list of commands recorded into it; every function that
  records commands returns the commands it recorded, in order.
* `Crash()` ends the process: a function that reaches it returns `none`.
* `float` values are carried as their 32-bit patterns, never computed with.
-/

namespace PPSSPP

/-! ## Constants of the graphics API -/

/-- The image layouts of the graphics API. -/
inductive VkImageLayout
  | UNDEFINED
  | GENERAL
  | COLOR_ATTACHMENT_OPTIMAL
  | DEPTH_STENCIL_ATTACHMENT_OPTIMAL
  | DEPTH_STENCIL_READ_ONLY_OPTIMAL
  | SHADER_READ_ONLY_OPTIMAL
  | TRANSFER_SRC_OPTIMAL
  | TRANSFER_DST_OPTIMAL
  | PREINITIALIZED
  | PRESENT_SRC_KHR
  deriving DecidableEq, Repr

abbrev VK_IMAGE_ASPECT_COLOR_BIT : Nat := 1
abbrev VK_IMAGE_ASPECT_DEPTH_BIT : Nat := 2
abbrev VK_IMAGE_ASPECT_STENCIL_BIT : Nat := 4

abbrev VK_ACCESS_SHADER_READ_BIT : Nat := 0x20
abbrev VK_ACCESS_COLOR_ATTACHMENT_READ_BIT : Nat := 0x80
abbrev VK_ACCESS_COLOR_ATTACHMENT_WRITE_BIT : Nat := 0x100
abbrev VK_ACCESS_DEPTH_STENCIL_ATTACHMENT_READ_BIT : Nat := 0x200
abbrev VK_ACCESS_DEPTH_STENCIL_ATTACHMENT_WRITE_BIT : Nat := 0x400
abbrev VK_ACCESS_TRANSFER_READ_BIT : Nat := 0x800
abbrev VK_ACCESS_TRANSFER_WRITE_BIT : Nat := 0x1000

abbrev VK_PIPELINE_STAGE_TOP_OF_PIPE_BIT : Nat := 0x1
abbrev VK_PIPELINE_STAGE_EARLY_FRAGMENT_TESTS_BIT : Nat := 0x100
abbrev VK_PIPELINE_STAGE_COLOR_ATTACHMENT_OUTPUT_BIT : Nat := 0x400
abbrev VK_PIPELINE_STAGE_BOTTOM_OF_PIPE_BIT : Nat := 0x2000

/-- An `int` or `int32_t` result: the value reduced to the signed 32-bit range. -/
def toInt32 (z : Int) : Int := (z + 2 ^ 31) % 2 ^ 32 - 2 ^ 31

/-- An `int` stored into a `uint32_t`: the value reduced modulo 2^32. -/
def toUint32 (z : Int) : Nat := (z % 2 ^ 32).toNat

/-! ## Data model -/

inductive VKStepType
  | RENDER
  | COPY
  | BLIT
  | READBACK
  deriving DecidableEq, Repr

/-- The load action of an attachment, in the order the source's switches list them. -/
inductive RenderPassAction
  | CLEAR
  | KEEP
  | DONT_CARE
  deriving DecidableEq, Repr

structure VkOffset2D where
  x : Int
  y : Int
  deriving DecidableEq, Repr

structure VkExtent2D where
  width : Nat
  height : Nat
  deriving DecidableEq, Repr

structure VkRect2D where
  offset : VkOffset2D
  extent : VkExtent2D
  deriving DecidableEq, Repr

/-- A viewport; its six floats as bit patterns. -/
structure VkViewport where
  x : Nat
  y : Nat
  width : Nat
  height : Nat
  minDepth : Nat
  maxDepth : Nat
  deriving DecidableEq, Repr

/-- Payload of a `DRAW` sub-command. -/
structure DrawData where
  pipeline : Nat
  pipelineLayout : Nat
  ds : Nat
  numUboOffsets : Nat
  uboOffsets : List Nat
  vbuffer : Nat
  voffset : Nat
  count : Nat
  deriving DecidableEq, Repr

/-- Payload of a `DRAW_INDEXED` sub-command. -/
structure DrawIndexedData where
  pipeline : Nat
  pipelineLayout : Nat
  ds : Nat
  numUboOffsets : Nat
  uboOffsets : List Nat
  vbuffer : Nat
  voffset : Nat
  ibuffer : Nat
  ioffset : Nat
  count : Nat
  instances : Nat
  deriving DecidableEq, Repr

/-- Payload of a `CLEAR` sub-command (`data.clear`). -/
structure ClearData where
  clearColor : Nat
  clearZ : Nat
  clearStencil : Int
  clearMask : Nat
  deriving DecidableEq, Repr

/-- A sub-command of a render step: the tag `cmd` of `VkRenderData` with the member
of the union that belongs to it.  `OTHER` is any tag the executor's switch does not
list (its `default:` branch). -/
inductive VkRenderData
  | VIEWPORT (vp : VkViewport)
  | SCISSOR (scissor : VkRect2D)
  | BLEND (color : List Nat)
  | STENCIL (stencilWriteMask stencilCompareMask stencilRef : Nat)
  | DRAW_INDEXED (drawIndexed : DrawIndexedData)
  | DRAW (draw : DrawData)
  | CLEAR (clear : ClearData)
  | OTHER (tag : Nat)
  deriving DecidableEq, Repr

/-- The `render` member of a step. -/
structure RenderStepData where
  framebuffer : Option Nat
  color : RenderPassAction
  depthStencil : RenderPassAction
  clearColor : Nat
  clearDepth : Nat
  clearStencil : Int
  numDraws : Nat
  finalColorLayout : VkImageLayout
  deriving DecidableEq, Repr

/-- The `copy` member of a step. -/
structure CopyStepData where
  src : Nat
  dst : Nat
  srcRect : VkRect2D
  dstPos : VkOffset2D
  aspectMask : Nat
  deriving DecidableEq, Repr

/-- The `blit` member of a step. -/
structure BlitStepData where
  src : Nat
  dst : Nat
  srcRect : VkRect2D
  dstRect : VkRect2D
  aspectMask : Nat
  filter : Nat
  deriving DecidableEq, Repr

/-- A recorded step.  The source keeps `render`, `copy` and `blit` in one union and
reads only the member that `stepType` names; here they are separate fields. -/
structure VKRStep where
  stepType : VKStepType
  commands : List VkRenderData
  render : RenderStepData
  copy : CopyStepData
  blit : BlitStepData
  deriving DecidableEq, Repr

structure VKImage where
  image : Nat
  imageView : Nat
  layout : VkImageLayout
  deriving DecidableEq, Repr

structure VKRFramebuffer where
  framebuf : Nat
  color : VKImage
  depth : VKImage
  width : Nat
  height : Nat
  deriving DecidableEq, Repr

/-! ## Recorded low-level commands -/

structure VkImageMemoryBarrier where
  oldLayout : VkImageLayout
  newLayout : VkImageLayout
  image : Nat
  srcAccessMask : Nat
  dstAccessMask : Nat
  aspectMask : Nat
  layerCount : Nat
  levelCount : Nat
  deriving DecidableEq, Repr

/-- A `VkClearValue`, by the member the code wrote last: `zero` is the zeroed value
no member of which was written, `color packed` the colour `Uint8x4ToFloat4` unpacked
from the packed RGBA8 value `packed`, `depthStencil` the depth and stencil members,
each `none` when the code left it unwritten; the stencil member is a `uint32_t`. -/
inductive VkClearValue
  | zero
  | color (packed : Nat)
  | depthStencil (depth : Option Nat) (stencil : Option Nat)
  deriving DecidableEq, Repr

structure VkClearAttachment where
  aspectMask : Nat
  colorAttachment : Option Nat
  clearValue : VkClearValue
  deriving DecidableEq, Repr

structure VkClearRect where
  rect : VkRect2D
  baseArrayLayer : Nat
  layerCount : Nat
  deriving DecidableEq, Repr

structure VkRenderPassBeginInfo where
  renderPass : Nat
  framebuffer : Nat
  renderArea : VkRect2D
  clearValueCount : Nat
  pClearValues : Option (List VkClearValue)
  deriving DecidableEq, Repr

structure VkImageCopy where
  srcAspectMask : Nat
  srcOffset : VkOffset2D
  dstAspectMask : Nat
  dstOffset : VkOffset2D
  extent : VkExtent2D
  deriving DecidableEq, Repr

structure VkImageBlit where
  srcAspectMask : Nat
  srcOffsets0 : VkOffset2D
  srcOffsets1 : VkOffset2D
  dstAspectMask : Nat
  dstOffsets0 : VkOffset2D
  dstOffsets1 : VkOffset2D
  deriving DecidableEq, Repr

/-- The commands the file records into a command buffer, named after the `vkCmd*`
call.  `TransitionFromPresent` stands for what the helper of that name records. -/
inductive VkCommand
  | SetViewport (vp : VkViewport)
  | SetScissor (scissor : VkRect2D)
  | SetBlendConstants (color : List Nat)
  | SetStencilWriteMask (mask : Nat)
  | SetStencilCompareMask (mask : Nat)
  | SetStencilReference (ref : Nat)
  | BindPipeline (pipeline : Nat)
  | BindDescriptorSets (pipelineLayout ds numUboOffsets : Nat) (uboOffsets : List Nat)
  | BindIndexBuffer (ibuffer ioffset : Nat)
  | BindVertexBuffers (vbuffer voffset : Nat)
  | DrawIndexed (count instances : Nat)
  | Draw (count : Nat)
  | ClearAttachments (attachments : List VkClearAttachment) (rc : VkClearRect)
  | BeginRenderPass (rp_begin : VkRenderPassBeginInfo)
  | EndRenderPass
  | PipelineBarrier (srcStage dstStage : Nat) (barriers : List VkImageMemoryBarrier)
  | CopyImage (srcImage : Nat) (srcLayout : VkImageLayout) (dstImage : Nat)
      (dstLayout : VkImageLayout) (region : VkImageCopy)
  | BlitImage (srcImage : Nat) (srcLayout : VkImageLayout) (dstImage : Nat)
      (dstLayout : VkImageLayout) (region : VkImageBlit) (filter : Nat)
  | TransitionFromPresent (image : Nat)
  deriving DecidableEq, Repr

/-! ## The manager -/

/-- The members of `VulkanRenderManager` the recorder and the executor use, the
heap of framebuffer objects `fbs`, and the two backbuffer dimensions the graphics
context reports. -/
structure VulkanRenderManager where
  steps_ : List VKRStep
  stepsOnThread_ : List VKRStep
  curStep_ : Option Nat
  curFramebuffer_ : Nat
  curRenderPass_ : Nat
  curWidth_ : Nat
  curHeight_ : Nat
  current_buffer : Nat
  framebuffers_ : Nat → Nat
  swapchainImages_ : Nat → Nat
  renderPasses_ : Nat → Nat
  backbufferRenderPass_ : Nat
  backbufferWidth : Nat
  backbufferHeight : Nat
  fbs : Nat → VKRFramebuffer

namespace VulkanRenderManager

/-- Modelled from the spec: `RPIndex`, declared in VulkanRenderManager.h, which is not
among the sources.  The table of render passes has one entry per pair of a colour
and a depth/stencil load action, 3 x 3 = 9 entries; the entry of a pair is found
from the two actions alone. -/
def RPIndex (color depth : RenderPassAction) : Nat :=
  let n : RenderPassAction → Nat := fun a =>
    match a with
    | .CLEAR => 0
    | .KEEP => 1
    | .DONT_CARE => 2
  n depth * 3 + n color

/-- Modelled from the spec: `GetSurfaceRenderPass`, declared in VulkanRenderManager.h,
which is not among the sources: the distinct "surface" render pass of the backbuffer
path, the one `InitSurfaceRenderPass` stores in `backbufferRenderPass_`. -/
def GetSurfaceRenderPass (m : VulkanRenderManager) : Nat :=
  m.backbufferRenderPass_

/-! ### Recorder -/

/-- `BeginRenderPass`.  `pass` is the object `new VKRStep(VKStepType::RENDER)` builds:
the constructor is declared in VulkanRenderManager.h, which is not among the sources,
so what it builds is a parameter. -/
def BeginRenderPass (pass : VKRStep) (m : VulkanRenderManager) : VulkanRenderManager :=
  let pass := { pass with stepType := VKStepType.RENDER }
  { m with steps_ := m.steps_ ++ [pass], curStep_ := some m.steps_.length }

/-- `Clear`, the branch `numDraws == 0`: the step with the call folded into its
clear values and load actions. -/
def mergeClear (clearColor clearZ : Nat) (clearStencil : Int) (clearMask : Nat)
    (s : VKRStep) : VKRStep :=
  { s with render := { s.render with
      clearColor := clearColor
      clearDepth := clearZ
      clearStencil := clearStencil
      color :=
        if clearMask &&& VK_IMAGE_ASPECT_COLOR_BIT ≠ 0
        then RenderPassAction.CLEAR else RenderPassAction.KEEP
      depthStencil :=
        if clearMask &&& (VK_IMAGE_ASPECT_DEPTH_BIT ||| VK_IMAGE_ASPECT_STENCIL_BIT) ≠ 0
        then RenderPassAction.CLEAR else RenderPassAction.KEEP } }

/-- `Clear`, the other branch: the step with a `CLEAR` sub-command pushed back. -/
def pushClear (clearColor clearZ : Nat) (clearStencil : Int) (clearMask : Nat)
    (s : VKRStep) : VKRStep :=
  let data := VkRenderData.CLEAR
    { clearColor := clearColor, clearZ := clearZ, clearStencil := clearStencil,
      clearMask := clearMask }
  { s with commands := s.commands ++ [data] }

/-- `Clear`.  `curStep_` points to the step at that index of `steps_`; the call is
a usage error (`none`) when the asserted condition
`curStep_ && curStep_->stepType == VKStepType::RENDER` fails. -/
def Clear (clearColor clearZ : Nat) (clearStencil : Int) (clearMask : Nat)
    (m : VulkanRenderManager) : Option VulkanRenderManager :=
  match m.curStep_ with
  | none => none
  | some i =>
    match m.steps_[i]? with
    | none => none
    | some s =>
      if s.stepType ≠ VKStepType.RENDER then none
      else if s.render.numDraws = 0 then
        some { m with steps_ :=
          m.steps_.set i (mergeClear clearColor clearZ clearStencil clearMask s) }
      else
        some { m with steps_ :=
          m.steps_.set i (pushClear clearColor clearZ clearStencil clearMask s) }

/-- `EndCurrentRenderpass`. -/
def EndCurrentRenderpass (m : VulkanRenderManager) : VulkanRenderManager × List VkCommand :=
  if m.curRenderPass_ ≠ 0 then
    ({ m with curRenderPass_ := 0 }, [VkCommand.EndRenderPass])
  else (m, [])

/-- `CopyFramebuffer`; the commands are recorded into the frame's main command buffer. -/
def CopyFramebuffer (_src : Nat) (_srcRect : VkRect2D) (_dst : Nat) (_dstPoint : VkOffset2D)
    (m : VulkanRenderManager) : VulkanRenderManager × List VkCommand :=
  EndCurrentRenderpass m

/-- `BlitFramebuffer`; the commands are recorded into the frame's main command buffer. -/
def BlitFramebuffer (_src : Nat) (_srcRect : VkRect2D) (_dst : Nat) (_dstRect : VkRect2D)
    (_filter : Nat) (m : VulkanRenderManager) : VulkanRenderManager × List VkCommand :=
  EndCurrentRenderpass m

/-- `BindFramebufferAsTexture`, the assignment
`steps_[i]->render.finalColorLayout = VK_IMAGE_LAYOUT_SHADER_READ_ONLY_OPTIMAL`. -/
def markShaderRead (s : VKRStep) : VKRStep :=
  { s with render := { s.render with
      finalColorLayout := VkImageLayout.SHADER_READ_ONLY_OPTIMAL } }

/-- The loop of `BindFramebufferAsTexture`: `n` iterations are left, the next one
visits index `i`. -/
def BindFramebufferAsTexture.loop (fb : Nat) :
    Nat → Nat → List VKRStep → Option (List VKRStep)
  | 0, _, steps => some steps
  | n + 1, i, steps =>
    match steps[i]? with
    | none => some steps
    | some s =>
      if s.stepType = VKStepType.RENDER ∧ s.render.framebuffer = some fb then
        if s.render.finalColorLayout = VkImageLayout.UNDEFINED then
          BindFramebufferAsTexture.loop fb n (i + 1) (steps.set i (markShaderRead s))
        else none
      else BindFramebufferAsTexture.loop fb n (i + 1) steps

/-- `BindFramebufferAsTexture`: the loop runs over `0 <= i < (int)steps_.size() - 1`;
the result is the image view returned. -/
def BindFramebufferAsTexture (fb : Nat) (_binding _aspectBit _attachment : Int)
    (m : VulkanRenderManager) : Option (VulkanRenderManager × Nat) :=
  match BindFramebufferAsTexture.loop fb (m.steps_.length - 1) 0 m.steps_ with
  | none => none
  | some steps => some ({ m with steps_ := steps }, (m.fbs fb).color.imageView)

/-! ### Executor -/

/-- The barrier `PerformBindFramebufferAsRenderTarget` builds for the colour image. -/
def colorAttachmentBarrier (img : VKImage) : VkImageMemoryBarrier :=
  { oldLayout := img.layout
    layerCount := 1
    levelCount := 1
    image := img.image
    srcAccessMask :=
      match img.layout with
      | .SHADER_READ_ONLY_OPTIMAL => VK_ACCESS_SHADER_READ_BIT
      | .TRANSFER_DST_OPTIMAL => VK_ACCESS_TRANSFER_WRITE_BIT
      | .TRANSFER_SRC_OPTIMAL => VK_ACCESS_TRANSFER_READ_BIT
      | _ => 0
    dstAccessMask := VK_ACCESS_COLOR_ATTACHMENT_WRITE_BIT ||| VK_ACCESS_COLOR_ATTACHMENT_READ_BIT
    newLayout := VkImageLayout.COLOR_ATTACHMENT_OPTIMAL
    aspectMask := VK_IMAGE_ASPECT_COLOR_BIT }

/-- The barrier `PerformBindFramebufferAsRenderTarget` builds for the depth image. -/
def depthAttachmentBarrier (img : VKImage) : VkImageMemoryBarrier :=
  { oldLayout := img.layout
    layerCount := 1
    levelCount := 1
    image := img.image
    srcAccessMask :=
      match img.layout with
      | .SHADER_READ_ONLY_OPTIMAL => VK_ACCESS_SHADER_READ_BIT
      | .TRANSFER_SRC_OPTIMAL => VK_ACCESS_TRANSFER_READ_BIT
      | .TRANSFER_DST_OPTIMAL => VK_ACCESS_TRANSFER_WRITE_BIT
      | _ => 0
    dstAccessMask :=
      VK_ACCESS_DEPTH_STENCIL_ATTACHMENT_WRITE_BIT ||| VK_ACCESS_DEPTH_STENCIL_ATTACHMENT_READ_BIT
    newLayout := VkImageLayout.DEPTH_STENCIL_ATTACHMENT_OPTIMAL
    aspectMask := VK_IMAGE_ASPECT_DEPTH_BIT ||| VK_IMAGE_ASPECT_STENCIL_BIT }

/-- `PerformBindFramebufferAsRenderTarget`, the branch `framebuf == curFramebuffer_`:
the clear command for an already bound target. -/
def boundClear (step : VKRStep) (w h : Nat) : List VkCommand :=
  let clear : List VkClearAttachment :=
    (if step.render.color = RenderPassAction.CLEAR then
      [{ aspectMask := VK_IMAGE_ASPECT_COLOR_BIT
         clearValue := VkClearValue.color step.render.clearColor
         colorAttachment := some 0 }]
    else []) ++
    (if step.render.depthStencil = RenderPassAction.CLEAR then
      [{ aspectMask := VK_IMAGE_ASPECT_DEPTH_BIT ||| VK_IMAGE_ASPECT_STENCIL_BIT
         clearValue := VkClearValue.depthStencil (some step.render.clearDepth)
           (some (toUint32 step.render.clearStencil))
         colorAttachment := some 0 }]
    else [])
  if clear.length > 0 then
    [VkCommand.ClearAttachments clear
      { rect := { offset := { x := 0, y := 0 },
                  extent := { width := w % 2 ^ 32, height := h % 2 ^ 32 } },
        baseArrayLayer := 0, layerCount := 1 }]
  else []

/-- `PerformBindFramebufferAsRenderTarget`, the block
`if (step.render.framebuffer->color.layout != VK_IMAGE_LAYOUT_COLOR_ATTACHMENT_OPTIMAL)`:
the framebuffer object afterwards and the commands recorded. -/
def transitionColorToAttachment (f : VKRFramebuffer) : VKRFramebuffer × List VkCommand :=
  if f.color.layout ≠ VkImageLayout.COLOR_ATTACHMENT_OPTIMAL then
    let barrier := colorAttachmentBarrier f.color
    ({ f with color := { f.color with layout := barrier.newLayout } },
      [VkCommand.PipelineBarrier VK_PIPELINE_STAGE_BOTTOM_OF_PIPE_BIT
        VK_PIPELINE_STAGE_COLOR_ATTACHMENT_OUTPUT_BIT [barrier]])
  else (f, [])

/-- `PerformBindFramebufferAsRenderTarget`, the block
`if (fb->depth.layout != VK_IMAGE_LAYOUT_DEPTH_STENCIL_ATTACHMENT_OPTIMAL)`:
the framebuffer object afterwards and the commands recorded. -/
def transitionDepthToAttachment (f : VKRFramebuffer) : VKRFramebuffer × List VkCommand :=
  if f.depth.layout ≠ VkImageLayout.DEPTH_STENCIL_ATTACHMENT_OPTIMAL then
    let barrier := depthAttachmentBarrier f.depth
    ({ f with depth := { f.depth with layout := barrier.newLayout } },
      [VkCommand.PipelineBarrier VK_PIPELINE_STAGE_BOTTOM_OF_PIPE_BIT
        VK_PIPELINE_STAGE_EARLY_FRAGMENT_TESTS_BIT [barrier]])
  else (f, [])

/-- `PerformBindFramebufferAsRenderTarget`. -/
def PerformBindFramebufferAsRenderTarget (step : VKRStep) (m : VulkanRenderManager) :
    Option (VulkanRenderManager × List VkCommand) :=
  let framebuf : Nat :=
    match step.render.framebuffer with
    | some fb => (m.fbs fb).framebuf
    | none => m.framebuffers_ m.current_buffer
  let w : Nat :=
    match step.render.framebuffer with
    | some fb => (m.fbs fb).width
    | none => m.backbufferWidth
  let h : Nat :=
    match step.render.framebuffer with
    | some fb => (m.fbs fb).height
    | none => m.backbufferHeight
  if framebuf = m.curFramebuffer_ then
    if framebuf = 0 then none
    else if m.curRenderPass_ = 0 then none
    else some (m, boundClear step w h)
  else
    -- OK, we're switching framebuffers.
    let ended : List VkCommand :=
      if m.curRenderPass_ ≠ 0 then [VkCommand.EndRenderPass] else []
    let m1 : VulkanRenderManager :=
      if m.curRenderPass_ ≠ 0 then { m with curRenderPass_ := 0, curFramebuffer_ := 0 } else m
    match step.render.framebuffer with
    | some fb =>
      let tc := transitionColorToAttachment (m1.fbs fb)
      let td := transitionDepthToAttachment tc.1
      let renderPass := m1.renderPasses_ (RPIndex step.render.color step.render.depthStencil)
      let clearVal0 : VkClearValue :=
        if step.render.color = RenderPassAction.CLEAR then
          VkClearValue.color step.render.clearColor
        else VkClearValue.zero
      let numClearVals0 : Nat := if step.render.color = RenderPassAction.CLEAR then 1 else 0
      let clearVal1 : VkClearValue :=
        if step.render.depthStencil = RenderPassAction.CLEAR then
          VkClearValue.depthStencil (some step.render.clearDepth)
            (some (toUint32 step.render.clearStencil))
        else VkClearValue.zero
      let numClearVals : Nat :=
        if step.render.depthStencil = RenderPassAction.CLEAR then 2 else numClearVals0
      let rp_begin : VkRenderPassBeginInfo :=
        { renderPass := renderPass
          framebuffer := framebuf
          renderArea := { offset := { x := 0, y := 0 }, extent := { width := w, height := h } }
          clearValueCount := numClearVals
          pClearValues := if numClearVals ≠ 0 then some [clearVal0, clearVal1] else none }
      some ({ m1 with fbs := Function.update m1.fbs fb td.1
                      curFramebuffer_ := framebuf
                      curRenderPass_ := renderPass
                      curWidth_ := w
                      curHeight_ := h },
        ended ++ tc.2 ++ td.2 ++ [VkCommand.BeginRenderPass rp_begin])
    | none =>
      let renderPass := GetSurfaceRenderPass m1
      let rp_begin : VkRenderPassBeginInfo :=
        { renderPass := renderPass
          framebuffer := framebuf
          renderArea := { offset := { x := 0, y := 0 }, extent := { width := w, height := h } }
          clearValueCount := 2
          pClearValues := some [VkClearValue.zero, VkClearValue.zero] }
      some ({ m1 with curFramebuffer_ := framebuf
                      curRenderPass_ := renderPass
                      curWidth_ := w
                      curHeight_ := h },
        ended ++ [VkCommand.BeginRenderPass rp_begin])

/-- `PerformRenderPass`, one iteration of the loop over `step.commands`: the commands
recorded for the sub-command `c`; `curWidth_` and `curHeight_` size a clear. -/
def playCommand (curWidth_ curHeight_ : Nat) (c : VkRenderData) : List VkCommand :=
  match c with
  | .VIEWPORT vp => [VkCommand.SetViewport vp]
  | .SCISSOR scissor => [VkCommand.SetScissor scissor]
  | .BLEND color => [VkCommand.SetBlendConstants color]
  | .STENCIL stencilWriteMask stencilCompareMask stencilRef =>
    [VkCommand.SetStencilWriteMask stencilWriteMask,
     VkCommand.SetStencilCompareMask stencilCompareMask,
     VkCommand.SetStencilReference stencilRef]
  | .DRAW_INDEXED d =>
    [VkCommand.BindPipeline d.pipeline,
     VkCommand.BindDescriptorSets d.pipelineLayout d.ds d.numUboOffsets d.uboOffsets,
     VkCommand.BindIndexBuffer d.ibuffer d.ioffset,
     VkCommand.BindVertexBuffers d.vbuffer d.voffset,
     VkCommand.DrawIndexed d.count d.instances]
  | .DRAW d =>
    [VkCommand.BindPipeline d.pipeline,
     VkCommand.BindDescriptorSets d.pipelineLayout d.ds d.numUboOffsets d.uboOffsets,
     VkCommand.BindVertexBuffers d.vbuffer d.voffset,
     VkCommand.Draw d.count]
  | .CLEAR cl =>
    let attachments : List VkClearAttachment :=
      (if cl.clearMask &&& VK_IMAGE_ASPECT_COLOR_BIT ≠ 0 then
        [{ aspectMask := VK_IMAGE_ASPECT_COLOR_BIT
           colorAttachment := some 0
           clearValue := VkClearValue.color cl.clearColor }]
      else []) ++
      (if cl.clearMask &&& (VK_IMAGE_ASPECT_DEPTH_BIT ||| VK_IMAGE_ASPECT_STENCIL_BIT) ≠ 0 then
        [{ aspectMask :=
             (if cl.clearMask &&& VK_IMAGE_ASPECT_DEPTH_BIT ≠ 0
               then VK_IMAGE_ASPECT_DEPTH_BIT else 0) |||
             (if cl.clearMask &&& VK_IMAGE_ASPECT_STENCIL_BIT ≠ 0
               then VK_IMAGE_ASPECT_STENCIL_BIT else 0)
           colorAttachment := none
           clearValue := VkClearValue.depthStencil
             (if cl.clearMask &&& VK_IMAGE_ASPECT_DEPTH_BIT ≠ 0 then some cl.clearZ else none)
             (if cl.clearMask &&& VK_IMAGE_ASPECT_STENCIL_BIT ≠ 0
               then some (toUint32 cl.clearStencil) else none) }]
      else [])
    if attachments.length ≠ 0 then
      [VkCommand.ClearAttachments attachments
        { rect := { offset := { x := 0, y := 0 },
                    extent := { width := curWidth_, height := curHeight_ } },
          baseArrayLayer := 0, layerCount := 1 }]
    else []
  | .OTHER _ => []

/-- `PerformRenderPass`. -/
def PerformRenderPass (step : VKRStep) (m : VulkanRenderManager) :
    Option (VulkanRenderManager × List VkCommand) :=
  match PerformBindFramebufferAsRenderTarget step m with
  | none => none
  | some (m1, bound) =>
    some (m1, bound ++ (step.commands.map (playCommand m1.curWidth_ m1.curHeight_)).flatten
      ++ [VkCommand.EndRenderPass])

/-- `SetupTransitionToTransferSrc`: the image afterwards and the barrier filled in. -/
def SetupTransitionToTransferSrc (img : VKImage) (aspect : Nat) :
    Option (VKImage × VkImageMemoryBarrier) :=
  let srcAccessMask : Option Nat :=
    match img.layout with
    | .COLOR_ATTACHMENT_OPTIMAL => some VK_ACCESS_COLOR_ATTACHMENT_WRITE_BIT
    | .DEPTH_STENCIL_ATTACHMENT_OPTIMAL => some VK_ACCESS_DEPTH_STENCIL_ATTACHMENT_WRITE_BIT
    | .TRANSFER_DST_OPTIMAL => some VK_ACCESS_TRANSFER_WRITE_BIT
    | .SHADER_READ_ONLY_OPTIMAL => some VK_ACCESS_SHADER_READ_BIT
    | _ => none
  match srcAccessMask with
  | none => none
  | some srcAccessMask =>
    let barrier : VkImageMemoryBarrier :=
      { oldLayout := img.layout
        layerCount := 1
        levelCount := 1
        image := img.image
        srcAccessMask := srcAccessMask
        dstAccessMask := VK_ACCESS_TRANSFER_READ_BIT
        newLayout := VkImageLayout.TRANSFER_SRC_OPTIMAL
        aspectMask := aspect }
    some ({ img with layout := barrier.newLayout }, barrier)

/-- `SetupTransitionToTransferDst`: the image afterwards and the barrier filled in. -/
def SetupTransitionToTransferDst (img : VKImage) (aspect : Nat) :
    Option (VKImage × VkImageMemoryBarrier) :=
  let srcAccessMask : Option Nat :=
    match img.layout with
    | .COLOR_ATTACHMENT_OPTIMAL => some VK_ACCESS_COLOR_ATTACHMENT_WRITE_BIT
    | .TRANSFER_SRC_OPTIMAL => some VK_ACCESS_TRANSFER_READ_BIT
    | .DEPTH_STENCIL_ATTACHMENT_OPTIMAL => some VK_ACCESS_DEPTH_STENCIL_ATTACHMENT_WRITE_BIT
    | .SHADER_READ_ONLY_OPTIMAL => some VK_ACCESS_SHADER_READ_BIT
    | _ => none
  match srcAccessMask with
  | none => none
  | some srcAccessMask =>
    let barrier : VkImageMemoryBarrier :=
      { oldLayout := img.layout
        layerCount := 1
        levelCount := 1
        image := img.image
        srcAccessMask := srcAccessMask
        dstAccessMask := VK_ACCESS_TRANSFER_WRITE_BIT
        newLayout := VkImageLayout.TRANSFER_DST_OPTIMAL
        aspectMask := aspect }
    some ({ img with layout := barrier.newLayout }, barrier)

/-- The local state of `PerformCopy` and `PerformBlit` while they collect barriers:
the heap of framebuffer objects and the two barrier arrays filled so far. -/
structure TransferBarriers where
  fbs : Nat → VKRFramebuffer
  srcBarriers : List VkImageMemoryBarrier
  dstBarriers : List VkImageMemoryBarrier

/-- `if (src->color.layout != TRANSFER_SRC_OPTIMAL) SetupTransitionToTransferSrc(src->color,
srcBarriers[srcCount++], VK_IMAGE_ASPECT_COLOR_BIT)`. -/
def srcColorToTransfer (src : Nat) (t : TransferBarriers) : Option TransferBarriers :=
  if (t.fbs src).color.layout ≠ VkImageLayout.TRANSFER_SRC_OPTIMAL then
    match SetupTransitionToTransferSrc (t.fbs src).color VK_IMAGE_ASPECT_COLOR_BIT with
    | none => none
    | some (img, barrier) =>
      some { t with fbs := Function.update t.fbs src { t.fbs src with color := img }
                    srcBarriers := t.srcBarriers ++ [barrier] }
  else some t

/-- `if (dst->color.layout != TRANSFER_DST_OPTIMAL) SetupTransitionToTransferDst(dst->color,
dstBarriers[dstCount++], VK_IMAGE_ASPECT_COLOR_BIT)`. -/
def dstColorToTransfer (dst : Nat) (t : TransferBarriers) : Option TransferBarriers :=
  if (t.fbs dst).color.layout ≠ VkImageLayout.TRANSFER_DST_OPTIMAL then
    match SetupTransitionToTransferDst (t.fbs dst).color VK_IMAGE_ASPECT_COLOR_BIT with
    | none => none
    | some (img, barrier) =>
      some { t with fbs := Function.update t.fbs dst { t.fbs dst with color := img }
                    dstBarriers := t.dstBarriers ++ [barrier] }
  else some t

/-- `if (src->depth.layout != TRANSFER_SRC_OPTIMAL) SetupTransitionToTransferSrc(src->depth,
srcBarriers[srcCount++], VK_IMAGE_ASPECT_DEPTH_BIT | VK_IMAGE_ASPECT_STENCIL_BIT)`. -/
def srcDepthToTransfer (src : Nat) (t : TransferBarriers) : Option TransferBarriers :=
  if (t.fbs src).depth.layout ≠ VkImageLayout.TRANSFER_SRC_OPTIMAL then
    match SetupTransitionToTransferSrc (t.fbs src).depth
        (VK_IMAGE_ASPECT_DEPTH_BIT ||| VK_IMAGE_ASPECT_STENCIL_BIT) with
    | none => none
    | some (img, barrier) =>
      some { t with fbs := Function.update t.fbs src { t.fbs src with depth := img }
                    srcBarriers := t.srcBarriers ++ [barrier] }
  else some t

/-- `if (dst->depth.layout != TRANSFER_DST_OPTIMAL) SetupTransitionToTransferDst(dst->depth,
dstBarriers[dstCount++], VK_IMAGE_ASPECT_DEPTH_BIT | VK_IMAGE_ASPECT_STENCIL_BIT)`. -/
def dstDepthToTransfer (dst : Nat) (t : TransferBarriers) : Option TransferBarriers :=
  if (t.fbs dst).depth.layout ≠ VkImageLayout.TRANSFER_DST_OPTIMAL then
    match SetupTransitionToTransferDst (t.fbs dst).depth
        (VK_IMAGE_ASPECT_DEPTH_BIT ||| VK_IMAGE_ASPECT_STENCIL_BIT) with
    | none => none
    | some (img, barrier) =>
      some { t with fbs := Function.update t.fbs dst { t.fbs dst with depth := img }
                    dstBarriers := t.dstBarriers ++ [barrier] }
  else some t

/-- The barrier part shared by `PerformCopy` and `PerformBlit`, from "First source
barriers" to the two `vkCmdPipelineBarrier` calls: the heap afterwards and the
commands recorded. -/
def transferBarriers (src dst aspectMask : Nat) (fbs : Nat → VKRFramebuffer) :
    Option ((Nat → VKRFramebuffer) × List VkCommand) :=
  let t0 : TransferBarriers := { fbs := fbs, srcBarriers := [], dstBarriers := [] }
  let t1 : Option TransferBarriers :=
    if aspectMask &&& VK_IMAGE_ASPECT_COLOR_BIT ≠ 0 then
      (srcColorToTransfer src t0).bind (dstColorToTransfer dst)
    else some t0
  let t2 : Option TransferBarriers :=
    t1.bind fun t =>
      if aspectMask &&& (VK_IMAGE_ASPECT_DEPTH_BIT ||| VK_IMAGE_ASPECT_STENCIL_BIT) ≠ 0 then
        (srcDepthToTransfer src t).bind (dstDepthToTransfer dst)
      else some t
  t2.map fun t =>
    (t.fbs,
      (if t.srcBarriers.length ≠ 0 then
        [VkCommand.PipelineBarrier VK_PIPELINE_STAGE_TOP_OF_PIPE_BIT
          VK_PIPELINE_STAGE_BOTTOM_OF_PIPE_BIT t.srcBarriers]
      else []) ++
      (if t.dstBarriers.length ≠ 0 then
        [VkCommand.PipelineBarrier VK_PIPELINE_STAGE_TOP_OF_PIPE_BIT
          VK_PIPELINE_STAGE_BOTTOM_OF_PIPE_BIT t.dstBarriers]
      else []))

/-- The aspect mask the depth/stencil copy or blit is given: the depth bit and the
stencil bit of the step's mask. -/
def depthStencilAspect (aspectMask : Nat) : Nat :=
  (if aspectMask &&& VK_IMAGE_ASPECT_DEPTH_BIT ≠ 0 then VK_IMAGE_ASPECT_DEPTH_BIT else 0) |||
  (if aspectMask &&& VK_IMAGE_ASPECT_STENCIL_BIT ≠ 0 then VK_IMAGE_ASPECT_STENCIL_BIT else 0)

/-- `PerformCopy`. -/
def PerformCopy (step : VKRStep) (m : VulkanRenderManager) :
    Option (VulkanRenderManager × List VkCommand) :=
  let src := step.copy.src
  let dst := step.copy.dst
  let copy : Nat → VkImageCopy := fun aspect =>
    { srcAspectMask := aspect
      srcOffset := { x := step.copy.srcRect.offset.x, y := step.copy.srcRect.offset.y }
      dstAspectMask := aspect
      dstOffset := { x := step.copy.dstPos.x, y := step.copy.dstPos.y }
      extent := { width := step.copy.srcRect.extent.width,
                  height := step.copy.srcRect.extent.height } }
  match transferBarriers src dst step.copy.aspectMask m.fbs with
  | none => none
  | some (fbs, barriers) =>
    some ({ m with fbs := fbs },
      barriers ++
      (if step.copy.aspectMask &&& VK_IMAGE_ASPECT_COLOR_BIT ≠ 0 then
        [VkCommand.CopyImage (fbs src).color.image (fbs src).color.layout
          (fbs dst).color.image (fbs dst).color.layout (copy VK_IMAGE_ASPECT_COLOR_BIT)]
      else []) ++
      (if step.copy.aspectMask &&& (VK_IMAGE_ASPECT_DEPTH_BIT ||| VK_IMAGE_ASPECT_STENCIL_BIT) ≠ 0
      then
        [VkCommand.CopyImage (fbs src).depth.image (fbs src).depth.layout
          (fbs dst).depth.image (fbs dst).depth.layout
          (copy (depthStencilAspect step.copy.aspectMask))]
      else []))

/-- `PerformBlit`. -/
def PerformBlit (step : VKRStep) (m : VulkanRenderManager) :
    Option (VulkanRenderManager × List VkCommand) :=
  let src := step.blit.src
  let dst := step.blit.dst
  let blit : Nat → VkImageBlit := fun aspect =>
    { srcAspectMask := aspect
      srcOffsets0 := { x := step.blit.srcRect.offset.x, y := step.blit.srcRect.offset.y }
      srcOffsets1 :=
        { x := toInt32 (step.blit.srcRect.offset.x + step.blit.srcRect.extent.width)
          y := toInt32 (step.blit.srcRect.offset.y + step.blit.srcRect.extent.height) }
      dstAspectMask := aspect
      dstOffsets0 := { x := step.blit.dstRect.offset.x, y := step.blit.dstRect.offset.y }
      dstOffsets1 :=
        { x := toInt32 (step.blit.dstRect.offset.x + step.blit.dstRect.extent.width)
          y := toInt32 (step.blit.dstRect.offset.y + step.blit.dstRect.extent.height) } }
  match transferBarriers src dst step.blit.aspectMask m.fbs with
  | none => none
  | some (fbs, barriers) =>
    some ({ m with fbs := fbs },
      barriers ++
      (if step.blit.aspectMask &&& VK_IMAGE_ASPECT_COLOR_BIT ≠ 0 then
        [VkCommand.BlitImage (fbs src).color.image (fbs src).color.layout
          (fbs dst).color.image (fbs dst).color.layout (blit VK_IMAGE_ASPECT_COLOR_BIT)
          step.blit.filter]
      else []) ++
      (if step.blit.aspectMask &&& (VK_IMAGE_ASPECT_DEPTH_BIT ||| VK_IMAGE_ASPECT_STENCIL_BIT) ≠ 0
      then
        [VkCommand.BlitImage (fbs src).depth.image (fbs src).depth.layout
          (fbs dst).depth.image (fbs dst).depth.layout
          (blit (depthStencilAspect step.blit.aspectMask)) step.blit.filter]
      else []))

/-- `Flush`, the body of the loop over `stepsOnThread_`: the dispatch on the step type. -/
def performStep (step : VKRStep) (m : VulkanRenderManager) :
    Option (VulkanRenderManager × List VkCommand) :=
  match step.stepType with
  | .RENDER => PerformRenderPass step m
  | .COPY => PerformCopy step m
  | .BLIT => PerformBlit step m
  | .READBACK => some (m, [])

/-- `Flush`, the loop over `stepsOnThread_`. -/
def performSteps : List VKRStep → VulkanRenderManager →
    Option (VulkanRenderManager × List VkCommand)
  | [], m => some (m, [])
  | step :: rest, m =>
    match performStep step m with
    | none => none
    | some (m1, cmds) =>
      match performSteps rest m1 with
      | none => none
      | some (m2, cmds2) => some (m2, cmds ++ cmds2)

/-- `Flush`.  `acquired` is the image index `vkAcquireNextImageKHR` stores into
`current_buffer`; the commands are those recorded into the frame's main command
buffer.  `std::move` leaves `steps_` empty. -/
def Flush (acquired : Nat) (m : VulkanRenderManager) :
    Option (VulkanRenderManager × List VkCommand) :=
  let m1 : VulkanRenderManager :=
    { m with stepsOnThread_ := m.steps_, steps_ := [], current_buffer := acquired }
  match performSteps m1.stepsOnThread_ m1 with
  | none => none
  | some (m2, cmds) =>
    some ({ m2 with stepsOnThread_ := [] },
      VkCommand.TransitionFromPresent (m1.swapchainImages_ m1.current_buffer) :: cmds)

/-! ### Recorder calls declared in the header, and the states of the examples -/

/-- Modelled from the spec: the step `new VKRStep(VKStepType::RENDER)` builds for
`BeginRenderPass(target)`; the constructor is declared in VulkanRenderManager.h, which
is not among the sources.  A newly opened Render step has the target, no
sub-command, a draw count of zero and no final layout hint; its load actions are
Keep until a clear is folded into them. -/
def freshStep (target : Option Nat) : VKRStep :=
  { stepType := VKStepType.RENDER
    commands := []
    render :=
      { framebuffer := target
        color := RenderPassAction.KEEP
        depthStencil := RenderPassAction.KEEP
        clearColor := 0
        clearDepth := 0
        clearStencil := 0
        numDraws := 0
        finalColorLayout := VkImageLayout.UNDEFINED }
    copy :=
      { src := 0, dst := 0
        srcRect := { offset := { x := 0, y := 0 }, extent := { width := 0, height := 0 } }
        dstPos := { x := 0, y := 0 }, aspectMask := 0 }
    blit :=
      { src := 0, dst := 0
        srcRect := { offset := { x := 0, y := 0 }, extent := { width := 0, height := 0 } }
        dstRect := { offset := { x := 0, y := 0 }, extent := { width := 0, height := 0 } }
        aspectMask := 0, filter := 0 } }

/-- Modelled from the spec: `DrawIndexed`, declared in VulkanRenderManager.h, which is
not among the sources: it appends a sub-command capturing pipeline, descriptor set,
vertex/index buffer bindings and offsets, and draw counts to the current Render
step, which counts the draw; with no open Render step the call is a usage error. -/
def DrawIndexed (d : DrawIndexedData) (m : VulkanRenderManager) : Option VulkanRenderManager :=
  match m.curStep_ with
  | none => none
  | some i =>
    match m.steps_[i]? with
    | none => none
    | some s =>
      if s.stepType ≠ VKStepType.RENDER then none
      else
        let s1 : VKRStep :=
          { s with commands := s.commands ++ [VkRenderData.DRAW_INDEXED d]
                   render := { s.render with numDraws := s.render.numDraws + 1 } }
        some { m with steps_ := m.steps_.set i s1 }

/-- A sequence of `Clear` calls, one per entry, in order. -/
def clearAll : List ClearData → VulkanRenderManager → Option VulkanRenderManager
  | [], m => some m
  | c :: cs, m =>
    match Clear c.clearColor c.clearZ c.clearStencil c.clearMask m with
    | none => none
    | some m1 => clearAll cs m1

/-- The framebuffer object the examples keep at address `p`, its two images in the
given layouts. -/
def exampleFramebuffer (p : Nat) (colorLayout depthLayout : VkImageLayout) : VKRFramebuffer :=
  { framebuf := 300 + p
    color := { image := 400 + p, imageView := 500 + p, layout := colorLayout }
    depth := { image := 600 + p, imageView := 700 + p, layout := depthLayout }
    width := 512
    height := 272 }

/-- The manager state the examples start from: nothing recorded, no framebuffer
bound, no pass open, every off-screen framebuffer in attachment layouts. -/
def exampleManager : VulkanRenderManager :=
  { steps_ := []
    stepsOnThread_ := []
    curStep_ := none
    curFramebuffer_ := 0
    curRenderPass_ := 0
    curWidth_ := 0
    curHeight_ := 0
    current_buffer := 0
    framebuffers_ := fun i => 100 + i
    swapchainImages_ := fun i => 200 + i
    renderPasses_ := fun i => 10 + i
    backbufferRenderPass_ := 9
    backbufferWidth := 480
    backbufferHeight := 272
    fbs := fun p => exampleFramebuffer p VkImageLayout.COLOR_ATTACHMENT_OPTIMAL
      VkImageLayout.DEPTH_STENCIL_ATTACHMENT_OPTIMAL }

/-- The Render step of the examples: target `target`, both load actions Keep, no
sub-command. -/
def exampleRenderStep (target : Option Nat) : VKRStep := freshStep target

/-- The Copy step of the examples: from framebuffer `src` to framebuffer `dst`, a
16 x 16 rectangle. -/
def exampleCopyStep (src dst aspectMask : Nat) : VKRStep :=
  { freshStep none with
    stepType := VKStepType.COPY
    copy :=
      { src := src, dst := dst
        srcRect := { offset := { x := 0, y := 0 }, extent := { width := 16, height := 16 } }
        dstPos := { x := 0, y := 0 }, aspectMask := aspectMask } }

/-- The Blit step of the examples: from framebuffer `src` to framebuffer `dst`, a
16 x 16 rectangle onto a 32 x 32 one. -/
def exampleBlitStep (src dst aspectMask : Nat) : VKRStep :=
  { freshStep none with
    stepType := VKStepType.BLIT
    blit :=
      { src := src, dst := dst
        srcRect := { offset := { x := 0, y := 0 }, extent := { width := 16, height := 16 } }
        dstRect := { offset := { x := 0, y := 0 }, extent := { width := 32, height := 32 } }
        aspectMask := aspectMask, filter := 0 } }

/-- The recorder state of the examples with three Render steps recorded: two
targeting the framebuffer at address 1, then one targeting the backbuffer. -/
def exampleLog : VulkanRenderManager :=
  BeginRenderPass (freshStep none)
    (BeginRenderPass (freshStep (some 1))
      (BeginRenderPass (freshStep (some 1)) exampleManager))

/-- The recorder state of the examples with two Render steps recorded, both
targeting the framebuffer at address 1. -/
def exampleLogTwo : VulkanRenderManager :=
  BeginRenderPass (freshStep (some 1))
    (BeginRenderPass (freshStep (some 1)) exampleManager)

/-- The manager state of the examples in which the colour image of every off-screen
framebuffer was last sampled: colour layout shader-read-only, depth layout
depth-stencil-attachment. -/
def exampleManagerSampled : VulkanRenderManager :=
  { exampleManager with
    fbs := fun p => exampleFramebuffer p VkImageLayout.SHADER_READ_ONLY_OPTIMAL
      VkImageLayout.DEPTH_STENCIL_ATTACHMENT_OPTIMAL }

/-- The manager state of the examples in which a render pass is recorded as open on
the framebuffer at address 1, as executing a Render step targeting it leaves it. -/
def exampleManagerBound : VulkanRenderManager :=
  { exampleManager with curFramebuffer_ := 301, curRenderPass_ := 14 }

/-- The indexed draw of the examples. -/
def exampleDrawIndexed : DrawIndexedData :=
  { pipeline := 1, pipelineLayout := 2, ds := 3, numUboOffsets := 0, uboOffsets := []
    vbuffer := 4, voffset := 0, ibuffer := 5, ioffset := 0, count := 6, instances := 1 }

/-- The recording of the sampling scenario, then `Flush`: `BeginRenderPass(fbA)`,
`Clear` of the colour aspect, `BindFramebufferAsTexture(fbA)`,
`BeginRenderPass(backbuffer)`; `fbA` is the framebuffer at address 1. -/
def exampleSamplingScenario : Option (VulkanRenderManager × List VkCommand) :=
  (Clear 0xFF102030 0 0 VK_IMAGE_ASPECT_COLOR_BIT
    (BeginRenderPass (freshStep (some 1)) exampleManager)).bind fun m1 =>
  (BindFramebufferAsTexture 1 0 VK_IMAGE_ASPECT_COLOR_BIT 0 m1).bind fun r =>
  Flush 0 (BeginRenderPass (freshStep none) r.1)

/-- The recording of the backbuffer scenario, then `Flush`:
`BeginRenderPass(backbuffer)`, `Clear(color=0xFF0000FF, depth=1.0, stencil=0,
mask=COLOR|DEPTH)`, `DrawIndexed`; `0x3F800000` is the float 1.0. -/
def exampleBackbufferScenario : Option (VulkanRenderManager × List VkCommand) :=
  (Clear 0xFF0000FF 0x3F800000 0 (VK_IMAGE_ASPECT_COLOR_BIT ||| VK_IMAGE_ASPECT_DEPTH_BIT)
    (BeginRenderPass (freshStep none) exampleManager)).bind fun m1 =>
  (DrawIndexed exampleDrawIndexed m1).bind fun m2 =>
  Flush 0 m2

/-! ### Reading a command stream and a log -/

/-- The image barriers a recorded command carries. -/
def barriersOf : VkCommand → List VkImageMemoryBarrier
  | .PipelineBarrier _ _ barriers => barriers
  | _ => []

/-- Whether a recorded command begins a render pass. -/
def isBeginRenderPass : VkCommand → Bool
  | .BeginRenderPass _ => true
  | _ => false

/-- Whether a recorded command ends a render pass. -/
def isEndRenderPass : VkCommand → Bool
  | .EndRenderPass => true
  | _ => false

/-- The colour and the depth/stencil load action of the step at index `i` of the
recorder's log. -/
def loadActions (i : Nat) (m : VulkanRenderManager) :
    Option (RenderPassAction × RenderPassAction) :=
  (m.steps_[i]?).map fun s => (s.render.color, s.render.depthStencil)

/-- The final-colour-layout hints of the steps of the recorder's log, in order. -/
def finalColorLayouts (m : VulkanRenderManager) : List VkImageLayout :=
  m.steps_.map fun s => s.render.finalColorLayout

/-- Whether a recorded command is a pipeline barrier. -/
def isPipelineBarrier : VkCommand → Bool
  | .PipelineBarrier _ _ _ => true
  | _ => false

/-- Whether a command stream, read from a point where a render pass is open
(`inPass`) or not, nests its render passes properly: a begin only while no pass is
open, an end only while one is open, and the draw, state-setting and
clear-attachments commands only while one is open. -/
def wellNested : Bool → List VkCommand → Bool
  | _, [] => true
  | inPass, .BeginRenderPass _ :: rest => !inPass && wellNested true rest
  | inPass, .EndRenderPass :: rest => inPass && wellNested false rest
  | inPass, .PipelineBarrier _ _ _ :: rest => wellNested inPass rest
  | inPass, .CopyImage _ _ _ _ _ :: rest => wellNested inPass rest
  | inPass, .BlitImage _ _ _ _ _ _ :: rest => wellNested inPass rest
  | inPass, .TransitionFromPresent _ :: rest => wellNested inPass rest
  | inPass, _ :: rest => inPass && wellNested inPass rest

/-- The Render step of the examples that has one draw. -/
def exampleDrawnStep : VKRStep :=
  { freshStep (some 1) with
    commands := [VkRenderData.DRAW_INDEXED exampleDrawIndexed]
    render := { (freshStep (some 1)).render with numDraws := 1 } }

/-- The recorder state of the examples with one Render step that has one draw. -/
def exampleManagerDrawn : VulkanRenderManager :=
  { exampleManager with steps_ := [exampleDrawnStep], curStep_ := some 0 }

/-- The recorder state of the examples with two Render steps recorded, the first
targeting the framebuffer at address 1 and the second the backbuffer. -/
def exampleLogSwitch : VulkanRenderManager :=
  BeginRenderPass (freshStep none)
    (BeginRenderPass (freshStep (some 1)) exampleManager)

/-- The Render step of the examples with a colour clear folded in, targeting the
framebuffer at address 1. -/
def exampleClearStep : VKRStep :=
  mergeClear 0xFF102030 0 0 VK_IMAGE_ASPECT_COLOR_BIT (freshStep (some 1))

/-- The recorder state of the examples with two Render steps recorded, both
targeting the framebuffer at address 1 and both with a colour clear folded in. -/
def exampleLogTwoClears : VulkanRenderManager :=
  { exampleManager with steps_ := [exampleClearStep, exampleClearStep], curStep_ := some 1 }

/-- The recorder state of the examples with four steps recorded: a Render step on
the framebuffer at address 1, a Readback step, a Copy step of the colour aspect from
framebuffer 1 to framebuffer 2, and a Render step on the backbuffer. -/
def exampleLogMixed : VulkanRenderManager :=
  { exampleManager with
    steps_ :=
      [exampleRenderStep (some 1),
       { freshStep none with stepType := VKStepType.READBACK },
       exampleCopyStep 1 2 VK_IMAGE_ASPECT_COLOR_BIT,
       exampleRenderStep none]
    curStep_ := some 3 }

/-- What `Flush` returns for `exampleLogMixed` when image 0 is acquired. -/
def exampleFlushedMixed : VulkanRenderManager × List VkCommand :=
  (Flush 0 exampleLogMixed).getD (exampleManager, [])

/-! ### Frame slots -/

abbrev VK_COMMAND_BUFFER_USAGE_ONE_TIME_SUBMIT_BIT : Nat := 0x1

abbrev UINT64_MAX : Nat := 2 ^ 64 - 1

/-- A frame slot: the handles of its command pool, its two command buffers and its
fence, and whether it has pending init commands. -/
structure FrameData where
  cmdPool : Nat
  mainCmd : Nat
  initCmd : Nat
  fence : Nat
  hasInitCommands : Bool
  deriving DecidableEq, Repr

structure VkSubmitInfo where
  pWaitSemaphores : List Nat
  pWaitDstStageMask : List Nat
  pCommandBuffers : List Nat
  pSignalSemaphores : List Nat
  deriving DecidableEq, Repr

structure VkPresentInfoKHR where
  pSwapchains : List Nat
  pImageIndices : List Nat
  pWaitSemaphores : List Nat
  deriving DecidableEq, Repr

/-- The calls the frame bracket makes, in the order it makes them, named after the
function called.  `ContextBeginFrame` and `ContextEndFrame` are `vulkan_->BeginFrame()`
and `vulkan_->EndFrame()`; `TransitionToPresent` stands for what the helper of that
name records into the command buffer. -/
inductive DeviceCall
  | ContextBeginFrame
  | ContextEndFrame
  | WaitForFences (fence : Nat) (waitAll : Bool) (timeout : Nat)
  | ResetFences (fence : Nat)
  | ResetCommandPool (cmdPool flags : Nat)
  | BeginCommandBuffer (cmd flags : Nat)
  | EndCommandBuffer (cmd : Nat)
  | TransitionToPresent (cmd image : Nat)
  | QueueSubmit (submit_info : VkSubmitInfo) (fence : Nat)
  | QueuePresent (present : VkPresentInfoKHR)
  deriving DecidableEq, Repr

/-- The manager with the members the frame bracket uses: the frame slots, the two
semaphores, and the swapchain handle the graphics context reports. -/
structure FrameManager extends VulkanRenderManager where
  frameData_ : Nat → FrameData
  acquireSemaphore_ : Nat
  renderingCompleteSemaphore : Nat
  swapchain : Nat

/-- `BeginFrameWrites`: the calls made; no member of the manager changes.  `curFrame`
is `vulkan_->GetCurFrame()`. -/
def BeginFrameWrites (curFrame : Nat) (m : FrameManager) : List DeviceCall :=
  let frameData := m.frameData_ curFrame
  [DeviceCall.ContextBeginFrame,
   DeviceCall.WaitForFences frameData.fence true UINT64_MAX,
   DeviceCall.ResetFences frameData.fence] ++
  (if ¬ frameData.hasInitCommands then [DeviceCall.ResetCommandPool frameData.cmdPool 0]
   else []) ++
  [DeviceCall.BeginCommandBuffer frameData.mainCmd VK_COMMAND_BUFFER_USAGE_ONE_TIME_SUBMIT_BIT]

/-- `EndFrame`: the manager afterwards and the calls made.  `curFrame` is
`vulkan_->GetCurFrame()`. -/
def EndFrame (curFrame : Nat) (m : FrameManager) : FrameManager × List DeviceCall :=
  let frame := m.frameData_ curFrame
  let cmdBufs : List Nat :=
    (if frame.hasInitCommands then [frame.initCmd] else []) ++ [frame.mainCmd]
  let frame1 : FrameData :=
    if frame.hasInitCommands then { frame with hasInitCommands := false } else frame
  let submit_info : VkSubmitInfo :=
    { pWaitSemaphores := [m.acquireSemaphore_]
      pWaitDstStageMask := [VK_PIPELINE_STAGE_BOTTOM_OF_PIPE_BIT]
      pCommandBuffers := cmdBufs
      pSignalSemaphores := [m.renderingCompleteSemaphore] }
  let present : VkPresentInfoKHR :=
    { pSwapchains := [m.swapchain]
      pImageIndices := [m.current_buffer]
      pWaitSemaphores := [m.renderingCompleteSemaphore] }
  ({ m with frameData_ := Function.update m.frameData_ curFrame frame1 },
    [DeviceCall.TransitionToPresent frame.mainCmd (m.swapchainImages_ m.current_buffer),
     DeviceCall.EndCommandBuffer frame.mainCmd] ++
    (if frame.hasInitCommands then [DeviceCall.EndCommandBuffer frame.initCmd] else []) ++
    [DeviceCall.QueueSubmit submit_info frame.fence,
     DeviceCall.QueuePresent present,
     DeviceCall.ContextEndFrame])

/-- Whether a call is a queue submission. -/
def isQueueSubmit : DeviceCall → Bool
  | .QueueSubmit _ _ => true
  | _ => false

/-! ### The table of render passes -/

inductive VkAttachmentLoadOp
  | LOAD
  | CLEAR
  | DONT_CARE
  deriving DecidableEq, Repr

/-- The load operations and layouts of an attachment description; the other members
are the same for every render pass `InitRenderpasses` creates. -/
structure VkAttachmentDescription where
  loadOp : VkAttachmentLoadOp
  stencilLoadOp : VkAttachmentLoadOp
  initialLayout : VkImageLayout
  finalLayout : VkImageLayout
  deriving DecidableEq, Repr

/-- Modelled from the spec: the cast `(RenderPassAction)i` of a loop counter, the
enumeration being declared in VulkanRenderManager.h, which is not among the sources.
The three actions are numbered as `RPIndex` numbers them; the loops only cast 0, 1
and 2. -/
def actionOfInt : Nat → RenderPassAction
  | 0 => RenderPassAction.CLEAR
  | 1 => RenderPassAction.KEEP
  | _ => RenderPassAction.DONT_CARE

/-- `InitRenderpasses`, the two switches: the load operation set for an action. -/
def loadOpOfAction : RenderPassAction → VkAttachmentLoadOp
  | .CLEAR => VkAttachmentLoadOp.CLEAR
  | .KEEP => VkAttachmentLoadOp.LOAD
  | .DONT_CARE => VkAttachmentLoadOp.DONT_CARE

/-- The variables of `InitRenderpasses` its loops change: the two attachment
descriptions, the table, and the render passes created so far, each with the index
of the table entry that received its handle. -/
structure InitRenderpassesState where
  attachments0 : VkAttachmentDescription
  attachments1 : VkAttachmentDescription
  renderPasses_ : Nat → Nat
  created : List (Nat × List VkAttachmentDescription)

/-- `InitRenderpasses`: the manager afterwards and the render passes created, in
call order, each with the index of the table entry that received its handle and its
two attachment descriptions.  `newPass k` is the handle the `k`-th call of
`vkCreateRenderPass` returns. -/
def InitRenderpasses (newPass : Nat → Nat) (m : VulkanRenderManager) :
    VulkanRenderManager × List (Nat × List VkAttachmentDescription) :=
  let st0 : InitRenderpassesState :=
    { attachments0 :=
        { loadOp := VkAttachmentLoadOp.LOAD
          stencilLoadOp := VkAttachmentLoadOp.DONT_CARE
          initialLayout := VkImageLayout.COLOR_ATTACHMENT_OPTIMAL
          finalLayout := VkImageLayout.COLOR_ATTACHMENT_OPTIMAL }
      attachments1 :=
        { loadOp := VkAttachmentLoadOp.LOAD
          stencilLoadOp := VkAttachmentLoadOp.LOAD
          initialLayout := VkImageLayout.DEPTH_STENCIL_ATTACHMENT_OPTIMAL
          finalLayout := VkImageLayout.DEPTH_STENCIL_ATTACHMENT_OPTIMAL }
      renderPasses_ := m.renderPasses_
      created := [] }
  let st := (List.range 3).foldl (fun st depth =>
    let st1 : InitRenderpassesState :=
      { st with attachments1 :=
          { st.attachments1 with loadOp := loadOpOfAction (actionOfInt depth) } }
    (List.range 3).foldl (fun st color =>
      let st2 : InitRenderpassesState :=
        { st with attachments0 :=
            { st.attachments0 with loadOp := loadOpOfAction (actionOfInt color) } }
      let index := RPIndex (actionOfInt color) (actionOfInt depth)
      { st2 with
        renderPasses_ := Function.update st2.renderPasses_ index (newPass st2.created.length)
        created := st2.created ++ [(index, [st2.attachments0, st2.attachments1])] }) st1) st0
  ({ m with renderPasses_ := st.renderPasses_ }, st.created)

/-! ### Images, their barriers and their tracked layouts -/

/-- An image of the heap: the colour or the depth image of the framebuffer object at
an address. -/
inductive ImageSlot
  | color (fb : Nat)
  | depth (fb : Nat)
  deriving DecidableEq, Repr

/-- The image object of a slot. -/
def imageAt (fbs : Nat → VKRFramebuffer) : ImageSlot → VKImage
  | .color fb => (fbs fb).color
  | .depth fb => (fbs fb).depth

/-- All barriers of a command stream, in order. -/
def allBarriers (cmds : List VkCommand) : List VkImageMemoryBarrier :=
  (cmds.map barriersOf).flatten

/-- The barriers of a list that name the image `image`, in order. -/
def onImage (image : Nat) (barriers : List VkImageMemoryBarrier) : List VkImageMemoryBarrier :=
  barriers.filter (fun b => decide (b.image = image))

/-- Follows a list of barriers from the layout `layout`: the new layout of the last
barrier if every barrier's old layout is the layout reached before it, `none` if
some barrier's old layout is not. -/
def chainEnd : VkImageLayout → List VkImageMemoryBarrier → Option VkImageLayout
  | layout, [] => some layout
  | layout, b :: rest => if b.oldLayout = layout then chainEnd b.newLayout rest else none

/-- The handles of the images of the heap identify them: no two slots hold the same
image handle. -/
def DistinctImages (fbs : Nat → VKRFramebuffer) : Prop :=
  ∀ s t : ImageSlot, (imageAt fbs s).image = (imageAt fbs t).image → s = t

/-- The barriers `barriers`, generated in the heap `fbs` and leaving the heap `fbs1`,
follow the tracked layouts: every image keeps its handle, and its barriers form a
chain from its tracked layout in `fbs` to its tracked layout in `fbs1`. -/
def Tracks (fbs : Nat → VKRFramebuffer) (barriers : List VkImageMemoryBarrier)
    (fbs1 : Nat → VKRFramebuffer) : Prop :=
  ∀ s : ImageSlot, (imageAt fbs1 s).image = (imageAt fbs s).image ∧
    chainEnd (imageAt fbs s).layout (onImage (imageAt fbs s).image barriers) =
      some (imageAt fbs1 s).layout

/-- One conditional transition of the image in slot `a` to the layout `target`:
`barriers` holds one barrier of that image, from its tracked layout to `target` and
for the aspects `aspect`, if the tracked layout is not `target`, and none otherwise;
in the heap `fbs1` the image is tracked in `target` and everything else is as in
`fbs`. -/
def SingleTransition (fbs : Nat → VKRFramebuffer) (a : ImageSlot) (target : VkImageLayout)
    (aspect : Nat) (barriers : List VkImageMemoryBarrier) (fbs1 : Nat → VKRFramebuffer) :
    Prop :=
  (((imageAt fbs a).layout = target ∧ barriers = []) ∨
    ((imageAt fbs a).layout ≠ target ∧
      ∃ b : VkImageMemoryBarrier, barriers = [b] ∧ b.image = (imageAt fbs a).image ∧
        b.oldLayout = (imageAt fbs a).layout ∧ b.newLayout = target ∧
        b.aspectMask = aspect)) ∧
  imageAt fbs1 a = { imageAt fbs a with layout := target } ∧
  (∀ s : ImageSlot, s ≠ a → imageAt fbs1 s = imageAt fbs s) ∧
  ∀ p : Nat, (fbs1 p).framebuf = (fbs p).framebuf ∧ (fbs1 p).width = (fbs p).width ∧
    (fbs1 p).height = (fbs p).height

/-- The source image, source layout, destination image, destination layout and
aspect mask a recorded copy or blit command is issued with; `none` for every other
command. -/
def transferLayouts : VkCommand → Option (Nat × VkImageLayout × Nat × VkImageLayout × Nat)
  | .CopyImage srcImage srcLayout dstImage dstLayout region =>
    some (srcImage, srcLayout, dstImage, dstLayout, region.srcAspectMask)
  | .BlitImage srcImage srcLayout dstImage dstLayout region _ =>
    some (srcImage, srcLayout, dstImage, dstLayout, region.srcAspectMask)
  | _ => none

/-- The barriers one conditional transition of `PerformCopy` or `PerformBlit` fills
in for the image `img`: one barrier of that image, from its tracked layout to
`target` and for the aspects `aspect`, when the aspect group is selected and the
tracked layout is not `target`; none otherwise. -/
def NeededBarriers (selected : Prop) (img : VKImage) (target : VkImageLayout) (aspect : Nat)
    (barriers : List VkImageMemoryBarrier) : Prop :=
  (selected ∧ img.layout ≠ target ∧
    ∃ b : VkImageMemoryBarrier, barriers = [b] ∧ b.image = img.image ∧
      b.oldLayout = img.layout ∧ b.newLayout = target ∧ b.aspectMask = aspect) ∨
  (¬ (selected ∧ img.layout ≠ target) ∧ barriers = [])

/-- The Copy step of the examples that copies colour and depth from framebuffer 1 to
framebuffer 2. -/
def exampleCopyBoth : VKRStep :=
  exampleCopyStep 1 2 (VK_IMAGE_ASPECT_COLOR_BIT ||| VK_IMAGE_ASPECT_DEPTH_BIT)

/-- What executing `exampleCopyBoth` returns from the state of the examples. -/
def exampleCopied : VulkanRenderManager × List VkCommand :=
  (performStep exampleCopyBoth exampleManager).getD (exampleManager, [])

/-- A framebuffer object of the examples whose two image handles no other
framebuffer object of the examples has, both images in attachment layouts. -/
def exampleDistinctFramebuffer (p : Nat) : VKRFramebuffer :=
  { framebuf := 300 + p
    color := { image := 2 * p + 2, imageView := 500 + p,
               layout := VkImageLayout.COLOR_ATTACHMENT_OPTIMAL }
    depth := { image := 2 * p + 3, imageView := 700 + p,
               layout := VkImageLayout.DEPTH_STENCIL_ATTACHMENT_OPTIMAL }
    width := 512
    height := 272 }

/-- The recorder state of the examples with four steps recorded over a heap of
framebuffer objects with distinct image handles: a Render step on the framebuffer
at address 1, the copy of colour and depth from framebuffer 1 to framebuffer 2, a
Render step on the framebuffer at address 2, and a Render step on the backbuffer. -/
def exampleLogTransfers : VulkanRenderManager :=
  { exampleManager with
    fbs := exampleDistinctFramebuffer
    steps_ :=
      [exampleRenderStep (some 1), exampleCopyBoth, exampleRenderStep (some 2),
       exampleRenderStep none]
    curStep_ := some 3 }

/-- What `Flush` returns for `exampleLogTransfers` when image 0 is acquired. -/
def exampleFlushedTransfers : VulkanRenderManager × List VkCommand :=
  (Flush 0 exampleLogTransfers).getD (exampleManager, [])


/-- The manager state of the examples with every colour image in the undefined
layout, as newly created images are. -/
def exampleManagerUndefined : VulkanRenderManager :=
  { exampleManager with
    fbs := fun p => exampleFramebuffer p VkImageLayout.UNDEFINED
      VkImageLayout.DEPTH_STENCIL_ATTACHMENT_OPTIMAL }


/-! ### The bound-target bookkeeping -/

/-- The bound-target bookkeeping is consistent: `curFramebuffer_` is null exactly when
`curRenderPass_` is. -/
def BookkeepingConsistent (m : VulkanRenderManager) : Prop :=
  m.curFramebuffer_ = 0 ↔ m.curRenderPass_ = 0

/-- The state `Flush` leaves when one Render step on the framebuffer at address 1 is
executed from the state of the examples. -/
def exampleRendered : VulkanRenderManager :=
  ((Flush 0 (BeginRenderPass (freshStep (some 1)) exampleManager)).getD (exampleManager, [])).1

/-- The state of `exampleRendered` after the recorder call `CopyFramebuffer` from the
framebuffer at address 1 to the one at address 2. -/
def exampleRenderedCopied : VulkanRenderManager :=
  (CopyFramebuffer 1
    { offset := { x := 0, y := 0 }, extent := { width := 16, height := 16 } } 2
    { x := 0, y := 0 } exampleRendered).1

/-- What executing the steps of `exampleLogMixed` returns from the state of the
examples. -/
def exampleExecutedMixed : VulkanRenderManager × List VkCommand :=
  (performSteps exampleLogMixed.steps_ exampleManager).getD (exampleManager, [])


/-! ### Init commands -/

/-- `GetInitCmd`: the handle returned, the manager afterwards and the calls made.  No
member of the manager is written.  `curFrame` is `vulkan_->GetCurFrame()`; the test
`frameData_->hasInitCommands` reads the first element of the array of slots. -/
def GetInitCmd (curFrame : Nat) (m : FrameManager) : Nat × FrameManager × List DeviceCall :=
  let frameData := m.frameData_ curFrame
  ((m.frameData_ curFrame).initCmd, m,
    if ¬ (m.frameData_ 0).hasInitCommands then
      [DeviceCall.BeginCommandBuffer frameData.mainCmd
        VK_COMMAND_BUFFER_USAGE_ONE_TIME_SUBMIT_BIT]
    else [])

/-- The frame slots of the examples: slot `i` has the command pool 800 + i, the main
command buffer 810 + i, the init command buffer 820 + i and the fence 830 + i; slot
0 has pending init commands if `first` is set, as it has after construction, and no
other slot has. -/
def exampleFrameManager (first : Bool) : FrameManager :=
  { toVulkanRenderManager := exampleManager
    frameData_ := fun i =>
      { cmdPool := 800 + i, mainCmd := 810 + i, initCmd := 820 + i, fence := 830 + i
        hasInitCommands := first && decide (i = 0) }
    acquireSemaphore_ := 840
    renderingCompleteSemaphore := 841
    swapchain := 842 }

/-- The command buffers a call puts into recording state. -/
def begunBuffers : List DeviceCall → List Nat
  | [] => []
  | .BeginCommandBuffer cmd _ :: rest => cmd :: begunBuffers rest
  | _ :: rest => begunBuffers rest

/-- The command buffers the queue submissions among the calls are given, one list
per submission. -/
def submittedBuffers : List DeviceCall → List (List Nat)
  | [] => []
  | .QueueSubmit submit_info _ :: rest => submit_info.pCommandBuffers :: submittedBuffers rest
  | _ :: rest => submittedBuffers rest

/-- The Render step of the examples with a clear of colour, depth and stencil folded
in, the stencil value being -1, targeting the framebuffer at address 1. -/
def exampleClearBothStep : VKRStep :=
  mergeClear 0xFF102030 0x3F800000 (-1)
    (VK_IMAGE_ASPECT_COLOR_BIT ||| VK_IMAGE_ASPECT_DEPTH_BIT ||| VK_IMAGE_ASPECT_STENCIL_BIT)
    (freshStep (some 1))

/-! ## Properties -/

/-! ### Clear -/

/-- `Clear` on a Render step without draws folds the call into the step. -/
theorem Clear_of_no_draws (clearColor clearZ : Nat) (clearStencil : Int) (clearMask : Nat)
    (m : VulkanRenderManager) (i : Nat) (s : VKRStep)
    (hcur : m.curStep_ = some i) (hs : m.steps_[i]? = some s)
    (hr : s.stepType = VKStepType.RENDER) (hd : s.render.numDraws = 0) :
    ∃ m1, Clear clearColor clearZ clearStencil clearMask m = some m1 ∧
      m1.steps_ = m.steps_.set i (mergeClear clearColor clearZ clearStencil clearMask s) ∧
      m1.curStep_ = some i := by
  simp [Clear, hcur, hs, hr, hd]

/-- `Clear` on a Render step with draws pushes one `CLEAR` sub-command. -/
theorem Clear_of_draws (clearColor clearZ : Nat) (clearStencil : Int) (clearMask : Nat)
    (m : VulkanRenderManager) (i : Nat) (s : VKRStep)
    (hcur : m.curStep_ = some i) (hs : m.steps_[i]? = some s)
    (hr : s.stepType = VKStepType.RENDER) (hd : s.render.numDraws ≠ 0) :
    ∃ m1, Clear clearColor clearZ clearStencil clearMask m = some m1 ∧
      m1.steps_ = m.steps_.set i (pushClear clearColor clearZ clearStencil clearMask s) ∧
      m1.curStep_ = some i := by
  simp [Clear, hcur, hs, hr, hd]

/-- A non-empty sequence of `Clear` calls on a Render step without draws amounts to
its last call. -/
theorem clearAll_of_no_draws (cs : List ClearData) (c : ClearData)
    (m : VulkanRenderManager) (i : Nat) (s : VKRStep)
    (hcur : m.curStep_ = some i) (hs : m.steps_[i]? = some s)
    (hr : s.stepType = VKStepType.RENDER) (hd : s.render.numDraws = 0) :
    ∃ m1, clearAll (c :: cs) m = some m1 ∧
      m1.steps_ = m.steps_.set i
        (mergeClear ((c :: cs).getLast (List.cons_ne_nil c cs)).clearColor
          ((c :: cs).getLast (List.cons_ne_nil c cs)).clearZ
          ((c :: cs).getLast (List.cons_ne_nil c cs)).clearStencil
          ((c :: cs).getLast (List.cons_ne_nil c cs)).clearMask s) ∧
      m1.curStep_ = some i := by
  induction cs generalizing c m s with
  | nil =>
    obtain ⟨m1, h1, h2, h3⟩ := Clear_of_no_draws c.clearColor c.clearZ c.clearStencil
      c.clearMask m i s hcur hs hr hd
    exact ⟨m1, by rw [clearAll, h1]; rfl, by simpa using h2, h3⟩
  | cons d cs ih =>
    have hlt : i < m.steps_.length := by
      rcases List.getElem?_eq_some.1 hs with ⟨h, _⟩
      exact h
    obtain ⟨m1, h1, h2, h3⟩ := Clear_of_no_draws c.clearColor c.clearZ c.clearStencil
      c.clearMask m i s hcur hs hr hd
    obtain ⟨m2, k1, k2, k3⟩ := ih d m1
      (mergeClear c.clearColor c.clearZ c.clearStencil c.clearMask s) h3
      (by simp [h2, hlt]) hr hd
    refine ⟨m2, by rw [clearAll, h1]; exact k1, ?_, k3⟩
    rw [k2, h2, List.set_set, List.getLast_cons (List.cons_ne_nil d cs)]
    rfl

/-- Replacing the last entry of a list. -/
theorem set_length_append_singleton {α : Type} (l : List α) (a b : α) :
    (l ++ [a]).set l.length b = l ++ [b] := by
  induction l with
  | nil => rfl
  | cons x l ih => simp [List.set, ih]

/-- C3, as amended: a non-empty sequence of `Clear` calls issued right after
`BeginRenderPass`, no draw in between, leaves the new Render step at the end of the
log with no sub-command at all, so no mid-pass clear; for each aspect group the
mask of the last call selects, the load action of the group is Clear and its clear
values are those of the last call; and an aspect group that no call of the sequence
selects has the load action Keep. -/
theorem C3_clear_merging (pass : VKRStep) (m : VulkanRenderManager)
    (cs : List ClearData) (last : ClearData)
    (hlast : cs.getLast? = some last)
    (hd : pass.render.numDraws = 0) (hc : pass.commands = []) :
    ∃ m1 s, clearAll cs (BeginRenderPass pass m) = some m1 ∧
      m1.steps_ = m.steps_ ++ [s] ∧
      m1.curStep_ = some m.steps_.length ∧
      s.stepType = VKStepType.RENDER ∧
      (last.clearMask &&& VK_IMAGE_ASPECT_COLOR_BIT ≠ 0 →
        s.render.color = RenderPassAction.CLEAR ∧
        s.render.clearColor = last.clearColor) ∧
      (last.clearMask &&& (VK_IMAGE_ASPECT_DEPTH_BIT ||| VK_IMAGE_ASPECT_STENCIL_BIT) ≠ 0 →
        s.render.depthStencil = RenderPassAction.CLEAR ∧
        s.render.clearDepth = last.clearZ ∧
        s.render.clearStencil = last.clearStencil) ∧
      ((∀ c ∈ cs, c.clearMask &&& VK_IMAGE_ASPECT_COLOR_BIT = 0) →
        s.render.color = RenderPassAction.KEEP) ∧
      ((∀ c ∈ cs,
          c.clearMask &&& (VK_IMAGE_ASPECT_DEPTH_BIT ||| VK_IMAGE_ASPECT_STENCIL_BIT) = 0) →
        s.render.depthStencil = RenderPassAction.KEEP) ∧
      s.render.framebuffer = pass.render.framebuffer ∧
      s.render.numDraws = 0 ∧
      s.commands = [] := by
  cases cs with
  | nil => simp at hlast
  | cons c cs =>
    have hl : (c :: cs).getLast (List.cons_ne_nil c cs) = last := by
      have h := List.getLast?_eq_getLast (c :: cs) (List.cons_ne_nil c cs)
      rw [hlast] at h
      exact (Option.some.inj h).symm
    obtain ⟨m1, h1, h2, h3⟩ := clearAll_of_no_draws cs c (BeginRenderPass pass m)
      m.steps_.length { pass with stepType := VKStepType.RENDER } rfl
      (by simp [BeginRenderPass]) rfl hd
    have hmem : last ∈ c :: cs := by
      rw [← hl]
      exact List.getLast_mem _
    rw [hl] at h2
    refine ⟨m1, mergeClear last.clearColor last.clearZ last.clearStencil last.clearMask
      { pass with stepType := VKStepType.RENDER }, h1, ?_, h3, rfl, ?_, ?_, ?_, ?_,
      rfl, hd, hc⟩
    · rw [h2]
      exact set_length_append_singleton _ _ _
    · intro hsel
      simp only [mergeClear, if_pos hsel, and_self]
    · intro hsel
      simp only [mergeClear, if_pos hsel, and_self]
    · intro hno
      simp only [mergeClear, if_neg (not_not.2 (hno last hmem))]
    · intro hno
      simp only [mergeClear, if_neg (not_not.2 (hno last hmem))]

/-- C3, an instance: a colour clear followed by a clear of colour and depth after
`BeginRenderPass`. -/
theorem C3_clear_merging_witness :
    ([({ clearColor := 0xFF102030, clearZ := 0, clearStencil := 0,
         clearMask := VK_IMAGE_ASPECT_COLOR_BIT } : ClearData),
      { clearColor := 0xFF405060, clearZ := 0x3F800000, clearStencil := 0,
        clearMask := VK_IMAGE_ASPECT_COLOR_BIT ||| VK_IMAGE_ASPECT_DEPTH_BIT }].getLast? =
      some { clearColor := 0xFF405060, clearZ := 0x3F800000, clearStencil := 0,
             clearMask := VK_IMAGE_ASPECT_COLOR_BIT ||| VK_IMAGE_ASPECT_DEPTH_BIT } ∧
      (freshStep (some 1)).render.numDraws = 0 ∧ (freshStep (some 1)).commands = []) ∧
    ∃ m1 s,
      clearAll
        [{ clearColor := 0xFF102030, clearZ := 0, clearStencil := 0,
           clearMask := VK_IMAGE_ASPECT_COLOR_BIT },
         { clearColor := 0xFF405060, clearZ := 0x3F800000, clearStencil := 0,
           clearMask := VK_IMAGE_ASPECT_COLOR_BIT ||| VK_IMAGE_ASPECT_DEPTH_BIT }]
        (BeginRenderPass (freshStep (some 1)) exampleManager) = some m1 ∧
      m1.steps_ = exampleManager.steps_ ++ [s] ∧
      m1.curStep_ = some exampleManager.steps_.length ∧
      s.stepType = VKStepType.RENDER ∧
      ((VK_IMAGE_ASPECT_COLOR_BIT ||| VK_IMAGE_ASPECT_DEPTH_BIT) &&&
          VK_IMAGE_ASPECT_COLOR_BIT ≠ 0 →
        s.render.color = RenderPassAction.CLEAR ∧
        s.render.clearColor = 0xFF405060) ∧
      ((VK_IMAGE_ASPECT_COLOR_BIT ||| VK_IMAGE_ASPECT_DEPTH_BIT) &&&
          (VK_IMAGE_ASPECT_DEPTH_BIT ||| VK_IMAGE_ASPECT_STENCIL_BIT) ≠ 0 →
        s.render.depthStencil = RenderPassAction.CLEAR ∧
        s.render.clearDepth = 0x3F800000 ∧
        s.render.clearStencil = 0) ∧
      ((∀ c ∈
          [({ clearColor := 0xFF102030, clearZ := 0, clearStencil := 0,
              clearMask := VK_IMAGE_ASPECT_COLOR_BIT } : ClearData),
           { clearColor := 0xFF405060, clearZ := 0x3F800000, clearStencil := 0,
             clearMask := VK_IMAGE_ASPECT_COLOR_BIT ||| VK_IMAGE_ASPECT_DEPTH_BIT }],
          c.clearMask &&& VK_IMAGE_ASPECT_COLOR_BIT = 0) →
        s.render.color = RenderPassAction.KEEP) ∧
      ((∀ c ∈
          [({ clearColor := 0xFF102030, clearZ := 0, clearStencil := 0,
              clearMask := VK_IMAGE_ASPECT_COLOR_BIT } : ClearData),
           { clearColor := 0xFF405060, clearZ := 0x3F800000, clearStencil := 0,
             clearMask := VK_IMAGE_ASPECT_COLOR_BIT ||| VK_IMAGE_ASPECT_DEPTH_BIT }],
          c.clearMask &&& (VK_IMAGE_ASPECT_DEPTH_BIT ||| VK_IMAGE_ASPECT_STENCIL_BIT) = 0) →
        s.render.depthStencil = RenderPassAction.KEEP) ∧
      s.render.framebuffer = (freshStep (some 1)).render.framebuffer ∧
      s.render.numDraws = 0 ∧
      s.commands = [] :=
  ⟨⟨rfl, rfl, rfl⟩,
    C3_clear_merging (freshStep (some 1)) exampleManager _
      { clearColor := 0xFF405060, clearZ := 0x3F800000, clearStencil := 0,
        clearMask := VK_IMAGE_ASPECT_COLOR_BIT ||| VK_IMAGE_ASPECT_DEPTH_BIT } rfl rfl rfl⟩

/-- C3, as the specification states it, fails: one `Clear` of the colour aspect
only, right after `BeginRenderPass`, leaves the depth/stencil load action Keep, not
Clear. -/
theorem C3_counterexample :
    ((clearAll
        [{ clearColor := 0xFF0000FF, clearZ := 0x3F800000, clearStencil := 0,
           clearMask := VK_IMAGE_ASPECT_COLOR_BIT }]
        (BeginRenderPass (freshStep none) exampleManager)).bind (loadActions 0)) =
      some (RenderPassAction.CLEAR, RenderPassAction.KEEP) ∧
    RenderPassAction.KEEP ≠ RenderPassAction.CLEAR := by
  decide

/-- What `Clear` does to the load actions of the current Render step, by the draw
count of the step; no other step of the log changes. -/
theorem Clear_load_actions (clearColor clearZ : Nat) (clearStencil : Int) (clearMask : Nat)
    (m : VulkanRenderManager) (i : Nat) (s : VKRStep)
    (hcur : m.curStep_ = some i) (hs : m.steps_[i]? = some s)
    (hr : s.stepType = VKStepType.RENDER) :
    ∃ m1 s1, Clear clearColor clearZ clearStencil clearMask m = some m1 ∧
      m1.steps_[i]? = some s1 ∧
      (s.render.numDraws = 0 →
        s1.render.color =
          (if clearMask &&& VK_IMAGE_ASPECT_COLOR_BIT ≠ 0
            then RenderPassAction.CLEAR else RenderPassAction.KEEP) ∧
        s1.render.depthStencil =
          (if clearMask &&& (VK_IMAGE_ASPECT_DEPTH_BIT ||| VK_IMAGE_ASPECT_STENCIL_BIT) ≠ 0
            then RenderPassAction.CLEAR else RenderPassAction.KEEP)) ∧
      (s.render.numDraws ≠ 0 →
        s1.render.color = s.render.color ∧
        s1.render.depthStencil = s.render.depthStencil) ∧
      ∀ j, j ≠ i → m1.steps_[j]? = m.steps_[j]? := by
  have hlt : i < m.steps_.length := by
    rcases List.getElem?_eq_some.1 hs with ⟨h, _⟩
    exact h
  by_cases hd : s.render.numDraws = 0
  · obtain ⟨m1, h1, h2, _⟩ := Clear_of_no_draws clearColor clearZ clearStencil clearMask
      m i s hcur hs hr hd
    refine ⟨m1, mergeClear clearColor clearZ clearStencil clearMask s, h1,
      by rw [h2]; simp [hlt], ?_, fun h => absurd hd h, ?_⟩
    · intro _
      simp [mergeClear]
    · intro j hj
      rw [h2, List.getElem?_set_ne (Ne.symm hj)]
  · obtain ⟨m1, h1, h2, _⟩ := Clear_of_draws clearColor clearZ clearStencil clearMask
      m i s hcur hs hr hd
    refine ⟨m1, pushClear clearColor clearZ clearStencil clearMask s, h1,
      by rw [h2]; simp [hlt], fun h => absurd h hd, ?_, ?_⟩
    · intro _
      simp [pushClear]
    · intro j hj
      rw [h2, List.getElem?_set_ne (Ne.symm hj)]

/-- C4, the code at the failing input: after a `Clear` of the colour aspect was
folded into the step (load actions Clear, Keep), a second `Clear`, of the depth
aspect and still before any draw, changes both load actions (to Keep, Clear) and
overwrites the clear colour; the colour clear is lost, and `Flush` begins the pass
with the render pass that keeps colour and with no colour clear value. -/
theorem C4_second_clear_changes_load_actions :
    ((Clear 0xFF102030 0 0 VK_IMAGE_ASPECT_COLOR_BIT
        (BeginRenderPass (freshStep (some 1)) exampleManager)).bind (loadActions 0)) =
      some (RenderPassAction.CLEAR, RenderPassAction.KEEP) ∧
    (((Clear 0xFF102030 0 0 VK_IMAGE_ASPECT_COLOR_BIT
        (BeginRenderPass (freshStep (some 1)) exampleManager)).bind
        (Clear 0 0x3F800000 0 VK_IMAGE_ASPECT_DEPTH_BIT)).bind (loadActions 0)) =
      some (RenderPassAction.KEEP, RenderPassAction.CLEAR) ∧
    (((Clear 0xFF102030 0 0 VK_IMAGE_ASPECT_COLOR_BIT
        (BeginRenderPass (freshStep (some 1)) exampleManager)).bind
        (Clear 0 0x3F800000 0 VK_IMAGE_ASPECT_DEPTH_BIT)).map
        (fun m => m.steps_.map (fun s => (s.render.clearColor, s.render.numDraws,
          s.commands)))) = some [(0, 0, [])] ∧
    exampleManager.renderPasses_ (RPIndex RenderPassAction.KEEP RenderPassAction.CLEAR) = 11 ∧
    ((((Clear 0xFF102030 0 0 VK_IMAGE_ASPECT_COLOR_BIT
        (BeginRenderPass (freshStep (some 1)) exampleManager)).bind
        (Clear 0 0x3F800000 0 VK_IMAGE_ASPECT_DEPTH_BIT)).bind (Flush 0)).map Prod.snd) =
      some [VkCommand.TransitionFromPresent 200,
        VkCommand.BeginRenderPass
          { renderPass := 11, framebuffer := 301
            renderArea := { offset := { x := 0, y := 0 },
                            extent := { width := 512, height := 272 } }
            clearValueCount := 2
            pClearValues := some [VkClearValue.zero,
              VkClearValue.depthStencil (some 0x3F800000) (some 0)] },
        VkCommand.EndRenderPass] := by
  decide

/-! ### BindFramebufferAsTexture -/

/-- The loop of `BindFramebufferAsTexture`, when it runs to its end: the log keeps
its length, and the steps it marked are the Render steps targeting `fb` at the
indices it visited. -/
theorem BindFramebufferAsTexture.loop_some (fb n : Nat) :
    ∀ (i : Nat) (steps res : List VKRStep),
      BindFramebufferAsTexture.loop fb n i steps = some res →
      res.length = steps.length ∧
      ∀ (j : Nat) (s : VKRStep), steps[j]? = some s →
        res[j]? = some
          (if i ≤ j ∧ j < i + n ∧ s.stepType = VKStepType.RENDER ∧
              s.render.framebuffer = some fb
            then markShaderRead s else s) := by
  induction n with
  | zero =>
    intro i steps res h
    simp only [BindFramebufferAsTexture.loop, Option.some.injEq] at h
    subst h
    refine ⟨rfl, fun j s hj => ?_⟩
    have : ¬ (i ≤ j ∧ j < i + 0 ∧ s.stepType = VKStepType.RENDER ∧
        s.render.framebuffer = some fb) := by omega
    rw [if_neg this, hj]
  | succ n ih =>
    intro i steps res h
    rw [BindFramebufferAsTexture.loop] at h
    cases hi : steps[i]? with
    | none =>
      rw [hi] at h
      simp only [Option.some.injEq] at h
      subst h
      refine ⟨rfl, fun j s hj => ?_⟩
      have h1 : steps.length ≤ i := List.getElem?_eq_none_iff.1 hi
      have h2 : j < steps.length := (List.getElem?_eq_some.1 hj).1
      have : ¬ (i ≤ j ∧ j < i + (n + 1) ∧ s.stepType = VKStepType.RENDER ∧
          s.render.framebuffer = some fb) := by omega
      rw [if_neg this, hj]
    | some si =>
      rw [hi] at h
      simp only at h
      have hlt : i < steps.length := (List.getElem?_eq_some.1 hi).1
      by_cases hit : si.stepType = VKStepType.RENDER ∧ si.render.framebuffer = some fb
      · rw [if_pos hit] at h
        by_cases hu : si.render.finalColorLayout = VkImageLayout.UNDEFINED
        · rw [if_pos hu] at h
          obtain ⟨hlen, hres⟩ := ih (i + 1) _ res h
          refine ⟨by simpa using hlen, fun j s hj => ?_⟩
          by_cases hji : j = i
          · subst hji
            have hs : si = s := by
              rw [hi] at hj
              exact Option.some.inj hj
            subst hs
            have := hres j (markShaderRead si) (by simp [hlt])
            rw [this]
            have hc : ¬ (j + 1 ≤ j ∧ j < j + 1 + n ∧
                (markShaderRead si).stepType = VKStepType.RENDER ∧
                (markShaderRead si).render.framebuffer = some fb) := by omega
            rw [if_neg hc, if_pos ⟨le_refl _, by omega, hit⟩]
          · have := hres j s (by rw [List.getElem?_set_ne (Ne.symm hji)]; exact hj)
            rw [this]
            by_cases hs : s.stepType = VKStepType.RENDER ∧ s.render.framebuffer = some fb
            · by_cases hr : i + 1 ≤ j ∧ j < i + 1 + n
              · rw [if_pos ⟨hr.1, hr.2, hs⟩, if_pos ⟨by omega, by omega, hs⟩]
              · rw [if_neg (fun h => hr ⟨h.1, h.2.1⟩),
                  if_neg (fun h => hr ⟨by omega, by omega⟩)]
            · rw [if_neg (fun h => hs h.2.2), if_neg (fun h => hs h.2.2)]
        · rw [if_neg hu] at h
          exact absurd h (by simp)
      · rw [if_neg hit] at h
        obtain ⟨hlen, hres⟩ := ih (i + 1) _ res h
        refine ⟨hlen, fun j s hj => ?_⟩
        rw [hres j s hj]
        by_cases hji : j = i
        · subst hji
          have hs : si = s := by
            rw [hi] at hj
            exact Option.some.inj hj
          subst hs
          rw [if_neg (fun h => hit h.2.2), if_neg (fun h => hit h.2.2)]
        · by_cases hs : s.stepType = VKStepType.RENDER ∧ s.render.framebuffer = some fb
          · by_cases hr : i + 1 ≤ j ∧ j < i + 1 + n
            · rw [if_pos ⟨hr.1, hr.2, hs⟩, if_pos ⟨by omega, by omega, hs⟩]
            · rw [if_neg (fun h => hr ⟨h.1, h.2.1⟩),
                if_neg (fun h => hr ⟨by omega, by omega⟩)]
          · rw [if_neg (fun h => hs h.2.2), if_neg (fun h => hs h.2.2)]

/-- The loop of `BindFramebufferAsTexture` reaches `Crash()` exactly when one of the
steps it visits is a Render step targeting `fb` whose final-colour-layout hint is
already set. -/
theorem BindFramebufferAsTexture.loop_none (fb n : Nat) :
    ∀ (i : Nat) (steps : List VKRStep),
      BindFramebufferAsTexture.loop fb n i steps = none ↔
      ∃ (j : Nat) (s : VKRStep), i ≤ j ∧ j < i + n ∧ steps[j]? = some s ∧
        s.stepType = VKStepType.RENDER ∧ s.render.framebuffer = some fb ∧
        s.render.finalColorLayout ≠ VkImageLayout.UNDEFINED := by
  induction n with
  | zero =>
    intro i steps
    simp only [BindFramebufferAsTexture.loop]
    constructor
    · intro h
      exact absurd h (by simp)
    · rintro ⟨j, s, h1, h2, _⟩
      omega
  | succ n ih =>
    intro i steps
    rw [BindFramebufferAsTexture.loop]
    cases hi : steps[i]? with
    | none =>
      simp only
      have h1 : steps.length ≤ i := List.getElem?_eq_none_iff.1 hi
      constructor
      · intro h
        exact absurd h (by simp)
      · rintro ⟨j, s, h2, _, h3, _⟩
        have : j < steps.length := (List.getElem?_eq_some.1 h3).1
        omega
    | some si =>
      simp only
      have hlt : i < steps.length := (List.getElem?_eq_some.1 hi).1
      by_cases hit : si.stepType = VKStepType.RENDER ∧ si.render.framebuffer = some fb
      · rw [if_pos hit]
        by_cases hu : si.render.finalColorLayout = VkImageLayout.UNDEFINED
        · rw [if_pos hu, ih]
          constructor
          · rintro ⟨j, s, h1, h2, h3, h4⟩
            have hji : i ≠ j := by omega
            rw [List.getElem?_set_ne hji] at h3
            exact ⟨j, s, by omega, by omega, h3, h4⟩
          · rintro ⟨j, s, h1, h2, h3, h4, h5, h6⟩
            have hji : i ≠ j := by
              intro h
              subst h
              rw [hi] at h3
              have := Option.some.inj h3
              subst this
              exact h6 hu
            refine ⟨j, s, by omega, by omega, ?_, h4, h5, h6⟩
            rw [List.getElem?_set_ne hji]
            exact h3
        · rw [if_neg hu]
          simp only [true_iff]
          exact ⟨i, si, le_refl _, by omega, hi, hit.1, hit.2, hu⟩
      · rw [if_neg hit, ih]
        constructor
        · rintro ⟨j, s, h1, h2, h3, h4⟩
          exact ⟨j, s, by omega, by omega, h3, h4⟩
        · rintro ⟨j, s, h1, h2, h3, h4, h5, h6⟩
          have hji : i ≠ j := by
            intro h
            subst h
            rw [hi] at h3
            have := Option.some.inj h3
            subst this
            exact hit ⟨h4, h5⟩
          exact ⟨j, s, by omega, by omega, h3, h4, h5, h6⟩

/-- What `BindFramebufferAsTexture` returns, step by step of the log, in terms of the
assignment its loop makes at the indices it visits. -/
theorem BindFramebufferAsTexture_eq_some (fb : Nat) (binding aspectBit attachment : Int)
    (m m1 : VulkanRenderManager) (view : Nat)
    (h : BindFramebufferAsTexture fb binding aspectBit attachment m = some (m1, view)) :
    m1.steps_.length = m.steps_.length ∧
    m1.steps_.map (fun s => s.stepType) = m.steps_.map (fun s => s.stepType) ∧
    (∀ (j : Nat) (s : VKRStep), m.steps_[j]? = some s →
      m1.steps_[j]? = some
        (if j + 1 < m.steps_.length ∧ s.stepType = VKStepType.RENDER ∧
            s.render.framebuffer = some fb
          then markShaderRead s else s)) ∧
    m1.curStep_ = m.curStep_ ∧
    view = (m.fbs fb).color.imageView := by
  unfold BindFramebufferAsTexture at h
  cases hl : BindFramebufferAsTexture.loop fb (m.steps_.length - 1) 0 m.steps_ with
  | none =>
    rw [hl] at h
    exact absurd h (by simp)
  | some steps =>
    rw [hl] at h
    simp only [Option.some.injEq, Prod.mk.injEq] at h
    obtain ⟨hm, hv⟩ := h
    subst hm
    obtain ⟨hlen, hres⟩ := BindFramebufferAsTexture.loop_some fb _ 0 _ _ hl
    have hpt : ∀ (j : Nat) (s : VKRStep), m.steps_[j]? = some s →
        steps[j]? = some
          (if j + 1 < m.steps_.length ∧ s.stepType = VKStepType.RENDER ∧
              s.render.framebuffer = some fb
            then markShaderRead s else s) := by
      intro j s hj
      rw [hres j s hj]
      by_cases hs : s.stepType = VKStepType.RENDER ∧ s.render.framebuffer = some fb
      · by_cases hr : j + 1 < m.steps_.length
        · rw [if_pos ⟨Nat.zero_le _, by omega, hs⟩, if_pos ⟨hr, hs⟩]
        · rw [if_neg (fun h => hr (by omega)), if_neg (fun h => hr h.1)]
      · rw [if_neg (fun h => hs h.2.2), if_neg (fun h => hs h.2)]
    refine ⟨hlen, ?_, hpt, rfl, hv.symm⟩
    apply List.ext_getElem?
    intro j
    simp only [List.getElem?_map]
    cases hj : m.steps_[j]? with
    | none =>
      have h1 : m.steps_.length ≤ j := List.getElem?_eq_none_iff.1 hj
      have h2 : steps[j]? = none := List.getElem?_eq_none_iff.2 (by omega)
      simp [h2]
    | some s =>
      simp only [hpt j s hj, Option.map_some']
      split <;> rfl

/-- C5, as amended: `BindFramebufferAsTexture(fb)`, when it returns and the last step
of the pending log is not a Render step targeting `fb`, has emitted no step (the log
keeps its length and every step its kind) and has set the final-colour-layout hint
to shader-read-only on every Render step of the log whose target is `fb`, not only
on the most recent one, leaving the rest of each such step as it was; no other step
is modified, and the call returns the colour image view of `fb`. -/
theorem C5_bind_as_texture (fb : Nat) (binding aspectBit attachment : Int)
    (m m1 : VulkanRenderManager) (view : Nat)
    (hlast : ∀ s : VKRStep, m.steps_.getLast? = some s →
      ¬ (s.stepType = VKStepType.RENDER ∧ s.render.framebuffer = some fb))
    (h : BindFramebufferAsTexture fb binding aspectBit attachment m = some (m1, view)) :
    m1.steps_.length = m.steps_.length ∧
    m1.steps_.map (fun s => s.stepType) = m.steps_.map (fun s => s.stepType) ∧
    (∀ (j : Nat) (s : VKRStep), m.steps_[j]? = some s →
      s.stepType = VKStepType.RENDER → s.render.framebuffer = some fb →
      m1.steps_[j]? = some
        { s with render := { s.render with
            finalColorLayout := VkImageLayout.SHADER_READ_ONLY_OPTIMAL } }) ∧
    (∀ (j : Nat) (s : VKRStep), m.steps_[j]? = some s →
      ¬ (s.stepType = VKStepType.RENDER ∧ s.render.framebuffer = some fb) →
      m1.steps_[j]? = some s) ∧
    m1.curStep_ = m.curStep_ ∧
    view = (m.fbs fb).color.imageView := by
  obtain ⟨hlen, hkinds, hpt, hcur, hview⟩ :=
    BindFramebufferAsTexture_eq_some fb binding aspectBit attachment m m1 view h
  refine ⟨hlen, hkinds, ?_, ?_, hcur, hview⟩
  · intro j s hj hr ht
    have hjlt : j < m.steps_.length := (List.getElem?_eq_some.1 hj).1
    have hnl : j + 1 < m.steps_.length := by
      by_contra hge
      have hje : j = m.steps_.length - 1 := by omega
      have hl : m.steps_.getLast? = some s := by
        rw [List.getLast?_eq_getElem?, ← hje]
        exact hj
      exact hlast s hl ⟨hr, ht⟩
    rw [hpt j s hj, if_pos ⟨hnl, hr, ht⟩]
    rfl
  · intro j s hj hn
    rw [hpt j s hj, if_neg (fun hc => hn hc.2)]

/-- C5, an instance: the log of two Render steps targeting framebuffer 1 and a
last one targeting the backbuffer; both steps on framebuffer 1 get the hint. -/
theorem C5_bind_as_texture_witness :
    (∀ s : VKRStep, exampleLog.steps_.getLast? = some s →
      ¬ (s.stepType = VKStepType.RENDER ∧ s.render.framebuffer = some 1)) ∧
    BindFramebufferAsTexture 1 0 1 0 exampleLog =
      some ({ exampleLog with steps_ :=
        [markShaderRead (freshStep (some 1)), markShaderRead (freshStep (some 1)),
          freshStep none] }, 501) ∧
    (markShaderRead (freshStep (some 1))).render.finalColorLayout =
      VkImageLayout.SHADER_READ_ONLY_OPTIMAL ∧
    [markShaderRead (freshStep (some 1)), markShaderRead (freshStep (some 1)),
        freshStep none].length = exampleLog.steps_.length ∧
    [markShaderRead (freshStep (some 1)), markShaderRead (freshStep (some 1)),
        freshStep none].map (fun s => s.stepType) =
      exampleLog.steps_.map (fun s => s.stepType) ∧
    (∀ (j : Nat) (s : VKRStep), exampleLog.steps_[j]? = some s →
      s.stepType = VKStepType.RENDER → s.render.framebuffer = some 1 →
      [markShaderRead (freshStep (some 1)), markShaderRead (freshStep (some 1)),
          freshStep none][j]? = some
        { s with render := { s.render with
            finalColorLayout := VkImageLayout.SHADER_READ_ONLY_OPTIMAL } }) ∧
    (∀ (j : Nat) (s : VKRStep), exampleLog.steps_[j]? = some s →
      ¬ (s.stepType = VKStepType.RENDER ∧ s.render.framebuffer = some 1) →
      [markShaderRead (freshStep (some 1)), markShaderRead (freshStep (some 1)),
          freshStep none][j]? = some s) ∧
    exampleLog.curStep_ = exampleLog.curStep_ ∧
    501 = (exampleLog.fbs 1).color.imageView :=
  ⟨fun s hs => by
      have e : s = freshStep none := (Option.some.inj hs).symm
      rw [e]
      decide,
    rfl, rfl,
    C5_bind_as_texture 1 0 1 0 exampleLog _ 501
      (fun s hs => by
        have e : s = freshStep none := (Option.some.inj hs).symm
        rw [e]
        decide)
      rfl⟩

/-- C5, as the specification states it, fails: with two pending Render steps
targeting the framebuffer and a later step, the call sets the hint on both of them,
not only on the most recent one. -/
theorem C5_counterexample :
    finalColorLayouts exampleLog =
      [VkImageLayout.UNDEFINED, VkImageLayout.UNDEFINED, VkImageLayout.UNDEFINED] ∧
    (BindFramebufferAsTexture 1 0 1 0 exampleLog).map (fun r => finalColorLayouts r.1) =
      some [VkImageLayout.SHADER_READ_ONLY_OPTIMAL, VkImageLayout.SHADER_READ_ONLY_OPTIMAL,
        VkImageLayout.UNDEFINED] := by
  decide

/-- Where `BindFramebufferAsTexture` reaches `Crash()`, in terms of the steps its loop
visits. -/
theorem BindFramebufferAsTexture_eq_none (fb : Nat) (binding aspectBit attachment : Int)
    (m : VulkanRenderManager) :
    BindFramebufferAsTexture fb binding aspectBit attachment m = none ↔
      ∃ (j : Nat) (s : VKRStep), j + 1 < m.steps_.length ∧ m.steps_[j]? = some s ∧
        s.stepType = VKStepType.RENDER ∧ s.render.framebuffer = some fb ∧
        s.render.finalColorLayout ≠ VkImageLayout.UNDEFINED := by
  unfold BindFramebufferAsTexture
  cases hl : BindFramebufferAsTexture.loop fb (m.steps_.length - 1) 0 m.steps_ with
  | none =>
    simp only [true_iff]
    obtain ⟨j, s, _, h2, h3⟩ := (BindFramebufferAsTexture.loop_none fb _ 0 _).1 hl
    exact ⟨j, s, by omega, h3⟩
  | some steps =>
    simp only [reduceCtorEq, false_iff]
    rintro ⟨j, s, h1, h2⟩
    have : BindFramebufferAsTexture.loop fb (m.steps_.length - 1) 0 m.steps_ = none :=
      (BindFramebufferAsTexture.loop_none fb _ 0 _).2 ⟨j, s, Nat.zero_le _, by omega, h2⟩
    rw [hl] at this
    exact absurd this (by simp)

/-- C6, as amended: more than one pending Render step targeting `fb` is not by itself
a conflict.  Whenever no Render step of the pending log that targets `fb` carries a
final-colour-layout hint yet, `BindFramebufferAsTexture(fb)` returns normally,
however many such steps the log holds, and the log keeps its length. -/
theorem C6_bind_as_texture_conflict (fb : Nat) (binding aspectBit attachment : Int)
    (m : VulkanRenderManager)
    (hfresh : ∀ s ∈ m.steps_, s.stepType = VKStepType.RENDER →
      s.render.framebuffer = some fb → s.render.finalColorLayout = VkImageLayout.UNDEFINED) :
    ∃ (m1 : VulkanRenderManager) (view : Nat),
      BindFramebufferAsTexture fb binding aspectBit attachment m = some (m1, view) ∧
      m1.steps_.length = m.steps_.length := by
  cases hb : BindFramebufferAsTexture fb binding aspectBit attachment m with
  | none =>
    obtain ⟨j, s, _, hj, hr, ht, hne⟩ :=
      (BindFramebufferAsTexture_eq_none fb binding aspectBit attachment m).1 hb
    exact absurd (hfresh s (List.mem_iff_getElem?.2 ⟨j, hj⟩) hr ht) hne
  | some r =>
    obtain ⟨m1, view⟩ := r
    exact ⟨m1, view, rfl,
      (BindFramebufferAsTexture_eq_some fb binding aspectBit attachment m m1 view hb).1⟩

/-- C6, an instance: the log of two Render steps targeting framebuffer 1, none with
a hint, and a last one targeting the backbuffer. -/
theorem C6_bind_as_texture_conflict_witness :
    (exampleLog.steps_.filter (fun s =>
      decide (s.stepType = VKStepType.RENDER ∧ s.render.framebuffer = some 1))).length = 2 ∧
    (∀ s ∈ exampleLog.steps_, s.stepType = VKStepType.RENDER →
      s.render.framebuffer = some 1 →
      s.render.finalColorLayout = VkImageLayout.UNDEFINED) ∧
    ∃ (m1 : VulkanRenderManager) (view : Nat),
      BindFramebufferAsTexture 1 0 1 0 exampleLog = some (m1, view) ∧
      m1.steps_.length = exampleLog.steps_.length :=
  ⟨by decide, by decide,
    C6_bind_as_texture_conflict 1 0 1 0 exampleLog (by decide)⟩

/-- C6, as the specification states it, fails: with two pending Render steps
targeting the framebuffer, the call returns normally. -/
theorem C6_counterexample :
    (exampleLogTwo.steps_.filter (fun s =>
      decide (s.stepType = VKStepType.RENDER ∧ s.render.framebuffer = some 1))).length = 2 ∧
    (BindFramebufferAsTexture 1 0 1 0 exampleLogTwo).isSome = true := by
  decide

/-! ### PerformBindFramebufferAsRenderTarget -/

/-- The colour block leaves the colour image in the attachment layout and the rest
of the framebuffer object as it was. -/
theorem transitionColorToAttachment_fst (f : VKRFramebuffer) :
    (transitionColorToAttachment f).1 =
      { f with color := { f.color with layout := VkImageLayout.COLOR_ATTACHMENT_OPTIMAL } } := by
  unfold transitionColorToAttachment
  by_cases h : f.color.layout = VkImageLayout.COLOR_ATTACHMENT_OPTIMAL
  · rw [if_neg (not_not.2 h)]
    cases f with
    | mk framebuf color depth width height =>
      cases color with
      | mk image imageView layout =>
        simp only at h
        subst h
        rfl
  · rw [if_pos h]
    rfl

/-- The colour block records one barrier, if the colour image is not in the
attachment layout, and nothing otherwise. -/
theorem transitionColorToAttachment_snd (f : VKRFramebuffer) :
    (transitionColorToAttachment f).2 =
      if f.color.layout ≠ VkImageLayout.COLOR_ATTACHMENT_OPTIMAL then
        [VkCommand.PipelineBarrier VK_PIPELINE_STAGE_BOTTOM_OF_PIPE_BIT
          VK_PIPELINE_STAGE_COLOR_ATTACHMENT_OUTPUT_BIT [colorAttachmentBarrier f.color]]
      else [] := by
  unfold transitionColorToAttachment
  split <;> rfl

/-- The depth block leaves the depth image in the attachment layout and the rest of
the framebuffer object as it was. -/
theorem transitionDepthToAttachment_fst (f : VKRFramebuffer) :
    (transitionDepthToAttachment f).1 =
      { f with depth :=
        { f.depth with layout := VkImageLayout.DEPTH_STENCIL_ATTACHMENT_OPTIMAL } } := by
  unfold transitionDepthToAttachment
  by_cases h : f.depth.layout = VkImageLayout.DEPTH_STENCIL_ATTACHMENT_OPTIMAL
  · rw [if_neg (not_not.2 h)]
    cases f with
    | mk framebuf color depth width height =>
      cases depth with
      | mk image imageView layout =>
        simp only at h
        subst h
        rfl
  · rw [if_pos h]
    rfl

/-- The depth block records one barrier, if the depth image is not in the
attachment layout, and nothing otherwise. -/
theorem transitionDepthToAttachment_snd (f : VKRFramebuffer) :
    (transitionDepthToAttachment f).2 =
      if f.depth.layout ≠ VkImageLayout.DEPTH_STENCIL_ATTACHMENT_OPTIMAL then
        [VkCommand.PipelineBarrier VK_PIPELINE_STAGE_BOTTOM_OF_PIPE_BIT
          VK_PIPELINE_STAGE_EARLY_FRAGMENT_TESTS_BIT [depthAttachmentBarrier f.depth]]
      else [] := by
  unfold transitionDepthToAttachment
  split <;> rfl

/-- Binding an off-screen framebuffer that is not the bound one: the commands
recorded and the bookkeeping afterwards. -/
theorem PerformBindFramebufferAsRenderTarget_switch (step : VKRStep)
    (m : VulkanRenderManager) (fb : Nat)
    (htarget : step.render.framebuffer = some fb)
    (hswitch : (m.fbs fb).framebuf ≠ m.curFramebuffer_) :
    ∃ m1 rp_begin, PerformBindFramebufferAsRenderTarget step m =
        some (m1,
          (if m.curRenderPass_ ≠ 0 then [VkCommand.EndRenderPass] else []) ++
          (transitionColorToAttachment (m.fbs fb)).2 ++
          (transitionDepthToAttachment (transitionColorToAttachment (m.fbs fb)).1).2 ++
          [VkCommand.BeginRenderPass rp_begin]) ∧
      m1.fbs = Function.update m.fbs fb
        (transitionDepthToAttachment (transitionColorToAttachment (m.fbs fb)).1).1 ∧
      m1.curFramebuffer_ = (m.fbs fb).framebuf ∧
      m1.curRenderPass_ =
        m.renderPasses_ (RPIndex step.render.color step.render.depthStencil) ∧
      rp_begin.renderPass = m1.curRenderPass_ ∧
      rp_begin.framebuffer = (m.fbs fb).framebuf ∧
      rp_begin.clearValueCount =
        (if step.render.depthStencil = RenderPassAction.CLEAR then 2
          else if step.render.color = RenderPassAction.CLEAR then 1 else 0) ∧
      rp_begin.pClearValues =
        (if rp_begin.clearValueCount ≠ 0 then
          some [if step.render.color = RenderPassAction.CLEAR
              then VkClearValue.color step.render.clearColor else VkClearValue.zero,
            if step.render.depthStencil = RenderPassAction.CLEAR
              then VkClearValue.depthStencil (some step.render.clearDepth)
                (some (toUint32 step.render.clearStencil))
              else VkClearValue.zero]
        else none) := by
  unfold PerformBindFramebufferAsRenderTarget
  simp only [htarget, if_neg hswitch]
  by_cases hp : m.curRenderPass_ = 0
  · simp only [hp, ne_eq, not_true_eq_false, if_false]
    exact ⟨_, _, rfl, rfl, rfl, rfl, rfl, rfl, rfl, rfl⟩
  · simp only [hp, ne_eq, not_false_eq_true, if_true]
    exact ⟨_, _, rfl, rfl, rfl, rfl, rfl, rfl, rfl, rfl⟩

/-- C9: executing the bind of a Render step whose target is an off-screen
framebuffer other than the bound one always succeeds; afterwards the tracked colour
layout of the target is colour-attachment-optimal and its tracked depth layout is
depth-stencil-attachment-optimal; and the commands recorded hold a barrier of the
colour (of the depth) image exactly when its tracked layout before the call was not
that layout already. -/
theorem C9_attachment_transitions (step : VKRStep) (m : VulkanRenderManager) (fb : Nat)
    (htarget : step.render.framebuffer = some fb)
    (hswitch : (m.fbs fb).framebuf ≠ m.curFramebuffer_) :
    ∃ m1 cmds, PerformBindFramebufferAsRenderTarget step m = some (m1, cmds) ∧
      (m1.fbs fb).color.layout = VkImageLayout.COLOR_ATTACHMENT_OPTIMAL ∧
      (m1.fbs fb).depth.layout = VkImageLayout.DEPTH_STENCIL_ATTACHMENT_OPTIMAL ∧
      ((∃ c ∈ cmds, ∃ b ∈ barriersOf c, b.image = (m.fbs fb).color.image ∧
          b.aspectMask = VK_IMAGE_ASPECT_COLOR_BIT) ↔
        (m.fbs fb).color.layout ≠ VkImageLayout.COLOR_ATTACHMENT_OPTIMAL) ∧
      ((∃ c ∈ cmds, ∃ b ∈ barriersOf c, b.image = (m.fbs fb).depth.image ∧
          b.aspectMask = VK_IMAGE_ASPECT_DEPTH_BIT ||| VK_IMAGE_ASPECT_STENCIL_BIT) ↔
        (m.fbs fb).depth.layout ≠ VkImageLayout.DEPTH_STENCIL_ATTACHMENT_OPTIMAL) ∧
      (∀ c ∈ cmds, ∀ b ∈ barriersOf c,
        (b.aspectMask = VK_IMAGE_ASPECT_COLOR_BIT ∧ b.image = (m.fbs fb).color.image ∧
          b.oldLayout = (m.fbs fb).color.layout ∧
          b.newLayout = VkImageLayout.COLOR_ATTACHMENT_OPTIMAL) ∨
        (b.aspectMask = VK_IMAGE_ASPECT_DEPTH_BIT ||| VK_IMAGE_ASPECT_STENCIL_BIT ∧
          b.image = (m.fbs fb).depth.image ∧
          b.oldLayout = (m.fbs fb).depth.layout ∧
          b.newLayout = VkImageLayout.DEPTH_STENCIL_ATTACHMENT_OPTIMAL)) := by
  obtain ⟨m1, rp_begin, h, hfbs, _⟩ :=
    PerformBindFramebufferAsRenderTarget_switch step m fb htarget hswitch
  have hdc : ¬ (VK_IMAGE_ASPECT_DEPTH_BIT ||| VK_IMAGE_ASPECT_STENCIL_BIT =
      VK_IMAGE_ASPECT_COLOR_BIT) := by decide
  have hcd : ¬ (VK_IMAGE_ASPECT_COLOR_BIT =
      VK_IMAGE_ASPECT_DEPTH_BIT ||| VK_IMAGE_ASPECT_STENCIL_BIT) := by decide
  refine ⟨m1, _, h, ?_, ?_, ?_, ?_, ?_⟩
  · rw [hfbs]
    simp [transitionDepthToAttachment_fst, transitionColorToAttachment_fst]
  · rw [hfbs]
    simp [transitionDepthToAttachment_fst, transitionColorToAttachment_fst]
  · rw [transitionColorToAttachment_snd, transitionDepthToAttachment_snd,
      transitionColorToAttachment_fst]
    by_cases hc : (m.fbs fb).color.layout = VkImageLayout.COLOR_ATTACHMENT_OPTIMAL <;>
    by_cases hd : (m.fbs fb).depth.layout = VkImageLayout.DEPTH_STENCIL_ATTACHMENT_OPTIMAL <;>
    by_cases hp : m.curRenderPass_ = 0 <;>
    simp [hc, hd, hp, hdc, hcd, barriersOf, colorAttachmentBarrier, depthAttachmentBarrier]
  · rw [transitionColorToAttachment_snd, transitionDepthToAttachment_snd,
      transitionColorToAttachment_fst]
    by_cases hc : (m.fbs fb).color.layout = VkImageLayout.COLOR_ATTACHMENT_OPTIMAL <;>
    by_cases hd : (m.fbs fb).depth.layout = VkImageLayout.DEPTH_STENCIL_ATTACHMENT_OPTIMAL <;>
    by_cases hp : m.curRenderPass_ = 0 <;>
    simp [hc, hd, hp, hdc, hcd, barriersOf, colorAttachmentBarrier, depthAttachmentBarrier]
  · rw [transitionColorToAttachment_snd, transitionDepthToAttachment_snd,
      transitionColorToAttachment_fst]
    by_cases hc : (m.fbs fb).color.layout = VkImageLayout.COLOR_ATTACHMENT_OPTIMAL <;>
    by_cases hd : (m.fbs fb).depth.layout = VkImageLayout.DEPTH_STENCIL_ATTACHMENT_OPTIMAL <;>
    by_cases hp : m.curRenderPass_ = 0 <;>
    simp [hc, hd, hp, hdc, hcd, barriersOf, colorAttachmentBarrier, depthAttachmentBarrier]

/-- C9, an instance: a framebuffer whose colour image is in the shader-read-only
layout and whose depth image is in the attachment layout already. -/
theorem C9_attachment_transitions_witness :
    ((exampleRenderStep (some 1)).render.framebuffer = some 1 ∧
      (exampleManagerSampled.fbs 1).framebuf ≠ exampleManagerSampled.curFramebuffer_) ∧
    ∃ m1 cmds,
      PerformBindFramebufferAsRenderTarget (exampleRenderStep (some 1)) exampleManagerSampled =
        some (m1, cmds) ∧
      (m1.fbs 1).color.layout = VkImageLayout.COLOR_ATTACHMENT_OPTIMAL ∧
      (m1.fbs 1).depth.layout = VkImageLayout.DEPTH_STENCIL_ATTACHMENT_OPTIMAL ∧
      ((∃ c ∈ cmds, ∃ b ∈ barriersOf c, b.image = (exampleManagerSampled.fbs 1).color.image ∧
          b.aspectMask = VK_IMAGE_ASPECT_COLOR_BIT) ↔
        (exampleManagerSampled.fbs 1).color.layout ≠ VkImageLayout.COLOR_ATTACHMENT_OPTIMAL) ∧
      ((∃ c ∈ cmds, ∃ b ∈ barriersOf c, b.image = (exampleManagerSampled.fbs 1).depth.image ∧
          b.aspectMask = VK_IMAGE_ASPECT_DEPTH_BIT ||| VK_IMAGE_ASPECT_STENCIL_BIT) ↔
        (exampleManagerSampled.fbs 1).depth.layout ≠
          VkImageLayout.DEPTH_STENCIL_ATTACHMENT_OPTIMAL) ∧
      (∀ c ∈ cmds, ∀ b ∈ barriersOf c,
        (b.aspectMask = VK_IMAGE_ASPECT_COLOR_BIT ∧
          b.image = (exampleManagerSampled.fbs 1).color.image ∧
          b.oldLayout = (exampleManagerSampled.fbs 1).color.layout ∧
          b.newLayout = VkImageLayout.COLOR_ATTACHMENT_OPTIMAL) ∨
        (b.aspectMask = VK_IMAGE_ASPECT_DEPTH_BIT ||| VK_IMAGE_ASPECT_STENCIL_BIT ∧
          b.image = (exampleManagerSampled.fbs 1).depth.image ∧
          b.oldLayout = (exampleManagerSampled.fbs 1).depth.layout ∧
          b.newLayout = VkImageLayout.DEPTH_STENCIL_ATTACHMENT_OPTIMAL)) :=
  ⟨⟨rfl, by decide⟩,
    C9_attachment_transitions (exampleRenderStep (some 1)) exampleManagerSampled 1 rfl
      (by decide)⟩

/-! ### The executor at the inputs where it departs from the specification -/

/-- C1, the code at the failing input: from the state with no pass open, `Flush` of
a log of two consecutive Render steps targeting the same off-screen framebuffer
records one begin-render-pass and two end-render-pass commands; the first step
already ends the pass, while `curRenderPass_` still records it as open. -/
theorem C1_two_render_steps_end_twice :
    exampleManager.curRenderPass_ = 0 ∧
    exampleLogTwo.steps_ = [exampleRenderStep (some 1), exampleRenderStep (some 1)] ∧
    (Flush 0 exampleLogTwo).map Prod.snd =
      some [VkCommand.TransitionFromPresent 200,
        VkCommand.BeginRenderPass
          { renderPass := 14, framebuffer := 301
            renderArea := { offset := { x := 0, y := 0 },
                            extent := { width := 512, height := 272 } }
            clearValueCount := 0, pClearValues := none },
        VkCommand.EndRenderPass,
        VkCommand.EndRenderPass] ∧
    (Flush 0 exampleLogTwo).map
        (fun r => (r.2.countP isBeginRenderPass, r.2.countP isEndRenderPass)) =
      some (1, 2) ∧
    (PerformRenderPass (exampleRenderStep (some 1)) exampleManager).map
        (fun r => (r.2.getLast?, r.1.curRenderPass_)) =
      some (some VkCommand.EndRenderPass, 14) := by
  decide

/-- C2, the code at the failing input: with a render pass recorded as open,
`PerformCopy` and `PerformBlit` record their barriers and the copy or blit, no
end-render-pass command, and leave the pass recorded as open. -/
theorem C2_copy_blit_keep_pass_open :
    exampleManagerBound.curRenderPass_ = 14 ∧
    (PerformCopy (exampleCopyStep 1 2 VK_IMAGE_ASPECT_COLOR_BIT) exampleManagerBound).map
        (fun r => (r.2.map isEndRenderPass, r.1.curRenderPass_, r.1.curFramebuffer_)) =
      some ([false, false, false], 14, 301) ∧
    (PerformBlit (exampleBlitStep 1 2 VK_IMAGE_ASPECT_COLOR_BIT) exampleManagerBound).map
        (fun r => (r.2.map isEndRenderPass, r.1.curRenderPass_, r.1.curFramebuffer_)) =
      some ([false, false, false], 14, 301) ∧
    (PerformCopy (exampleCopyStep 1 2 VK_IMAGE_ASPECT_COLOR_BIT) exampleManagerBound).map
        (fun r => r.2.map (fun c => (barriersOf c).map
          (fun b => (b.image, b.oldLayout, b.newLayout)))) =
      some [[(401, VkImageLayout.COLOR_ATTACHMENT_OPTIMAL, VkImageLayout.TRANSFER_SRC_OPTIMAL)],
        [(402, VkImageLayout.COLOR_ATTACHMENT_OPTIMAL, VkImageLayout.TRANSFER_DST_OPTIMAL)],
        []] := by
  decide

/-- C7, the code at the failing input: for the recorded sequence
`BeginRenderPass(fbA)`, `Clear` of the colour aspect, `BindFramebufferAsTexture(fbA)`,
`BeginRenderPass(backbuffer)`, `Flush` records no barrier at all between the two
passes, and the tracked colour layout of `fbA` is colour-attachment-optimal
afterwards; the step of `fbA`, being the last of the log when the texture is bound,
did not even get the hint. -/
theorem C7_no_sampling_transition :
    exampleSamplingScenario.map Prod.snd =
      some [VkCommand.TransitionFromPresent 200,
        VkCommand.BeginRenderPass
          { renderPass := 13, framebuffer := 301
            renderArea := { offset := { x := 0, y := 0 },
                            extent := { width := 512, height := 272 } }
            clearValueCount := 1
            pClearValues := some [VkClearValue.color 0xFF102030, VkClearValue.zero] },
        VkCommand.EndRenderPass,
        VkCommand.EndRenderPass,
        VkCommand.BeginRenderPass
          { renderPass := 9, framebuffer := 100
            renderArea := { offset := { x := 0, y := 0 },
                            extent := { width := 480, height := 272 } }
            clearValueCount := 2
            pClearValues := some [VkClearValue.zero, VkClearValue.zero] },
        VkCommand.EndRenderPass] ∧
    exampleSamplingScenario.map (fun r => (r.2.map barriersOf).flatten) = some [] ∧
    exampleSamplingScenario.map (fun r => (r.1.fbs 1).color.layout) =
      some VkImageLayout.COLOR_ATTACHMENT_OPTIMAL ∧
    ((Clear 0xFF102030 0 0 VK_IMAGE_ASPECT_COLOR_BIT
        (BeginRenderPass (freshStep (some 1)) exampleManager)).bind
      (BindFramebufferAsTexture 1 0 VK_IMAGE_ASPECT_COLOR_BIT 0)).map
        (fun r => finalColorLayouts r.1) = some [VkImageLayout.UNDEFINED] := by
  decide

/-- C8, the code at the failing input: `CopyFramebuffer` and `BlitFramebuffer`
append no step; the recorder's log is as before. -/
theorem C8_copy_blit_record_no_step :
    (CopyFramebuffer 1
        { offset := { x := 0, y := 0 }, extent := { width := 16, height := 16 } }
        2 { x := 0, y := 0 } exampleLog).1.steps_ = exampleLog.steps_ ∧
    (BlitFramebuffer 1
        { offset := { x := 0, y := 0 }, extent := { width := 16, height := 16 } }
        2 { offset := { x := 0, y := 0 }, extent := { width := 32, height := 32 } }
        0 exampleLog).1.steps_ = exampleLog.steps_ ∧
    exampleLog.steps_.map (fun s => s.stepType) =
      [VKStepType.RENDER, VKStepType.RENDER, VKStepType.RENDER] := by
  decide

/-- C10, the code at the failing input: for `BeginRenderPass(backbuffer)`,
`Clear(color=0xFF0000FF, depth=1.0, stencil=0, mask=COLOR|DEPTH)`, `DrawIndexed`,
`Flush`, the step carries the clear colour and depth, but the single pass begin is
given two zeroed clear values. -/
theorem C10_backbuffer_clear_values_zeroed :
    ((Clear 0xFF0000FF 0x3F800000 0 (VK_IMAGE_ASPECT_COLOR_BIT ||| VK_IMAGE_ASPECT_DEPTH_BIT)
        (BeginRenderPass (freshStep none) exampleManager)).bind
      (fun m => m.steps_[0]?)).map
        (fun s => (s.render.color, s.render.depthStencil, s.render.clearColor,
          s.render.clearDepth)) =
      some (RenderPassAction.CLEAR, RenderPassAction.CLEAR, 0xFF0000FF, 0x3F800000) ∧
    exampleBackbufferScenario.map Prod.snd =
      some [VkCommand.TransitionFromPresent 200,
        VkCommand.BeginRenderPass
          { renderPass := 9, framebuffer := 100
            renderArea := { offset := { x := 0, y := 0 },
                            extent := { width := 480, height := 272 } }
            clearValueCount := 2
            pClearValues := some [VkClearValue.zero, VkClearValue.zero] },
        VkCommand.BindPipeline 1,
        VkCommand.BindDescriptorSets 2 3 0 [],
        VkCommand.BindIndexBuffer 5 0,
        VkCommand.BindVertexBuffers 4 0,
        VkCommand.DrawIndexed 6 1,
        VkCommand.EndRenderPass] := by
  decide

/-! ### Further properties of the executor -/

/-- Clear values at the pass begin of an off-screen target: executing the bind of a
Render step whose target is an off-screen framebuffer other than the bound one
records exactly one begin-render-pass command, the last command recorded; it names
the render pass the table holds for the step's two load actions, and carries the
step's clear colour as first clear value if the colour load action is Clear, and
the step's clear depth and stencil as second clear value if the depth/stencil load
action is Clear; the count of clear values is 2 if the depth/stencil action is
Clear, else 1 if the colour action is Clear, else 0. -/
theorem offscreen_begin_clear_values (step : VKRStep) (m : VulkanRenderManager) (fb : Nat)
    (htarget : step.render.framebuffer = some fb)
    (hswitch : (m.fbs fb).framebuf ≠ m.curFramebuffer_) :
    ∃ m1 before rp_begin,
      PerformBindFramebufferAsRenderTarget step m =
        some (m1, before ++ [VkCommand.BeginRenderPass rp_begin]) ∧
      (∀ c ∈ before, isBeginRenderPass c = false) ∧
      rp_begin.renderPass =
        m.renderPasses_ (RPIndex step.render.color step.render.depthStencil) ∧
      rp_begin.clearValueCount =
        (if step.render.depthStencil = RenderPassAction.CLEAR then 2
          else if step.render.color = RenderPassAction.CLEAR then 1 else 0) ∧
      (step.render.color = RenderPassAction.CLEAR →
        rp_begin.pClearValues.bind (fun vs => vs[0]?) =
          some (VkClearValue.color step.render.clearColor)) ∧
      (step.render.depthStencil = RenderPassAction.CLEAR →
        rp_begin.pClearValues.bind (fun vs => vs[1]?) =
          some (VkClearValue.depthStencil (some step.render.clearDepth)
            (some (toUint32 step.render.clearStencil)))) := by
  obtain ⟨m1, rp_begin, h, _, _, hrp, hrp2, _, hcount, hvals⟩ :=
    PerformBindFramebufferAsRenderTarget_switch step m fb htarget hswitch
  refine ⟨m1, _, rp_begin, h, ?_, by rw [hrp2, hrp], hcount, ?_, ?_⟩
  · rw [transitionColorToAttachment_snd, transitionDepthToAttachment_snd]
    intro c hc
    simp only [List.mem_append] at hc
    rcases hc with (hc | hc) | hc
    · split at hc
      · simp only [List.mem_singleton] at hc
        subst hc
        rfl
      · simp at hc
    · split at hc
      · simp only [List.mem_singleton] at hc
        subst hc
        rfl
      · simp at hc
    · split at hc
      · simp only [List.mem_singleton] at hc
        subst hc
        rfl
      · simp at hc
  · intro hc
    rw [hvals, hcount]
    by_cases hd : step.render.depthStencil = RenderPassAction.CLEAR <;> simp [hc, hd]
  · intro hd
    rw [hvals, hcount]
    simp [hd]

/-- An instance of `offscreen_begin_clear_values`: a step with a colour clear folded
in, on the framebuffer at address 1. -/
theorem offscreen_begin_clear_values_witness :
    ((mergeClear 0xFF102030 0 0 VK_IMAGE_ASPECT_COLOR_BIT
        (freshStep (some 1))).render.framebuffer = some 1 ∧
      (exampleManager.fbs 1).framebuf ≠ exampleManager.curFramebuffer_) ∧
    ∃ m1 before rp_begin,
      PerformBindFramebufferAsRenderTarget
          (mergeClear 0xFF102030 0 0 VK_IMAGE_ASPECT_COLOR_BIT (freshStep (some 1)))
          exampleManager =
        some (m1, before ++ [VkCommand.BeginRenderPass rp_begin]) ∧
      (∀ c ∈ before, isBeginRenderPass c = false) ∧
      rp_begin.renderPass =
        exampleManager.renderPasses_
          (RPIndex
            (mergeClear 0xFF102030 0 0 VK_IMAGE_ASPECT_COLOR_BIT
              (freshStep (some 1))).render.color
            (mergeClear 0xFF102030 0 0 VK_IMAGE_ASPECT_COLOR_BIT
              (freshStep (some 1))).render.depthStencil) ∧
      rp_begin.clearValueCount =
        (if (mergeClear 0xFF102030 0 0 VK_IMAGE_ASPECT_COLOR_BIT
              (freshStep (some 1))).render.depthStencil = RenderPassAction.CLEAR then 2
          else if (mergeClear 0xFF102030 0 0 VK_IMAGE_ASPECT_COLOR_BIT
              (freshStep (some 1))).render.color = RenderPassAction.CLEAR then 1 else 0) ∧
      ((mergeClear 0xFF102030 0 0 VK_IMAGE_ASPECT_COLOR_BIT
          (freshStep (some 1))).render.color = RenderPassAction.CLEAR →
        rp_begin.pClearValues.bind (fun vs => vs[0]?) =
          some (VkClearValue.color
            (mergeClear 0xFF102030 0 0 VK_IMAGE_ASPECT_COLOR_BIT
              (freshStep (some 1))).render.clearColor)) ∧
      ((mergeClear 0xFF102030 0 0 VK_IMAGE_ASPECT_COLOR_BIT
          (freshStep (some 1))).render.depthStencil = RenderPassAction.CLEAR →
        rp_begin.pClearValues.bind (fun vs => vs[1]?) =
          some (VkClearValue.depthStencil
            (some (mergeClear 0xFF102030 0 0 VK_IMAGE_ASPECT_COLOR_BIT
              (freshStep (some 1))).render.clearDepth)
            (some (toUint32 (mergeClear 0xFF102030 0 0 VK_IMAGE_ASPECT_COLOR_BIT
              (freshStep (some 1))).render.clearStencil)))) :=
  ⟨⟨rfl, by decide⟩,
    offscreen_begin_clear_values
      (mergeClear 0xFF102030 0 0 VK_IMAGE_ASPECT_COLOR_BIT (freshStep (some 1)))
      exampleManager 1 rfl (by decide)⟩

/-! ### Mid-pass clears and the already bound target -/

/-- C18: when the current Render step has at least one draw, `Clear` pushes exactly
one `CLEAR` sub-command carrying the four values of the call to the end of the
step's command list; the step's `render` member (load actions, merged clear values,
draw count, target) and its earlier sub-commands are as before, and so is every
other step of the log. -/
theorem C18_mid_pass_clear (clearColor clearZ : Nat) (clearStencil : Int) (clearMask : Nat)
    (m : VulkanRenderManager) (i : Nat) (s : VKRStep)
    (hcur : m.curStep_ = some i) (hs : m.steps_[i]? = some s)
    (hr : s.stepType = VKStepType.RENDER) (hd : 0 < s.render.numDraws) :
    ∃ m1 s1, Clear clearColor clearZ clearStencil clearMask m = some m1 ∧
      m1.steps_[i]? = some s1 ∧
      s1.commands = s.commands ++
        [VkRenderData.CLEAR
          { clearColor := clearColor, clearZ := clearZ, clearStencil := clearStencil,
            clearMask := clearMask }] ∧
      s1.render = s.render ∧
      s1.stepType = s.stepType ∧
      m1.steps_.length = m.steps_.length ∧
      (∀ j, j ≠ i → m1.steps_[j]? = m.steps_[j]?) ∧
      m1.curStep_ = m.curStep_ := by
  have hlt : i < m.steps_.length := (List.getElem?_eq_some.1 hs).1
  obtain ⟨m1, h1, h2, h3⟩ := Clear_of_draws clearColor clearZ clearStencil clearMask
    m i s hcur hs hr (Nat.pos_iff_ne_zero.1 hd)
  refine ⟨m1, pushClear clearColor clearZ clearStencil clearMask s, h1,
    by rw [h2]; simp [hlt], rfl, rfl, rfl, by rw [h2]; simp, ?_, by rw [h3, hcur]⟩
  intro j hj
  rw [h2, List.getElem?_set_ne (Ne.symm hj)]

/-- C18, an instance: a `Clear` of the depth aspect on a step that has one draw. -/
theorem C18_mid_pass_clear_witness :
    (exampleManagerDrawn.curStep_ = some 0 ∧
      exampleManagerDrawn.steps_[0]? =
        some exampleDrawnStep ∧
      exampleDrawnStep.stepType =
        VKStepType.RENDER ∧
      0 < exampleDrawnStep.render.numDraws) ∧
    ∃ m1 s1, Clear 0 0x3F800000 0 VK_IMAGE_ASPECT_DEPTH_BIT exampleManagerDrawn = some m1 ∧
      m1.steps_[0]? = some s1 ∧
      s1.commands =
        exampleDrawnStep.commands ++
        [VkRenderData.CLEAR
          { clearColor := 0, clearZ := 0x3F800000, clearStencil := 0,
            clearMask := VK_IMAGE_ASPECT_DEPTH_BIT }] ∧
      s1.render =
        exampleDrawnStep.render ∧
      s1.stepType =
        exampleDrawnStep.stepType ∧
      m1.steps_.length = exampleManagerDrawn.steps_.length ∧
      (∀ j, j ≠ 0 → m1.steps_[j]? = exampleManagerDrawn.steps_[j]?) ∧
      m1.curStep_ = exampleManagerDrawn.curStep_ :=
  ⟨⟨rfl, rfl, rfl, by decide⟩,
    C18_mid_pass_clear 0 0x3F800000 0 VK_IMAGE_ASPECT_DEPTH_BIT exampleManagerDrawn 0 _
      rfl rfl rfl (by decide)⟩

/-- C19: when the target of a Render step is the bound framebuffer (a non-null
handle) and a pass is recorded as open, `PerformBindFramebufferAsRenderTarget`
returns with the manager, so the bookkeeping and every tracked layout, unchanged;
it records no begin-render-pass, no end-render-pass and no barrier; if one of the
step's load actions is Clear it records exactly one clear-attachments command, with
one entry per Clear action carrying the step's clear values (the stencil value as
the unsigned 32-bit value it is stored as), over the rectangle at (0, 0) of the
target's width and height (as unsigned 32-bit values), and otherwise it records
nothing. -/
theorem C19_already_bound (step : VKRStep) (m : VulkanRenderManager)
    (hbound :
      (match step.render.framebuffer with
        | some fb => (m.fbs fb).framebuf
        | none => m.framebuffers_ m.current_buffer) = m.curFramebuffer_)
    (hfb : m.curFramebuffer_ ≠ 0) (hpass : m.curRenderPass_ ≠ 0) :
    ∃ cmds, PerformBindFramebufferAsRenderTarget step m = some (m, cmds) ∧
      (∀ c ∈ cmds, isBeginRenderPass c = false ∧ isEndRenderPass c = false ∧
        isPipelineBarrier c = false) ∧
      ((step.render.color = RenderPassAction.CLEAR ∨
          step.render.depthStencil = RenderPassAction.CLEAR) →
        cmds =
          [VkCommand.ClearAttachments
            ((if step.render.color = RenderPassAction.CLEAR then
                [{ aspectMask := VK_IMAGE_ASPECT_COLOR_BIT
                   clearValue := VkClearValue.color step.render.clearColor
                   colorAttachment := some 0 }]
              else []) ++
             (if step.render.depthStencil = RenderPassAction.CLEAR then
                [{ aspectMask := VK_IMAGE_ASPECT_DEPTH_BIT ||| VK_IMAGE_ASPECT_STENCIL_BIT
                   clearValue := VkClearValue.depthStencil (some step.render.clearDepth)
                     (some (toUint32 step.render.clearStencil))
                   colorAttachment := some 0 }]
              else []))
            { rect :=
                { offset := { x := 0, y := 0 }
                  extent :=
                    { width :=
                        (match step.render.framebuffer with
                          | some fb => (m.fbs fb).width
                          | none => m.backbufferWidth) % 2 ^ 32
                      height :=
                        (match step.render.framebuffer with
                          | some fb => (m.fbs fb).height
                          | none => m.backbufferHeight) % 2 ^ 32 } }
              baseArrayLayer := 0, layerCount := 1 }]) ∧
      (¬ (step.render.color = RenderPassAction.CLEAR ∨
          step.render.depthStencil = RenderPassAction.CLEAR) → cmds = []) := by
  have hne : (match step.render.framebuffer with
        | some fb => (m.fbs fb).framebuf
        | none => m.framebuffers_ m.current_buffer) ≠ 0 := by
    rw [hbound]
    exact hfb
  refine ⟨boundClear step
      (match step.render.framebuffer with
        | some fb => (m.fbs fb).width
        | none => m.backbufferWidth)
      (match step.render.framebuffer with
        | some fb => (m.fbs fb).height
        | none => m.backbufferHeight),
    by unfold PerformBindFramebufferAsRenderTarget; simp only [if_pos hbound,
      if_neg hne, if_neg hpass], ?_, ?_, ?_⟩
  · intro c hc
    unfold boundClear at hc
    by_cases hcc : step.render.color = RenderPassAction.CLEAR <;>
    by_cases hd : step.render.depthStencil = RenderPassAction.CLEAR <;>
    simp [hcc, hd] at hc <;>
    try (subst hc; exact ⟨rfl, rfl, rfl⟩)
  · intro h
    unfold boundClear
    by_cases hc : step.render.color = RenderPassAction.CLEAR <;>
    by_cases hd : step.render.depthStencil = RenderPassAction.CLEAR <;>
    simp [hc, hd] at h ⊢
  · intro h
    unfold boundClear
    by_cases hc : step.render.color = RenderPassAction.CLEAR <;>
    by_cases hd : step.render.depthStencil = RenderPassAction.CLEAR <;>
    simp [hc, hd] at h ⊢

/-- C19, an instance: a step with a clear of colour, depth and stencil folded in,
the stencil value being -1, whose target is the framebuffer the open pass is
recorded on; the clear-attachments command carries the stencil value 4294967295. -/
theorem C19_already_bound_witness :
    (((match exampleClearBothStep.render.framebuffer with
        | some fb => (exampleManagerBound.fbs fb).framebuf
        | none => exampleManagerBound.framebuffers_ exampleManagerBound.current_buffer) = exampleManagerBound.curFramebuffer_ ∧
      exampleManagerBound.curFramebuffer_ ≠ 0 ∧ exampleManagerBound.curRenderPass_ ≠ 0 ∧
      exampleClearBothStep.render.clearStencil = -1 ∧
      toUint32 exampleClearBothStep.render.clearStencil = 4294967295) ∧
    ∃ cmds, PerformBindFramebufferAsRenderTarget exampleClearBothStep exampleManagerBound = some (exampleManagerBound, cmds) ∧
      (∀ c ∈ cmds, isBeginRenderPass c = false ∧ isEndRenderPass c = false ∧
        isPipelineBarrier c = false) ∧
      ((exampleClearBothStep.render.color = RenderPassAction.CLEAR ∨
          exampleClearBothStep.render.depthStencil = RenderPassAction.CLEAR) →
        cmds =
          [VkCommand.ClearAttachments
            ((if exampleClearBothStep.render.color = RenderPassAction.CLEAR then
                [{ aspectMask := VK_IMAGE_ASPECT_COLOR_BIT
                   clearValue := VkClearValue.color exampleClearBothStep.render.clearColor
                   colorAttachment := some 0 }]
              else []) ++
             (if exampleClearBothStep.render.depthStencil = RenderPassAction.CLEAR then
                [{ aspectMask := VK_IMAGE_ASPECT_DEPTH_BIT ||| VK_IMAGE_ASPECT_STENCIL_BIT
                   clearValue := VkClearValue.depthStencil (some exampleClearBothStep.render.clearDepth)
                     (some (toUint32 exampleClearBothStep.render.clearStencil))
                   colorAttachment := some 0 }]
              else []))
            { rect :=
                { offset := { x := 0, y := 0 }
                  extent :=
                    { width :=
                        (match exampleClearBothStep.render.framebuffer with
                          | some fb => (exampleManagerBound.fbs fb).width
                          | none => exampleManagerBound.backbufferWidth) % 2 ^ 32
                      height :=
                        (match exampleClearBothStep.render.framebuffer with
                          | some fb => (exampleManagerBound.fbs fb).height
                          | none => exampleManagerBound.backbufferHeight) % 2 ^ 32 } }
              baseArrayLayer := 0, layerCount := 1 }]) ∧
      (¬ (exampleClearBothStep.render.color = RenderPassAction.CLEAR ∨
          exampleClearBothStep.render.depthStencil = RenderPassAction.CLEAR) → cmds = [])) :=
  ⟨⟨rfl, by decide, by decide, rfl, by decide⟩,
    C19_already_bound exampleClearBothStep exampleManagerBound rfl (by decide) (by decide)⟩

/-- C20, the code at the failing inputs: from the state with no framebuffer bound
and no pass open, the command stream `Flush` records is not properly nested.  For
two Render steps on the same target with a clear folded in, the second step's
clear-attachments command and end come after the pass was ended; for a Render step
on an off-screen target followed by one on the backbuffer, the pass is ended twice
before the next begin. -/
theorem C20_passes_not_well_nested :
    exampleManager.curFramebuffer_ = 0 ∧ exampleManager.curRenderPass_ = 0 ∧
    (Flush 0 exampleLogTwoClears).map (fun r => wellNested false r.2) = some false ∧
    (Flush 0 exampleLogTwoClears).map Prod.snd =
      some [VkCommand.TransitionFromPresent 200,
        VkCommand.BeginRenderPass
          { renderPass := 13, framebuffer := 301
            renderArea := { offset := { x := 0, y := 0 },
                            extent := { width := 512, height := 272 } }
            clearValueCount := 1
            pClearValues := some [VkClearValue.color 0xFF102030, VkClearValue.zero] },
        VkCommand.EndRenderPass,
        VkCommand.ClearAttachments
          [{ aspectMask := VK_IMAGE_ASPECT_COLOR_BIT
             clearValue := VkClearValue.color 0xFF102030
             colorAttachment := some 0 }]
          { rect := { offset := { x := 0, y := 0 },
                      extent := { width := 512, height := 272 } }
            baseArrayLayer := 0, layerCount := 1 },
        VkCommand.EndRenderPass] ∧
    (Flush 0 exampleLogSwitch).map (fun r => wellNested false r.2) = some false ∧
    (Flush 0 exampleLogSwitch).map
        (fun r => r.2.map (fun c => (isBeginRenderPass c, isEndRenderPass c))) =
      some [(false, false), (true, false), (false, true), (false, true), (true, false),
        (false, true)] := by
  decide

/-! ### Flush -/

/-- The loop over the steps returns exactly when the first step returns and the
loop over the rest returns from the state it leaves; the commands are those of the
first step followed by those of the rest. -/
theorem performSteps_cons_eq_some (s : VKRStep) (rest : List VKRStep)
    (m m2 : VulkanRenderManager) (c : List VkCommand) :
    performSteps (s :: rest) m = some (m2, c) ↔
      ∃ (m1 : VulkanRenderManager) (c1 c2 : List VkCommand),
        performStep s m = some (m1, c1) ∧ performSteps rest m1 = some (m2, c2) ∧
        c = c1 ++ c2 := by
  rw [performSteps]
  cases h1 : performStep s m with
  | none => simp
  | some r =>
    obtain ⟨m1, c1⟩ := r
    simp only
    cases h2 : performSteps rest m1 with
    | none => simp [h2]
    | some r2 =>
      obtain ⟨m3, c3⟩ := r2
      simp only [Option.some.injEq, Prod.mk.injEq]
      constructor
      · rintro ⟨rfl, rfl⟩
        exact ⟨m1, c1, c3, ⟨rfl, rfl⟩, h2, rfl⟩
      · rintro ⟨m1', c1', c2', ⟨rfl, rfl⟩, hr, rfl⟩
        rw [h2] at hr
        simp only [Option.some.injEq, Prod.mk.injEq] at hr
        obtain ⟨rfl, rfl⟩ := hr
        exact ⟨rfl, rfl⟩

/-- The loop over the steps, cut in two: the steps after a prefix run in the state
the prefix leaves, and their commands follow those of the prefix. -/
theorem performSteps_append_eq_some (a b : List VKRStep) (m m2 : VulkanRenderManager)
    (c : List VkCommand) :
    performSteps (a ++ b) m = some (m2, c) ↔
      ∃ (m1 : VulkanRenderManager) (c1 c2 : List VkCommand),
        performSteps a m = some (m1, c1) ∧ performSteps b m1 = some (m2, c2) ∧
        c = c1 ++ c2 := by
  induction a generalizing m c with
  | nil =>
    simp only [List.nil_append, performSteps, Option.some.injEq, Prod.mk.injEq]
    constructor
    · intro h
      exact ⟨m, [], c, ⟨rfl, rfl⟩, h, rfl⟩
    · rintro ⟨m1, c1, c2, ⟨rfl, rfl⟩, h, rfl⟩
      exact h
  | cons s a ih =>
    rw [List.cons_append, performSteps_cons_eq_some]
    constructor
    · rintro ⟨m1, c1, c2, h1, h2, rfl⟩
      obtain ⟨m3, c3, c4, h3, h4, rfl⟩ := (ih m1 c2).1 h2
      exact ⟨m3, c1 ++ c3, c4,
        (performSteps_cons_eq_some s a m m3 (c1 ++ c3)).2 ⟨m1, c1, c3, h1, h3, rfl⟩, h4,
        by rw [List.append_assoc]⟩
    · rintro ⟨m3, c13, c4, h13, h4, rfl⟩
      obtain ⟨m1, c1, c3, h1, h3, rfl⟩ := (performSteps_cons_eq_some s a m m3 c13).1 h13
      exact ⟨m1, c1, c3 ++ c4, h1, (ih m1 (c3 ++ c4)).2 ⟨m3, c3, c4, h3, h4, rfl⟩,
        by rw [List.append_assoc]⟩

/-- The loop over a single step is the dispatch of that step. -/
theorem performSteps_singleton_eq_some (s : VKRStep) (m m1 : VulkanRenderManager)
    (c : List VkCommand) :
    performSteps [s] m = some (m1, c) ↔ performStep s m = some (m1, c) := by
  rw [performSteps_cons_eq_some]
  simp only [performSteps, Option.some.injEq, Prod.mk.injEq]
  constructor
  · rintro ⟨m1', c1, c2, h, ⟨rfl, rfl⟩, rfl⟩
    simpa using h
  · intro h
    exact ⟨m1, c, [], h, ⟨rfl, rfl⟩, by simp⟩

/-- Executing the bind of a Render step changes the bound-target bookkeeping and the
heap of framebuffer objects only. -/
theorem PerformBindFramebufferAsRenderTarget_frame (step : VKRStep)
    (m m1 : VulkanRenderManager) (c : List VkCommand)
    (h : PerformBindFramebufferAsRenderTarget step m = some (m1, c)) :
    m1.steps_ = m.steps_ ∧ m1.stepsOnThread_ = m.stepsOnThread_ ∧
    m1.curStep_ = m.curStep_ ∧ m1.current_buffer = m.current_buffer ∧
    m1.framebuffers_ = m.framebuffers_ ∧ m1.swapchainImages_ = m.swapchainImages_ ∧
    m1.renderPasses_ = m.renderPasses_ ∧
    m1.backbufferRenderPass_ = m.backbufferRenderPass_ ∧
    m1.backbufferWidth = m.backbufferWidth ∧ m1.backbufferHeight = m.backbufferHeight := by
  unfold PerformBindFramebufferAsRenderTarget at h
  simp only at h
  split at h
  · split at h
    · exact absurd h (by simp)
    · split at h
      · exact absurd h (by simp)
      · simp only [Option.some.injEq, Prod.mk.injEq] at h
        obtain ⟨rfl, _⟩ := h
        exact ⟨rfl, rfl, rfl, rfl, rfl, rfl, rfl, rfl, rfl, rfl⟩
  · split at h
    · simp only [Option.some.injEq, Prod.mk.injEq] at h
      obtain ⟨rfl, _⟩ := h
      by_cases hp : m.curRenderPass_ = 0 <;> simp [hp]
    · simp only [Option.some.injEq, Prod.mk.injEq] at h
      obtain ⟨rfl, _⟩ := h
      by_cases hp : m.curRenderPass_ = 0 <;> simp [hp]

/-- Executing a step changes the bound-target bookkeeping and the heap of
framebuffer objects only. -/
theorem performStep_frame (step : VKRStep) (m m1 : VulkanRenderManager)
    (c : List VkCommand) (h : performStep step m = some (m1, c)) :
    m1.steps_ = m.steps_ ∧ m1.stepsOnThread_ = m.stepsOnThread_ ∧
    m1.curStep_ = m.curStep_ ∧ m1.current_buffer = m.current_buffer ∧
    m1.framebuffers_ = m.framebuffers_ ∧ m1.swapchainImages_ = m.swapchainImages_ ∧
    m1.renderPasses_ = m.renderPasses_ ∧
    m1.backbufferRenderPass_ = m.backbufferRenderPass_ ∧
    m1.backbufferWidth = m.backbufferWidth ∧ m1.backbufferHeight = m.backbufferHeight := by
  unfold performStep at h
  split at h
  · unfold PerformRenderPass at h
    cases hb : PerformBindFramebufferAsRenderTarget step m with
    | none =>
      rw [hb] at h
      exact absurd h (by simp)
    | some r =>
      obtain ⟨mb, cb⟩ := r
      rw [hb] at h
      simp only [Option.some.injEq, Prod.mk.injEq] at h
      obtain ⟨rfl, _⟩ := h
      exact PerformBindFramebufferAsRenderTarget_frame step m mb cb hb
  · unfold PerformCopy at h
    simp only at h
    split at h
    · exact absurd h (by simp)
    · simp only [Option.some.injEq, Prod.mk.injEq] at h
      obtain ⟨rfl, _⟩ := h
      exact ⟨rfl, rfl, rfl, rfl, rfl, rfl, rfl, rfl, rfl, rfl⟩
  · unfold PerformBlit at h
    simp only at h
    split at h
    · exact absurd h (by simp)
    · simp only [Option.some.injEq, Prod.mk.injEq] at h
      obtain ⟨rfl, _⟩ := h
      exact ⟨rfl, rfl, rfl, rfl, rfl, rfl, rfl, rfl, rfl, rfl⟩
  · simp only [Option.some.injEq, Prod.mk.injEq] at h
    obtain ⟨rfl, _⟩ := h
    exact ⟨rfl, rfl, rfl, rfl, rfl, rfl, rfl, rfl, rfl, rfl⟩

/-- Executing a list of steps leaves the recorder's log as it is. -/
theorem performSteps_steps (steps : List VKRStep) (m m1 : VulkanRenderManager)
    (c : List VkCommand) (h : performSteps steps m = some (m1, c)) :
    m1.steps_ = m.steps_ := by
  induction steps generalizing m c with
  | nil =>
    simp only [performSteps, Option.some.injEq, Prod.mk.injEq] at h
    rw [← h.1]
  | cons s rest ih =>
    obtain ⟨m2, c1, c2, h1, h2, _⟩ := (performSteps_cons_eq_some s rest m m1 c).1 h
    rw [ih m2 c2 h2, (performStep_frame s m m2 c1 h1).1]

/-- Executing a list of steps leaves the index of the acquired image as it is. -/
theorem performSteps_current_buffer (steps : List VKRStep) (m m1 : VulkanRenderManager)
    (c : List VkCommand) (h : performSteps steps m = some (m1, c)) :
    m1.current_buffer = m.current_buffer := by
  induction steps generalizing m c with
  | nil =>
    simp only [performSteps, Option.some.injEq, Prod.mk.injEq] at h
    rw [← h.1]
  | cons s rest ih =>
    obtain ⟨m2, c1, c2, h1, h2, _⟩ := (performSteps_cons_eq_some s rest m m1 c).1 h
    rw [ih m2 c2 h2, (performStep_frame s m m2 c1 h1).2.2.2.1]

/-- C14: when `Flush` returns, the recorder's log and the executor's log are both
empty and `current_buffer` is the index of the acquired image; the command stream
is the present-to-colour-attachment transition of the acquired image followed by
the commands of the steps in recorded order: for every index `i`, the steps before
`i` have run, step `i` is dispatched exactly once, in the state they left, and its
commands come right after theirs; the commands of all the steps are the rest of
the stream; and a Readback step records no command and leaves the state as it is. -/
theorem C14_flush_hand_off (acquired : Nat) (m m1 : VulkanRenderManager)
    (cmds : List VkCommand) (h : Flush acquired m = some (m1, cmds)) :
    m1.steps_ = [] ∧ m1.stepsOnThread_ = [] ∧ m1.current_buffer = acquired ∧
    ∃ (m2 : VulkanRenderManager) (body : List VkCommand),
      cmds = VkCommand.TransitionFromPresent (m.swapchainImages_ acquired) :: body ∧
      performSteps (m.steps_.take m.steps_.length)
        { m with stepsOnThread_ := m.steps_, steps_ := [], current_buffer := acquired } =
          some (m2, body) ∧
      m1.fbs = m2.fbs ∧ m1.curFramebuffer_ = m2.curFramebuffer_ ∧
      m1.curRenderPass_ = m2.curRenderPass_ ∧
      ∀ (i : Nat) (s : VKRStep), m.steps_[i]? = some s →
        ∃ (before after : VulkanRenderManager) (pre ci : List VkCommand),
          performSteps (m.steps_.take i)
            { m with stepsOnThread_ := m.steps_, steps_ := [], current_buffer := acquired } =
              some (before, pre) ∧
          performStep s before = some (after, ci) ∧
          performSteps (m.steps_.take (i + 1))
            { m with stepsOnThread_ := m.steps_, steps_ := [], current_buffer := acquired } =
              some (after, pre ++ ci) ∧
          (s.stepType = VKStepType.READBACK → ci = [] ∧ after = before) := by
  unfold Flush at h
  simp only at h
  cases hp : performSteps m.steps_
      { m with stepsOnThread_ := m.steps_, steps_ := [], current_buffer := acquired } with
  | none =>
    rw [hp] at h
    exact absurd h (by simp)
  | some r =>
    obtain ⟨m2, body⟩ := r
    rw [hp] at h
    simp only [Option.some.injEq, Prod.mk.injEq] at h
    obtain ⟨hm, hc⟩ := h
    subst hm
    subst hc
    have hsteps : m2.steps_ = [] := performSteps_steps _ _ _ _ hp
    refine ⟨hsteps, rfl, performSteps_current_buffer _ _ _ _ hp, m2, body, rfl,
      by rw [List.take_length]; exact hp, rfl, rfl, rfl, ?_⟩
    intro i s hi
    have hlt : i < m.steps_.length := (List.getElem?_eq_some.1 hi).1
    have htake : m.steps_.take (i + 1) = m.steps_.take i ++ [s] := by
      rw [List.take_succ, hi]
      rfl
    have hp2 : performSteps (m.steps_.take (i + 1) ++ m.steps_.drop (i + 1))
        { m with stepsOnThread_ := m.steps_, steps_ := [], current_buffer := acquired } =
          some (m2, body) := by
      rw [List.take_append_drop]
      exact hp
    obtain ⟨after, c1, c2, h1, _, _⟩ := (performSteps_append_eq_some _ _ _ _ _).1 hp2
    have h1' : performSteps (m.steps_.take i ++ [s])
        { m with stepsOnThread_ := m.steps_, steps_ := [], current_buffer := acquired } =
          some (after, c1) := by
      rw [← htake]
      exact h1
    obtain ⟨before, pre, ci, hpre, hstep, rfl⟩ := (performSteps_append_eq_some _ _ _ _ _).1 h1'
    rw [performSteps_singleton_eq_some] at hstep
    refine ⟨before, after, pre, ci, hpre, hstep, h1, ?_⟩
    intro hrb
    unfold performStep at hstep
    rw [hrb] at hstep
    simp only [Option.some.injEq, Prod.mk.injEq] at hstep
    exact ⟨hstep.2.symm, hstep.1.symm⟩

/-- C14, an instance: a log of a Render step, a Readback step, a Copy step and a
Render step on the backbuffer. -/
theorem C14_flush_hand_off_witness :
    Flush 0 exampleLogMixed = some (exampleFlushedMixed.1, exampleFlushedMixed.2) ∧
    exampleFlushedMixed.1.steps_ = [] ∧ exampleFlushedMixed.1.stepsOnThread_ = [] ∧
    exampleFlushedMixed.1.current_buffer = 0 ∧
    ∃ (m2 : VulkanRenderManager) (body : List VkCommand),
      exampleFlushedMixed.2 = VkCommand.TransitionFromPresent (exampleLogMixed.swapchainImages_ 0) :: body ∧
      performSteps (exampleLogMixed.steps_.take exampleLogMixed.steps_.length)
        { exampleLogMixed with stepsOnThread_ := exampleLogMixed.steps_, steps_ := [], current_buffer := 0 } =
          some (m2, body) ∧
      exampleFlushedMixed.1.fbs = m2.fbs ∧ exampleFlushedMixed.1.curFramebuffer_ = m2.curFramebuffer_ ∧
      exampleFlushedMixed.1.curRenderPass_ = m2.curRenderPass_ ∧
      ∀ (i : Nat) (s : VKRStep), exampleLogMixed.steps_[i]? = some s →
        ∃ (before after : VulkanRenderManager) (pre ci : List VkCommand),
          performSteps (exampleLogMixed.steps_.take i)
            { exampleLogMixed with stepsOnThread_ := exampleLogMixed.steps_, steps_ := [], current_buffer := 0 } =
              some (before, pre) ∧
          performStep s before = some (after, ci) ∧
          performSteps (exampleLogMixed.steps_.take (i + 1))
            { exampleLogMixed with stepsOnThread_ := exampleLogMixed.steps_, steps_ := [], current_buffer := 0 } =
              some (after, pre ++ ci) ∧
          (s.stepType = VKStepType.READBACK → ci = [] ∧ after = before) :=
  ⟨rfl, C14_flush_hand_off 0 exampleLogMixed exampleFlushedMixed.1 exampleFlushedMixed.2 rfl⟩

/-! ### The frame bracket -/

/-- C16: `EndFrame` makes exactly one queue submission; it is given the slot's
fence, waits for the acquire semaphore, signals the rendering-complete semaphore,
and its command buffers are init then main when the slot has pending init commands
and main alone otherwise; afterwards the slot's flag is false, its handles are as
before, and every other slot is unchanged. -/
theorem C16_end_frame_submission (curFrame : Nat) (m : FrameManager) :
    (EndFrame curFrame m).2.filter isQueueSubmit =
      [DeviceCall.QueueSubmit
        { pWaitSemaphores := [m.acquireSemaphore_]
          pWaitDstStageMask := [VK_PIPELINE_STAGE_BOTTOM_OF_PIPE_BIT]
          pCommandBuffers :=
            if (m.frameData_ curFrame).hasInitCommands = true
            then [(m.frameData_ curFrame).initCmd, (m.frameData_ curFrame).mainCmd]
            else [(m.frameData_ curFrame).mainCmd]
          pSignalSemaphores := [m.renderingCompleteSemaphore] }
        (m.frameData_ curFrame).fence] ∧
    ((EndFrame curFrame m).1.frameData_ curFrame).hasInitCommands = false ∧
    ((EndFrame curFrame m).1.frameData_ curFrame).fence = (m.frameData_ curFrame).fence ∧
    ((EndFrame curFrame m).1.frameData_ curFrame).cmdPool = (m.frameData_ curFrame).cmdPool ∧
    ((EndFrame curFrame m).1.frameData_ curFrame).mainCmd = (m.frameData_ curFrame).mainCmd ∧
    ((EndFrame curFrame m).1.frameData_ curFrame).initCmd = (m.frameData_ curFrame).initCmd ∧
    ∀ k, k ≠ curFrame → (EndFrame curFrame m).1.frameData_ k = m.frameData_ k := by
  unfold EndFrame
  cases h : (m.frameData_ curFrame).hasInitCommands
  · simp [h, isQueueSubmit]
  · simp only [h, isQueueSubmit, if_true]
    refine ⟨by simp [List.filter, isQueueSubmit], by simp, by simp, by simp, by simp,
      by simp, ?_⟩
    intro k hk
    exact Function.update_noteq hk _ _

/-- C17: `BeginFrameWrites` first calls into the graphics context, and its first
call on the slot is the wait on the slot's fence, for all fences and without
timeout; the reset of that fence, the reset of the slot's command pool, made exactly
when the slot has no pending init commands, and the begin of the main command buffer
follow in this order. -/
theorem C17_begin_frame_discipline (curFrame : Nat) (m : FrameManager) :
    BeginFrameWrites curFrame m =
      [DeviceCall.ContextBeginFrame,
       DeviceCall.WaitForFences (m.frameData_ curFrame).fence true UINT64_MAX,
       DeviceCall.ResetFences (m.frameData_ curFrame).fence] ++
      (if (m.frameData_ curFrame).hasInitCommands = false
        then [DeviceCall.ResetCommandPool (m.frameData_ curFrame).cmdPool 0] else []) ++
      [DeviceCall.BeginCommandBuffer (m.frameData_ curFrame).mainCmd
        VK_COMMAND_BUFFER_USAGE_ONE_TIME_SUBMIT_BIT] ∧
    (DeviceCall.ResetCommandPool (m.frameData_ curFrame).cmdPool 0 ∈
        BeginFrameWrites curFrame m ↔
      (m.frameData_ curFrame).hasInitCommands = false) ∧
    (∀ pool flags, DeviceCall.ResetCommandPool pool flags ∈ BeginFrameWrites curFrame m →
      (m.frameData_ curFrame).hasInitCommands = false ∧
      pool = (m.frameData_ curFrame).cmdPool) := by
  unfold BeginFrameWrites
  cases h : (m.frameData_ curFrame).hasInitCommands <;> simp [h]

/-! ### The table of render passes -/

/-- The render passes `InitRenderpasses` creates, in call order. -/
theorem InitRenderpasses_created (newPass : Nat → Nat) (m : VulkanRenderManager) :
    (InitRenderpasses newPass m).2 =
      (List.range 9).map (fun k =>
        (k,
          [{ loadOp := loadOpOfAction (actionOfInt (k % 3))
             stencilLoadOp := VkAttachmentLoadOp.DONT_CARE
             initialLayout := VkImageLayout.COLOR_ATTACHMENT_OPTIMAL
             finalLayout := VkImageLayout.COLOR_ATTACHMENT_OPTIMAL },
           { loadOp := loadOpOfAction (actionOfInt (k / 3))
             stencilLoadOp := VkAttachmentLoadOp.LOAD
             initialLayout := VkImageLayout.DEPTH_STENCIL_ATTACHMENT_OPTIMAL
             finalLayout := VkImageLayout.DEPTH_STENCIL_ATTACHMENT_OPTIMAL }])) := by
  rfl

/-- C15: `InitRenderpasses` creates exactly 9 render passes; for every pair of a
colour and a depth/stencil action the table entry `RPIndex` names for the pair
receives the handle of the one pass created with the colour load operation and the
depth load operation of the pair, Clear giving CLEAR, Keep LOAD and DontCare
DONT_CARE; the 9 configurations are pairwise distinct, as are the 9 table entries;
and the bind of a Render step on an off-screen target selects the entry of the
step's two load actions. -/
theorem C15_render_pass_table (newPass : Nat → Nat) (m : VulkanRenderManager)
    (step : VKRStep) (fb : Nat)
    (htarget : step.render.framebuffer = some fb)
    (hswitch : (m.fbs fb).framebuf ≠ m.curFramebuffer_) :
    (InitRenderpasses newPass m).2.length = 9 ∧
    (∀ c d : RenderPassAction,
      (InitRenderpasses newPass m).2[RPIndex c d]? =
        some (RPIndex c d,
          [{ loadOp := loadOpOfAction c
             stencilLoadOp := VkAttachmentLoadOp.DONT_CARE
             initialLayout := VkImageLayout.COLOR_ATTACHMENT_OPTIMAL
             finalLayout := VkImageLayout.COLOR_ATTACHMENT_OPTIMAL },
           { loadOp := loadOpOfAction d
             stencilLoadOp := VkAttachmentLoadOp.LOAD
             initialLayout := VkImageLayout.DEPTH_STENCIL_ATTACHMENT_OPTIMAL
             finalLayout := VkImageLayout.DEPTH_STENCIL_ATTACHMENT_OPTIMAL }]) ∧
      (InitRenderpasses newPass m).1.renderPasses_ (RPIndex c d) = newPass (RPIndex c d)) ∧
    (loadOpOfAction RenderPassAction.CLEAR = VkAttachmentLoadOp.CLEAR ∧
      loadOpOfAction RenderPassAction.KEEP = VkAttachmentLoadOp.LOAD ∧
      loadOpOfAction RenderPassAction.DONT_CARE = VkAttachmentLoadOp.DONT_CARE) ∧
    ((InitRenderpasses newPass m).2.map Prod.snd).Nodup ∧
    ((InitRenderpasses newPass m).2.map Prod.fst).Nodup ∧
    (∀ c d c' d' : RenderPassAction, RPIndex c d = RPIndex c' d' → c = c' ∧ d = d') ∧
    ∃ m1 before rp_begin,
      PerformBindFramebufferAsRenderTarget step (InitRenderpasses newPass m).1 =
        some (m1, before ++ [VkCommand.BeginRenderPass rp_begin]) ∧
      rp_begin.renderPass =
        newPass (RPIndex step.render.color step.render.depthStencil) ∧
      m1.curRenderPass_ = newPass (RPIndex step.render.color step.render.depthStencil) := by
  refine ⟨by rw [InitRenderpasses_created]; rfl, ?_, ⟨rfl, rfl, rfl⟩,
    by rw [InitRenderpasses_created]; decide, by rw [InitRenderpasses_created]; decide,
    ?_, ?_⟩
  · intro c d
    constructor
    · rw [InitRenderpasses_created]
      cases c <;> cases d <;> rfl
    · cases c <;> cases d <;> rfl
  · intro c d c' d' h
    cases c <;> cases d <;> cases c' <;> cases d' <;>
      first | exact ⟨rfl, rfl⟩ | exact absurd h (by decide)
  · obtain ⟨m1, rp_begin, h1, _, _, h2, h3, _⟩ :=
      PerformBindFramebufferAsRenderTarget_switch step (InitRenderpasses newPass m).1 fb
        htarget hswitch
    have hsel : (InitRenderpasses newPass m).1.renderPasses_
        (RPIndex step.render.color step.render.depthStencil) =
        newPass (RPIndex step.render.color step.render.depthStencil) := by
      cases step.render.color <;> cases step.render.depthStencil <;> rfl
    exact ⟨m1, _, rp_begin, h1, by rw [h3, h2, hsel], by rw [h2, hsel]⟩

/-- C15, an instance: the table filled with the handles 50 to 58, and a step with
a colour clear folded in. -/
theorem C15_render_pass_table_witness :
    (exampleClearStep.render.framebuffer = some 1 ∧
      (exampleManager.fbs 1).framebuf ≠ exampleManager.curFramebuffer_) ∧
    (InitRenderpasses (fun k => 50 + k) exampleManager).2.length = 9 ∧
    (∀ c d : RenderPassAction,
      (InitRenderpasses (fun k => 50 + k) exampleManager).2[RPIndex c d]? =
        some (RPIndex c d,
          [{ loadOp := loadOpOfAction c
             stencilLoadOp := VkAttachmentLoadOp.DONT_CARE
             initialLayout := VkImageLayout.COLOR_ATTACHMENT_OPTIMAL
             finalLayout := VkImageLayout.COLOR_ATTACHMENT_OPTIMAL },
           { loadOp := loadOpOfAction d
             stencilLoadOp := VkAttachmentLoadOp.LOAD
             initialLayout := VkImageLayout.DEPTH_STENCIL_ATTACHMENT_OPTIMAL
             finalLayout := VkImageLayout.DEPTH_STENCIL_ATTACHMENT_OPTIMAL }]) ∧
      (InitRenderpasses (fun k => 50 + k) exampleManager).1.renderPasses_ (RPIndex c d) = (fun k => 50 + k) (RPIndex c d)) ∧
    (loadOpOfAction RenderPassAction.CLEAR = VkAttachmentLoadOp.CLEAR ∧
      loadOpOfAction RenderPassAction.KEEP = VkAttachmentLoadOp.LOAD ∧
      loadOpOfAction RenderPassAction.DONT_CARE = VkAttachmentLoadOp.DONT_CARE) ∧
    ((InitRenderpasses (fun k => 50 + k) exampleManager).2.map Prod.snd).Nodup ∧
    ((InitRenderpasses (fun k => 50 + k) exampleManager).2.map Prod.fst).Nodup ∧
    (∀ c d c' d' : RenderPassAction, RPIndex c d = RPIndex c' d' → c = c' ∧ d = d') ∧
    ∃ m1 before rp_begin,
      PerformBindFramebufferAsRenderTarget exampleClearStep (InitRenderpasses (fun k => 50 + k) exampleManager).1 =
        some (m1, before ++ [VkCommand.BeginRenderPass rp_begin]) ∧
      rp_begin.renderPass =
        (fun k => 50 + k) (RPIndex exampleClearStep.render.color exampleClearStep.render.depthStencil) ∧
      m1.curRenderPass_ = (fun k => 50 + k) (RPIndex exampleClearStep.render.color exampleClearStep.render.depthStencil) :=
  ⟨⟨rfl, by decide⟩,
    C15_render_pass_table (fun k => 50 + k) exampleManager exampleClearStep 1 rfl
      (by decide)⟩

/-! ### Barriers follow the tracked layouts -/

/-- Following two lists of barriers one after the other. -/
theorem chainEnd_append (l : VkImageLayout) (a b : List VkImageMemoryBarrier) :
    chainEnd l (a ++ b) = (chainEnd l a).bind (fun l1 => chainEnd l1 b) := by
  induction a generalizing l with
  | nil => rfl
  | cons x a ih =>
    simp only [List.cons_append, chainEnd]
    split
    · exact ih _
    · rfl

theorem onImage_append (image : Nat) (a b : List VkImageMemoryBarrier) :
    onImage image (a ++ b) = onImage image a ++ onImage image b := by
  simp [onImage]

theorem allBarriers_append (a b : List VkCommand) :
    allBarriers (a ++ b) = allBarriers a ++ allBarriers b := by
  simp [allBarriers]

/-- No barrier, no change. -/
theorem Tracks.refl (fbs : Nat → VKRFramebuffer) : Tracks fbs [] fbs := by
  intro s
  exact ⟨rfl, rfl⟩

/-- Barriers generated one after the other. -/
theorem Tracks.trans {f1 f2 f3 : Nat → VKRFramebuffer} {b1 b2 : List VkImageMemoryBarrier}
    (h1 : Tracks f1 b1 f2) (h2 : Tracks f2 b2 f3) : Tracks f1 (b1 ++ b2) f3 := by
  intro s
  obtain ⟨hi1, hc1⟩ := h1 s
  obtain ⟨hi2, hc2⟩ := h2 s
  refine ⟨by rw [hi2, hi1], ?_⟩
  rw [onImage_append, chainEnd_append, hc1]
  simp only [Option.some_bind]
  rw [← hi1]
  exact hc2

/-- The tracked layouts only depend on the barriers of each image, in their order. -/
theorem Tracks.of_onImage_eq {f1 f2 : Nat → VKRFramebuffer}
    {b1 b2 : List VkImageMemoryBarrier}
    (h : ∀ image, onImage image b2 = onImage image b1) (h1 : Tracks f1 b1 f2) :
    Tracks f1 b2 f2 := by
  intro s
  rw [h]
  exact h1 s

/-- Image handles stay distinct. -/
theorem Tracks.distinct {f1 f2 : Nat → VKRFramebuffer} {b : List VkImageMemoryBarrier}
    (h : Tracks f1 b f2) (hd : DistinctImages f1) : DistinctImages f2 := by
  intro s t hst
  rw [(h s).1, (h t).1] at hst
  exact hd s t hst

/-- One conditional transition follows the tracked layouts. -/
theorem SingleTransition.tracks {fbs fbs1 : Nat → VKRFramebuffer} {a : ImageSlot}
    {target : VkImageLayout} {aspect : Nat} {barriers : List VkImageMemoryBarrier}
    (h : SingleTransition fbs a target aspect barriers fbs1) (hd : DistinctImages fbs) :
    Tracks fbs barriers fbs1 := by
  obtain ⟨hb, ha, hother, _⟩ := h
  intro s
  by_cases hs : s = a
  · subst hs
    rw [ha]
    refine ⟨rfl, ?_⟩
    rcases hb with ⟨hl, rfl⟩ | ⟨_, b, rfl, hbi, hbo, hbn, _⟩
    · simp [onImage, chainEnd, hl]
    · simp [onImage, chainEnd, hbi, hbo, hbn]
  · rw [hother s hs]
    refine ⟨rfl, ?_⟩
    rcases hb with ⟨_, rfl⟩ | ⟨_, b, rfl, hbi, _, _, _⟩
    · simp [onImage, chainEnd]
    · have hne : ¬ (b.image = (imageAt fbs s).image) := by
        intro h
        rw [hbi] at h
        exact hs (hd a s h).symm
      simp [onImage, chainEnd, hne]

/-- A transition that is not needed: no barrier, the heap as it is. -/
theorem SingleTransition.of_eq (fbs : Nat → VKRFramebuffer) (a : ImageSlot)
    (target : VkImageLayout) (aspect : Nat) (h : (imageAt fbs a).layout = target) :
    SingleTransition fbs a target aspect [] fbs := by
  refine ⟨Or.inl ⟨h, rfl⟩, ?_, fun _ _ => rfl, fun _ => ⟨rfl, rfl, rfl⟩⟩
  cases hi : imageAt fbs a with
  | mk image imageView layout =>
    rw [hi] at h
    simp only at h
    subst h
    rfl

/-- A transition of the colour image of the framebuffer at `p`, written back to the
heap. -/
theorem SingleTransition.of_update_color (fbs : Nat → VKRFramebuffer) (p : Nat)
    (target : VkImageLayout) (aspect : Nat) (b : VkImageMemoryBarrier)
    (hne : (fbs p).color.layout ≠ target) (hbi : b.image = (fbs p).color.image)
    (hbo : b.oldLayout = (fbs p).color.layout) (hbn : b.newLayout = target)
    (hba : b.aspectMask = aspect) :
    SingleTransition fbs (ImageSlot.color p) target aspect [b]
      (Function.update fbs p { fbs p with color := { (fbs p).color with layout := target } }) := by
  refine ⟨Or.inr ⟨hne, b, rfl, hbi, hbo, hbn, hba⟩, ?_, ?_, ?_⟩
  · simp [imageAt]
  · intro s hs
    cases s with
    | color q =>
      have hq : q ≠ p := fun h => hs (by rw [h])
      simp [imageAt, Function.update_noteq hq]
    | depth q =>
      by_cases hq : q = p
      · subst hq
        simp [imageAt]
      · simp [imageAt, Function.update_noteq hq]
  · intro q
    by_cases hq : q = p
    · subst hq
      simp
    · simp [Function.update_noteq hq]

/-- A transition of the depth image of the framebuffer at `p`, written back to the
heap. -/
theorem SingleTransition.of_update_depth (fbs : Nat → VKRFramebuffer) (p : Nat)
    (target : VkImageLayout) (aspect : Nat) (b : VkImageMemoryBarrier)
    (hne : (fbs p).depth.layout ≠ target) (hbi : b.image = (fbs p).depth.image)
    (hbo : b.oldLayout = (fbs p).depth.layout) (hbn : b.newLayout = target)
    (hba : b.aspectMask = aspect) :
    SingleTransition fbs (ImageSlot.depth p) target aspect [b]
      (Function.update fbs p { fbs p with depth := { (fbs p).depth with layout := target } }) := by
  refine ⟨Or.inr ⟨hne, b, rfl, hbi, hbo, hbn, hba⟩, ?_, ?_, ?_⟩
  · simp [imageAt]
  · intro s hs
    cases s with
    | depth q =>
      have hq : q ≠ p := fun h => hs (by rw [h])
      simp [imageAt, Function.update_noteq hq]
    | color q =>
      by_cases hq : q = p
      · subst hq
        simp [imageAt]
      · simp [imageAt, Function.update_noteq hq]
  · intro q
    by_cases hq : q = p
    · subst hq
      simp
    · simp [Function.update_noteq hq]

/-- `SetupTransitionToTransferSrc`, when it returns: the barrier goes from the
tracked layout to transfer-src-optimal, which is the tracked layout afterwards, and
the layout before is one of the four the switch lists. -/
theorem SetupTransitionToTransferSrc_eq_some (img img1 : VKImage) (aspect : Nat)
    (b : VkImageMemoryBarrier)
    (h : SetupTransitionToTransferSrc img aspect = some (img1, b)) :
    img1 = { img with layout := VkImageLayout.TRANSFER_SRC_OPTIMAL } ∧
    b.oldLayout = img.layout ∧ b.newLayout = VkImageLayout.TRANSFER_SRC_OPTIMAL ∧
    img1.layout = b.newLayout ∧
    b.image = img.image ∧ b.aspectMask = aspect ∧
    img.layout ∈ [VkImageLayout.COLOR_ATTACHMENT_OPTIMAL,
      VkImageLayout.DEPTH_STENCIL_ATTACHMENT_OPTIMAL, VkImageLayout.TRANSFER_DST_OPTIMAL,
      VkImageLayout.SHADER_READ_ONLY_OPTIMAL] := by
  unfold SetupTransitionToTransferSrc at h
  cases hl : img.layout <;> rw [hl] at h <;> simp at h <;>
    (obtain ⟨rfl, rfl⟩ := h; simp [hl])

/-- `SetupTransitionToTransferSrc` returns exactly when the tracked layout is one of
the four the switch lists. -/
theorem SetupTransitionToTransferSrc_isSome (img : VKImage) (aspect : Nat) :
    (SetupTransitionToTransferSrc img aspect).isSome = true ↔
      img.layout ∈ [VkImageLayout.COLOR_ATTACHMENT_OPTIMAL,
        VkImageLayout.DEPTH_STENCIL_ATTACHMENT_OPTIMAL, VkImageLayout.TRANSFER_DST_OPTIMAL,
        VkImageLayout.SHADER_READ_ONLY_OPTIMAL] := by
  unfold SetupTransitionToTransferSrc
  cases hl : img.layout <;> simp

/-- `SetupTransitionToTransferDst`, when it returns: the barrier goes from the
tracked layout to transfer-dst-optimal, which is the tracked layout afterwards, and
the layout before is one of the four the switch lists. -/
theorem SetupTransitionToTransferDst_eq_some (img img1 : VKImage) (aspect : Nat)
    (b : VkImageMemoryBarrier)
    (h : SetupTransitionToTransferDst img aspect = some (img1, b)) :
    img1 = { img with layout := VkImageLayout.TRANSFER_DST_OPTIMAL } ∧
    b.oldLayout = img.layout ∧ b.newLayout = VkImageLayout.TRANSFER_DST_OPTIMAL ∧
    img1.layout = b.newLayout ∧
    b.image = img.image ∧ b.aspectMask = aspect ∧
    img.layout ∈ [VkImageLayout.COLOR_ATTACHMENT_OPTIMAL,
      VkImageLayout.TRANSFER_SRC_OPTIMAL, VkImageLayout.DEPTH_STENCIL_ATTACHMENT_OPTIMAL,
      VkImageLayout.SHADER_READ_ONLY_OPTIMAL] := by
  unfold SetupTransitionToTransferDst at h
  cases hl : img.layout <;> rw [hl] at h <;> simp at h <;>
    (obtain ⟨rfl, rfl⟩ := h; simp [hl])

/-- `SetupTransitionToTransferDst` returns exactly when the tracked layout is one of
the four the switch lists. -/
theorem SetupTransitionToTransferDst_isSome (img : VKImage) (aspect : Nat) :
    (SetupTransitionToTransferDst img aspect).isSome = true ↔
      img.layout ∈ [VkImageLayout.COLOR_ATTACHMENT_OPTIMAL,
        VkImageLayout.TRANSFER_SRC_OPTIMAL, VkImageLayout.DEPTH_STENCIL_ATTACHMENT_OPTIMAL,
        VkImageLayout.SHADER_READ_ONLY_OPTIMAL] := by
  unfold SetupTransitionToTransferDst
  cases hl : img.layout <;> simp

/-- `srcColorToTransfer`, when it returns, is one conditional transition of the color image of
the source to transfer-src-optimal; its barrier, if any, goes to the end of the source
barriers. -/
theorem srcColorToTransfer_eq_some (p : Nat) (t t1 : TransferBarriers)
    (h : srcColorToTransfer p t = some t1) :
    ∃ nb : List VkImageMemoryBarrier,
      t1.srcBarriers = t.srcBarriers ++ nb ∧ t1.dstBarriers = t.dstBarriers ∧
      SingleTransition t.fbs (ImageSlot.color p) VkImageLayout.TRANSFER_SRC_OPTIMAL
        VK_IMAGE_ASPECT_COLOR_BIT nb t1.fbs := by
  unfold srcColorToTransfer at h
  by_cases hl : (t.fbs p).color.layout = VkImageLayout.TRANSFER_SRC_OPTIMAL
  · rw [if_neg (not_not.2 hl)] at h
    simp only [Option.some.injEq] at h
    subst h
    exact ⟨[], by simp, rfl, SingleTransition.of_eq _ _ _ _ hl⟩
  · rw [if_pos hl] at h
    cases hs : SetupTransitionToTransferSrc (t.fbs p).color VK_IMAGE_ASPECT_COLOR_BIT with
    | none =>
      rw [hs] at h
      exact absurd h (by simp)
    | some r =>
      obtain ⟨img, b⟩ := r
      rw [hs] at h
      simp only [Option.some.injEq] at h
      subst h
      obtain ⟨rfl, hbo, hbn, _, hbi, hba, _⟩ := SetupTransitionToTransferSrc_eq_some _ _ _ _ hs
      exact ⟨[b], rfl, rfl, SingleTransition.of_update_color _ _ _ _ b hl hbi hbo hbn hba⟩

/-- `srcColorToTransfer` returns exactly when the color image of the source is tracked in
transfer-src-optimal already or in one of the four layouts the helper's switch lists. -/
theorem srcColorToTransfer_isSome (p : Nat) (t : TransferBarriers) :
    (srcColorToTransfer p t).isSome = true ↔
      (t.fbs p).color.layout ∈ [VkImageLayout.TRANSFER_SRC_OPTIMAL,
        VkImageLayout.COLOR_ATTACHMENT_OPTIMAL, VkImageLayout.DEPTH_STENCIL_ATTACHMENT_OPTIMAL, VkImageLayout.TRANSFER_DST_OPTIMAL, VkImageLayout.SHADER_READ_ONLY_OPTIMAL] := by
  unfold srcColorToTransfer
  by_cases hl : (t.fbs p).color.layout = VkImageLayout.TRANSFER_SRC_OPTIMAL
  · rw [if_neg (not_not.2 hl)]
    simp [hl]
  · rw [if_pos hl]
    have h := SetupTransitionToTransferSrc_isSome (t.fbs p).color VK_IMAGE_ASPECT_COLOR_BIT
    cases hs : SetupTransitionToTransferSrc (t.fbs p).color VK_IMAGE_ASPECT_COLOR_BIT with
    | none =>
      rw [hs] at h
      simp only [Option.isSome_none, Bool.false_eq_true, false_iff] at h ⊢
      intro hm
      simp only [List.mem_cons] at hm h
      rcases hm with hm | hm
      · exact hl hm
      · exact h hm
    | some r =>
      rw [hs] at h
      simp only [Option.isSome_some, true_iff] at h ⊢
      exact List.mem_cons_of_mem _ h

/-- `dstColorToTransfer`, when it returns, is one conditional transition of the color image of
the destination to transfer-dst-optimal; its barrier, if any, goes to the end of the destination
barriers. -/
theorem dstColorToTransfer_eq_some (p : Nat) (t t1 : TransferBarriers)
    (h : dstColorToTransfer p t = some t1) :
    ∃ nb : List VkImageMemoryBarrier,
      t1.dstBarriers = t.dstBarriers ++ nb ∧ t1.srcBarriers = t.srcBarriers ∧
      SingleTransition t.fbs (ImageSlot.color p) VkImageLayout.TRANSFER_DST_OPTIMAL
        VK_IMAGE_ASPECT_COLOR_BIT nb t1.fbs := by
  unfold dstColorToTransfer at h
  by_cases hl : (t.fbs p).color.layout = VkImageLayout.TRANSFER_DST_OPTIMAL
  · rw [if_neg (not_not.2 hl)] at h
    simp only [Option.some.injEq] at h
    subst h
    exact ⟨[], by simp, rfl, SingleTransition.of_eq _ _ _ _ hl⟩
  · rw [if_pos hl] at h
    cases hs : SetupTransitionToTransferDst (t.fbs p).color VK_IMAGE_ASPECT_COLOR_BIT with
    | none =>
      rw [hs] at h
      exact absurd h (by simp)
    | some r =>
      obtain ⟨img, b⟩ := r
      rw [hs] at h
      simp only [Option.some.injEq] at h
      subst h
      obtain ⟨rfl, hbo, hbn, _, hbi, hba, _⟩ := SetupTransitionToTransferDst_eq_some _ _ _ _ hs
      exact ⟨[b], rfl, rfl, SingleTransition.of_update_color _ _ _ _ b hl hbi hbo hbn hba⟩

/-- `dstColorToTransfer` returns exactly when the color image of the destination is tracked in
transfer-dst-optimal already or in one of the four layouts the helper's switch lists. -/
theorem dstColorToTransfer_isSome (p : Nat) (t : TransferBarriers) :
    (dstColorToTransfer p t).isSome = true ↔
      (t.fbs p).color.layout ∈ [VkImageLayout.TRANSFER_DST_OPTIMAL,
        VkImageLayout.COLOR_ATTACHMENT_OPTIMAL, VkImageLayout.TRANSFER_SRC_OPTIMAL, VkImageLayout.DEPTH_STENCIL_ATTACHMENT_OPTIMAL, VkImageLayout.SHADER_READ_ONLY_OPTIMAL] := by
  unfold dstColorToTransfer
  by_cases hl : (t.fbs p).color.layout = VkImageLayout.TRANSFER_DST_OPTIMAL
  · rw [if_neg (not_not.2 hl)]
    simp [hl]
  · rw [if_pos hl]
    have h := SetupTransitionToTransferDst_isSome (t.fbs p).color VK_IMAGE_ASPECT_COLOR_BIT
    cases hs : SetupTransitionToTransferDst (t.fbs p).color VK_IMAGE_ASPECT_COLOR_BIT with
    | none =>
      rw [hs] at h
      simp only [Option.isSome_none, Bool.false_eq_true, false_iff] at h ⊢
      intro hm
      simp only [List.mem_cons] at hm h
      rcases hm with hm | hm
      · exact hl hm
      · exact h hm
    | some r =>
      rw [hs] at h
      simp only [Option.isSome_some, true_iff] at h ⊢
      exact List.mem_cons_of_mem _ h

/-- `srcDepthToTransfer`, when it returns, is one conditional transition of the depth image of
the source to transfer-src-optimal; its barrier, if any, goes to the end of the source
barriers. -/
theorem srcDepthToTransfer_eq_some (p : Nat) (t t1 : TransferBarriers)
    (h : srcDepthToTransfer p t = some t1) :
    ∃ nb : List VkImageMemoryBarrier,
      t1.srcBarriers = t.srcBarriers ++ nb ∧ t1.dstBarriers = t.dstBarriers ∧
      SingleTransition t.fbs (ImageSlot.depth p) VkImageLayout.TRANSFER_SRC_OPTIMAL
        (VK_IMAGE_ASPECT_DEPTH_BIT ||| VK_IMAGE_ASPECT_STENCIL_BIT) nb t1.fbs := by
  unfold srcDepthToTransfer at h
  by_cases hl : (t.fbs p).depth.layout = VkImageLayout.TRANSFER_SRC_OPTIMAL
  · rw [if_neg (not_not.2 hl)] at h
    simp only [Option.some.injEq] at h
    subst h
    exact ⟨[], by simp, rfl, SingleTransition.of_eq _ _ _ _ hl⟩
  · rw [if_pos hl] at h
    cases hs : SetupTransitionToTransferSrc (t.fbs p).depth (VK_IMAGE_ASPECT_DEPTH_BIT ||| VK_IMAGE_ASPECT_STENCIL_BIT) with
    | none =>
      rw [hs] at h
      exact absurd h (by simp)
    | some r =>
      obtain ⟨img, b⟩ := r
      rw [hs] at h
      simp only [Option.some.injEq] at h
      subst h
      obtain ⟨rfl, hbo, hbn, _, hbi, hba, _⟩ := SetupTransitionToTransferSrc_eq_some _ _ _ _ hs
      exact ⟨[b], rfl, rfl, SingleTransition.of_update_depth _ _ _ _ b hl hbi hbo hbn hba⟩

/-- `srcDepthToTransfer` returns exactly when the depth image of the source is tracked in
transfer-src-optimal already or in one of the four layouts the helper's switch lists. -/
theorem srcDepthToTransfer_isSome (p : Nat) (t : TransferBarriers) :
    (srcDepthToTransfer p t).isSome = true ↔
      (t.fbs p).depth.layout ∈ [VkImageLayout.TRANSFER_SRC_OPTIMAL,
        VkImageLayout.COLOR_ATTACHMENT_OPTIMAL, VkImageLayout.DEPTH_STENCIL_ATTACHMENT_OPTIMAL, VkImageLayout.TRANSFER_DST_OPTIMAL, VkImageLayout.SHADER_READ_ONLY_OPTIMAL] := by
  unfold srcDepthToTransfer
  by_cases hl : (t.fbs p).depth.layout = VkImageLayout.TRANSFER_SRC_OPTIMAL
  · rw [if_neg (not_not.2 hl)]
    simp [hl]
  · rw [if_pos hl]
    have h := SetupTransitionToTransferSrc_isSome (t.fbs p).depth (VK_IMAGE_ASPECT_DEPTH_BIT ||| VK_IMAGE_ASPECT_STENCIL_BIT)
    cases hs : SetupTransitionToTransferSrc (t.fbs p).depth (VK_IMAGE_ASPECT_DEPTH_BIT ||| VK_IMAGE_ASPECT_STENCIL_BIT) with
    | none =>
      rw [hs] at h
      simp only [Option.isSome_none, Bool.false_eq_true, false_iff] at h ⊢
      intro hm
      simp only [List.mem_cons] at hm h
      rcases hm with hm | hm
      · exact hl hm
      · exact h hm
    | some r =>
      rw [hs] at h
      simp only [Option.isSome_some, true_iff] at h ⊢
      exact List.mem_cons_of_mem _ h

/-- `dstDepthToTransfer`, when it returns, is one conditional transition of the depth image of
the destination to transfer-dst-optimal; its barrier, if any, goes to the end of the destination
barriers. -/
theorem dstDepthToTransfer_eq_some (p : Nat) (t t1 : TransferBarriers)
    (h : dstDepthToTransfer p t = some t1) :
    ∃ nb : List VkImageMemoryBarrier,
      t1.dstBarriers = t.dstBarriers ++ nb ∧ t1.srcBarriers = t.srcBarriers ∧
      SingleTransition t.fbs (ImageSlot.depth p) VkImageLayout.TRANSFER_DST_OPTIMAL
        (VK_IMAGE_ASPECT_DEPTH_BIT ||| VK_IMAGE_ASPECT_STENCIL_BIT) nb t1.fbs := by
  unfold dstDepthToTransfer at h
  by_cases hl : (t.fbs p).depth.layout = VkImageLayout.TRANSFER_DST_OPTIMAL
  · rw [if_neg (not_not.2 hl)] at h
    simp only [Option.some.injEq] at h
    subst h
    exact ⟨[], by simp, rfl, SingleTransition.of_eq _ _ _ _ hl⟩
  · rw [if_pos hl] at h
    cases hs : SetupTransitionToTransferDst (t.fbs p).depth (VK_IMAGE_ASPECT_DEPTH_BIT ||| VK_IMAGE_ASPECT_STENCIL_BIT) with
    | none =>
      rw [hs] at h
      exact absurd h (by simp)
    | some r =>
      obtain ⟨img, b⟩ := r
      rw [hs] at h
      simp only [Option.some.injEq] at h
      subst h
      obtain ⟨rfl, hbo, hbn, _, hbi, hba, _⟩ := SetupTransitionToTransferDst_eq_some _ _ _ _ hs
      exact ⟨[b], rfl, rfl, SingleTransition.of_update_depth _ _ _ _ b hl hbi hbo hbn hba⟩

/-- `dstDepthToTransfer` returns exactly when the depth image of the destination is tracked in
transfer-dst-optimal already or in one of the four layouts the helper's switch lists. -/
theorem dstDepthToTransfer_isSome (p : Nat) (t : TransferBarriers) :
    (dstDepthToTransfer p t).isSome = true ↔
      (t.fbs p).depth.layout ∈ [VkImageLayout.TRANSFER_DST_OPTIMAL,
        VkImageLayout.COLOR_ATTACHMENT_OPTIMAL, VkImageLayout.TRANSFER_SRC_OPTIMAL, VkImageLayout.DEPTH_STENCIL_ATTACHMENT_OPTIMAL, VkImageLayout.SHADER_READ_ONLY_OPTIMAL] := by
  unfold dstDepthToTransfer
  by_cases hl : (t.fbs p).depth.layout = VkImageLayout.TRANSFER_DST_OPTIMAL
  · rw [if_neg (not_not.2 hl)]
    simp [hl]
  · rw [if_pos hl]
    have h := SetupTransitionToTransferDst_isSome (t.fbs p).depth (VK_IMAGE_ASPECT_DEPTH_BIT ||| VK_IMAGE_ASPECT_STENCIL_BIT)
    cases hs : SetupTransitionToTransferDst (t.fbs p).depth (VK_IMAGE_ASPECT_DEPTH_BIT ||| VK_IMAGE_ASPECT_STENCIL_BIT) with
    | none =>
      rw [hs] at h
      simp only [Option.isSome_none, Bool.false_eq_true, false_iff] at h ⊢
      intro hm
      simp only [List.mem_cons] at hm h
      rcases hm with hm | hm
      · exact hl hm
      · exact h hm
    | some r =>
      rw [hs] at h
      simp only [Option.isSome_some, true_iff] at h ⊢
      exact List.mem_cons_of_mem _ h

/-- The colour part of the barrier collection of `PerformCopy` and `PerformBlit`,
when it returns: if the colour aspect is selected, the source colour image goes to
transfer-src-optimal and then the destination colour image to transfer-dst-optimal;
otherwise nothing changes. -/
theorem colorTransfers_eq_some (sel : Prop) [Decidable sel] (src dst : Nat)
    (t t2 : TransferBarriers)
    (h : (if sel then (srcColorToTransfer src t).bind (dstColorToTransfer dst) else some t) =
      some t2) :
    ∃ (sc dc : List VkImageMemoryBarrier) (f1 : Nat → VKRFramebuffer),
      t2.srcBarriers = t.srcBarriers ++ sc ∧ t2.dstBarriers = t.dstBarriers ++ dc ∧
      (sel →
        SingleTransition t.fbs (ImageSlot.color src) VkImageLayout.TRANSFER_SRC_OPTIMAL
          VK_IMAGE_ASPECT_COLOR_BIT sc f1 ∧
        SingleTransition f1 (ImageSlot.color dst) VkImageLayout.TRANSFER_DST_OPTIMAL
          VK_IMAGE_ASPECT_COLOR_BIT dc t2.fbs) ∧
      (¬ sel → sc = [] ∧ dc = [] ∧ f1 = t.fbs ∧ t2.fbs = t.fbs) := by
  by_cases hs : sel
  · rw [if_pos hs] at h
    cases h1 : srcColorToTransfer src t with
    | none =>
      rw [h1] at h
      exact absurd h (by simp)
    | some t1 =>
      rw [h1] at h
      simp only [Option.some_bind] at h
      obtain ⟨sc, a1, a2, a3⟩ := srcColorToTransfer_eq_some src t t1 h1
      obtain ⟨dc, b1, b2, b3⟩ := dstColorToTransfer_eq_some dst t1 t2 h
      exact ⟨sc, dc, t1.fbs, by rw [b2, a1], by rw [b1, a2], fun _ => ⟨a3, b3⟩,
        fun hn => absurd hs hn⟩
  · rw [if_neg hs] at h
    simp only [Option.some.injEq] at h
    subst h
    exact ⟨[], [], t.fbs, by simp, by simp, fun hp => absurd hp hs,
      fun _ => ⟨rfl, rfl, rfl, rfl⟩⟩

/-- The depth/stencil part of the barrier collection of `PerformCopy` and
`PerformBlit`, when it returns: if the depth or the stencil aspect is selected, the
source depth image goes to transfer-src-optimal and then the destination depth image
to transfer-dst-optimal; otherwise nothing changes. -/
theorem depthTransfers_eq_some (sel : Prop) [Decidable sel] (src dst : Nat)
    (t t2 : TransferBarriers)
    (h : (if sel then (srcDepthToTransfer src t).bind (dstDepthToTransfer dst) else some t) =
      some t2) :
    ∃ (sd dd : List VkImageMemoryBarrier) (f1 : Nat → VKRFramebuffer),
      t2.srcBarriers = t.srcBarriers ++ sd ∧ t2.dstBarriers = t.dstBarriers ++ dd ∧
      (sel →
        SingleTransition t.fbs (ImageSlot.depth src) VkImageLayout.TRANSFER_SRC_OPTIMAL
          (VK_IMAGE_ASPECT_DEPTH_BIT ||| VK_IMAGE_ASPECT_STENCIL_BIT) sd f1 ∧
        SingleTransition f1 (ImageSlot.depth dst) VkImageLayout.TRANSFER_DST_OPTIMAL
          (VK_IMAGE_ASPECT_DEPTH_BIT ||| VK_IMAGE_ASPECT_STENCIL_BIT) dd t2.fbs) ∧
      (¬ sel → sd = [] ∧ dd = [] ∧ f1 = t.fbs ∧ t2.fbs = t.fbs) := by
  by_cases hs : sel
  · rw [if_pos hs] at h
    cases h1 : srcDepthToTransfer src t with
    | none =>
      rw [h1] at h
      exact absurd h (by simp)
    | some t1 =>
      rw [h1] at h
      simp only [Option.some_bind] at h
      obtain ⟨sd, a1, a2, a3⟩ := srcDepthToTransfer_eq_some src t t1 h1
      obtain ⟨dd, b1, b2, b3⟩ := dstDepthToTransfer_eq_some dst t1 t2 h
      exact ⟨sd, dd, t1.fbs, by rw [b2, a1], by rw [b1, a2], fun _ => ⟨a3, b3⟩,
        fun hn => absurd hs hn⟩
  · rw [if_neg hs] at h
    simp only [Option.some.injEq] at h
    subst h
    exact ⟨[], [], t.fbs, by simp, by simp, fun hp => absurd hp hs,
      fun _ => ⟨rfl, rfl, rfl, rfl⟩⟩

/-- The barrier part of `PerformCopy` and `PerformBlit`, when it returns: four
conditional transitions, made in the order source colour, destination colour, source
depth, destination depth; the commands recorded are one barrier command with the
source barriers, if there is one, then one with the destination barriers, if there
is one. -/
theorem transferBarriers_eq_some (src dst aspectMask : Nat)
    (fbs fbs4 : Nat → VKRFramebuffer) (cmds : List VkCommand)
    (h : transferBarriers src dst aspectMask fbs = some (fbs4, cmds)) :
    ∃ (sc dc sd dd : List VkImageMemoryBarrier) (f1 f2 f3 : Nat → VKRFramebuffer),
      (aspectMask &&& VK_IMAGE_ASPECT_COLOR_BIT ≠ 0 →
        SingleTransition fbs (ImageSlot.color src) VkImageLayout.TRANSFER_SRC_OPTIMAL
          VK_IMAGE_ASPECT_COLOR_BIT sc f1 ∧
        SingleTransition f1 (ImageSlot.color dst) VkImageLayout.TRANSFER_DST_OPTIMAL
          VK_IMAGE_ASPECT_COLOR_BIT dc f2) ∧
      (¬ aspectMask &&& VK_IMAGE_ASPECT_COLOR_BIT ≠ 0 →
        sc = [] ∧ dc = [] ∧ f1 = fbs ∧ f2 = fbs) ∧
      (aspectMask &&& (VK_IMAGE_ASPECT_DEPTH_BIT ||| VK_IMAGE_ASPECT_STENCIL_BIT) ≠ 0 →
        SingleTransition f2 (ImageSlot.depth src) VkImageLayout.TRANSFER_SRC_OPTIMAL
          (VK_IMAGE_ASPECT_DEPTH_BIT ||| VK_IMAGE_ASPECT_STENCIL_BIT) sd f3 ∧
        SingleTransition f3 (ImageSlot.depth dst) VkImageLayout.TRANSFER_DST_OPTIMAL
          (VK_IMAGE_ASPECT_DEPTH_BIT ||| VK_IMAGE_ASPECT_STENCIL_BIT) dd fbs4) ∧
      (¬ aspectMask &&& (VK_IMAGE_ASPECT_DEPTH_BIT ||| VK_IMAGE_ASPECT_STENCIL_BIT) ≠ 0 →
        sd = [] ∧ dd = [] ∧ f3 = f2 ∧ fbs4 = f2) ∧
      cmds =
        (if (sc ++ sd).length ≠ 0 then
          [VkCommand.PipelineBarrier VK_PIPELINE_STAGE_TOP_OF_PIPE_BIT
            VK_PIPELINE_STAGE_BOTTOM_OF_PIPE_BIT (sc ++ sd)]
        else []) ++
        (if (dc ++ dd).length ≠ 0 then
          [VkCommand.PipelineBarrier VK_PIPELINE_STAGE_TOP_OF_PIPE_BIT
            VK_PIPELINE_STAGE_BOTTOM_OF_PIPE_BIT (dc ++ dd)]
        else []) := by
  unfold transferBarriers at h
  simp only at h
  cases h1 : (if aspectMask &&& VK_IMAGE_ASPECT_COLOR_BIT ≠ 0 then
      (srcColorToTransfer src { fbs := fbs, srcBarriers := [], dstBarriers := [] }).bind
        (dstColorToTransfer dst)
    else some { fbs := fbs, srcBarriers := [], dstBarriers := [] }) with
  | none =>
    rw [h1] at h
    exact absurd h (by simp)
  | some t1 =>
    rw [h1] at h
    simp only [Option.some_bind] at h
    cases h2 : (if aspectMask &&& (VK_IMAGE_ASPECT_DEPTH_BIT ||| VK_IMAGE_ASPECT_STENCIL_BIT) ≠ 0
      then (srcDepthToTransfer src t1).bind (dstDepthToTransfer dst) else some t1) with
    | none =>
      rw [h2] at h
      exact absurd h (by simp)
    | some t2 =>
      rw [h2] at h
      simp only [Option.map_some', Option.some.injEq, Prod.mk.injEq] at h
      obtain ⟨hf, hc⟩ := h
      obtain ⟨sc, dc, f1, a1, a2, a3, a4⟩ := colorTransfers_eq_some _ src dst _ t1 h1
      obtain ⟨sd, dd, f3, b1, b2, b3, b4⟩ := depthTransfers_eq_some _ src dst t1 t2 h2
      simp only [List.nil_append] at a1 a2
      rw [a1] at b1
      rw [a2] at b2
      refine ⟨sc, dc, sd, dd, f1, t1.fbs, f3, a3, a4, ?_, ?_, ?_⟩
      · intro hs
        rw [← hf]
        exact b3 hs
      · intro hs
        rw [← hf]
        exact b4 hs
      · rw [← hc, b1, b2]

/-- The heap the barrier part of `PerformCopy` and `PerformBlit` leaves, for distinct
source and destination: in each selected aspect group the source image is tracked in
transfer-src-optimal and the destination image in transfer-dst-optimal, and every
other image, and every other member of a framebuffer object, is as before. -/
theorem transferBarriers_heap (src dst aspectMask : Nat)
    (fbs fbs4 : Nat → VKRFramebuffer) (cmds : List VkCommand) (hne : src ≠ dst)
    (h : transferBarriers src dst aspectMask fbs = some (fbs4, cmds)) :
    imageAt fbs4 (ImageSlot.color src) =
      (if aspectMask &&& VK_IMAGE_ASPECT_COLOR_BIT ≠ 0
        then { imageAt fbs (ImageSlot.color src) with
          layout := VkImageLayout.TRANSFER_SRC_OPTIMAL }
        else imageAt fbs (ImageSlot.color src)) ∧
    imageAt fbs4 (ImageSlot.color dst) =
      (if aspectMask &&& VK_IMAGE_ASPECT_COLOR_BIT ≠ 0
        then { imageAt fbs (ImageSlot.color dst) with
          layout := VkImageLayout.TRANSFER_DST_OPTIMAL }
        else imageAt fbs (ImageSlot.color dst)) ∧
    imageAt fbs4 (ImageSlot.depth src) =
      (if aspectMask &&& (VK_IMAGE_ASPECT_DEPTH_BIT ||| VK_IMAGE_ASPECT_STENCIL_BIT) ≠ 0
        then { imageAt fbs (ImageSlot.depth src) with
          layout := VkImageLayout.TRANSFER_SRC_OPTIMAL }
        else imageAt fbs (ImageSlot.depth src)) ∧
    imageAt fbs4 (ImageSlot.depth dst) =
      (if aspectMask &&& (VK_IMAGE_ASPECT_DEPTH_BIT ||| VK_IMAGE_ASPECT_STENCIL_BIT) ≠ 0
        then { imageAt fbs (ImageSlot.depth dst) with
          layout := VkImageLayout.TRANSFER_DST_OPTIMAL }
        else imageAt fbs (ImageSlot.depth dst)) ∧
    (∀ s : ImageSlot, s ≠ ImageSlot.color src → s ≠ ImageSlot.color dst →
      s ≠ ImageSlot.depth src → s ≠ ImageSlot.depth dst → imageAt fbs4 s = imageAt fbs s) ∧
    ∀ p : Nat, (fbs4 p).framebuf = (fbs p).framebuf ∧ (fbs4 p).width = (fbs p).width ∧
      (fbs4 p).height = (fbs p).height := by
  obtain ⟨sc, dc, sd, dd, f1, f2, f3, hC, hnC, hD, hnD, _⟩ :=
    transferBarriers_eq_some src dst aspectMask fbs fbs4 cmds h
  have hsd : ImageSlot.color src ≠ ImageSlot.color dst := by simp [hne]
  have hds : ImageSlot.color dst ≠ ImageSlot.color src := by simp [Ne.symm hne]
  have hsd' : ImageSlot.depth src ≠ ImageSlot.depth dst := by simp [hne]
  have hds' : ImageSlot.depth dst ≠ ImageSlot.depth src := by simp [Ne.symm hne]
  by_cases hc : aspectMask &&& VK_IMAGE_ASPECT_COLOR_BIT ≠ 0 <;>
  by_cases hd : aspectMask &&& (VK_IMAGE_ASPECT_DEPTH_BIT ||| VK_IMAGE_ASPECT_STENCIL_BIT) ≠ 0
  · obtain ⟨⟨_, a1, o1, m1⟩, ⟨_, a2, o2, m2⟩⟩ := hC hc
    obtain ⟨⟨_, a3, o3, m3⟩, ⟨_, a4, o4, m4⟩⟩ := hD hd
    simp only [if_pos hc, if_pos hd]
    refine ⟨?_, ?_, ?_, ?_, ?_, ?_⟩
    · rw [o4 _ (by simp), o3 _ (by simp), o2 _ hsd, a1]
    · rw [o4 _ (by simp), o3 _ (by simp), a2, o1 _ hds]
    · rw [o4 _ hsd', a3, o2 _ (by simp), o1 _ (by simp)]
    · rw [a4, o3 _ hds', o2 _ (by simp), o1 _ (by simp)]
    · intro s h1 h2 h3 h4
      rw [o4 s h4, o3 s h3, o2 s h2, o1 s h1]
    · intro p
      rw [(m4 p).1, (m4 p).2.1, (m4 p).2.2, (m3 p).1, (m3 p).2.1, (m3 p).2.2,
        (m2 p).1, (m2 p).2.1, (m2 p).2.2]
      exact m1 p
  · obtain ⟨⟨_, a1, o1, m1⟩, ⟨_, a2, o2, m2⟩⟩ := hC hc
    obtain ⟨_, _, _, rfl⟩ := hnD hd
    simp only [if_pos hc, if_neg hd]
    refine ⟨?_, ?_, ?_, ?_, ?_, ?_⟩
    · rw [o2 _ hsd, a1]
    · rw [a2, o1 _ hds]
    · rw [o2 _ (by simp), o1 _ (by simp)]
    · rw [o2 _ (by simp), o1 _ (by simp)]
    · intro s h1 h2 _ _
      rw [o2 s h2, o1 s h1]
    · intro p
      rw [(m2 p).1, (m2 p).2.1, (m2 p).2.2]
      exact m1 p
  · obtain ⟨_, _, _, rfl⟩ := hnC hc
    obtain ⟨⟨_, a3, o3, m3⟩, ⟨_, a4, o4, m4⟩⟩ := hD hd
    simp only [if_neg hc, if_pos hd]
    refine ⟨?_, ?_, ?_, ?_, ?_, ?_⟩
    · rw [o4 _ (by simp), o3 _ (by simp)]
    · rw [o4 _ (by simp), o3 _ (by simp)]
    · rw [o4 _ hsd', a3]
    · rw [a4, o3 _ hds']
    · intro s _ _ h3 h4
      rw [o4 s h4, o3 s h3]
    · intro p
      rw [(m4 p).1, (m4 p).2.1, (m4 p).2.2]
      exact m3 p
  · obtain ⟨_, _, _, rfl⟩ := hnC hc
    obtain ⟨_, _, _, rfl⟩ := hnD hd
    rw [if_neg hc, if_neg hc, if_neg hd, if_neg hd]
    exact ⟨rfl, rfl, rfl, rfl, fun _ _ _ _ _ => rfl, fun _ => ⟨rfl, rfl, rfl⟩⟩

/-- The barrier part of `PerformCopy` and `PerformBlit` returns when source and
destination are distinct and, in each selected aspect group, the source image is
tracked in transfer-src-optimal or a layout `SetupTransitionToTransferSrc` lists, and
the destination image in transfer-dst-optimal or a layout
`SetupTransitionToTransferDst` lists. -/
theorem transferBarriers_returns (src dst aspectMask : Nat) (fbs : Nat → VKRFramebuffer)
    (hne : src ≠ dst)
    (hcs : aspectMask &&& VK_IMAGE_ASPECT_COLOR_BIT ≠ 0 →
      (fbs src).color.layout ∈ [VkImageLayout.TRANSFER_SRC_OPTIMAL,
        VkImageLayout.COLOR_ATTACHMENT_OPTIMAL, VkImageLayout.DEPTH_STENCIL_ATTACHMENT_OPTIMAL,
        VkImageLayout.TRANSFER_DST_OPTIMAL, VkImageLayout.SHADER_READ_ONLY_OPTIMAL])
    (hcd : aspectMask &&& VK_IMAGE_ASPECT_COLOR_BIT ≠ 0 →
      (fbs dst).color.layout ∈ [VkImageLayout.TRANSFER_DST_OPTIMAL,
        VkImageLayout.COLOR_ATTACHMENT_OPTIMAL, VkImageLayout.TRANSFER_SRC_OPTIMAL,
        VkImageLayout.DEPTH_STENCIL_ATTACHMENT_OPTIMAL, VkImageLayout.SHADER_READ_ONLY_OPTIMAL])
    (hds : aspectMask &&& (VK_IMAGE_ASPECT_DEPTH_BIT ||| VK_IMAGE_ASPECT_STENCIL_BIT) ≠ 0 →
      (fbs src).depth.layout ∈ [VkImageLayout.TRANSFER_SRC_OPTIMAL,
        VkImageLayout.COLOR_ATTACHMENT_OPTIMAL, VkImageLayout.DEPTH_STENCIL_ATTACHMENT_OPTIMAL,
        VkImageLayout.TRANSFER_DST_OPTIMAL, VkImageLayout.SHADER_READ_ONLY_OPTIMAL])
    (hdd : aspectMask &&& (VK_IMAGE_ASPECT_DEPTH_BIT ||| VK_IMAGE_ASPECT_STENCIL_BIT) ≠ 0 →
      (fbs dst).depth.layout ∈ [VkImageLayout.TRANSFER_DST_OPTIMAL,
        VkImageLayout.COLOR_ATTACHMENT_OPTIMAL, VkImageLayout.TRANSFER_SRC_OPTIMAL,
        VkImageLayout.DEPTH_STENCIL_ATTACHMENT_OPTIMAL,
        VkImageLayout.SHADER_READ_ONLY_OPTIMAL]) :
    ∃ fbs4 cmds, transferBarriers src dst aspectMask fbs = some (fbs4, cmds) := by
  have hsd : ImageSlot.color dst ≠ ImageSlot.color src := by simp [Ne.symm hne]
  have hsd' : ImageSlot.depth dst ≠ ImageSlot.depth src := by simp [Ne.symm hne]
  -- the colour part
  have h1 : ∃ t1 : TransferBarriers,
      (if aspectMask &&& VK_IMAGE_ASPECT_COLOR_BIT ≠ 0 then
        (srcColorToTransfer src { fbs := fbs, srcBarriers := [], dstBarriers := [] }).bind
          (dstColorToTransfer dst)
      else some { fbs := fbs, srcBarriers := [], dstBarriers := [] }) = some t1 ∧
      imageAt t1.fbs (ImageSlot.depth src) = imageAt fbs (ImageSlot.depth src) ∧
      imageAt t1.fbs (ImageSlot.depth dst) = imageAt fbs (ImageSlot.depth dst) := by
    by_cases hc : aspectMask &&& VK_IMAGE_ASPECT_COLOR_BIT ≠ 0
    · rw [if_pos hc]
      obtain ⟨ta, ha⟩ := Option.isSome_iff_exists.1
        ((srcColorToTransfer_isSome src
          { fbs := fbs, srcBarriers := [], dstBarriers := [] }).2 (hcs hc))
      obtain ⟨_, _, _, _, _, oa, _⟩ := srcColorToTransfer_eq_some _ _ _ ha
      have hl : (ta.fbs dst).color.layout = (fbs dst).color.layout := by
        have := oa (ImageSlot.color dst) hsd
        simp only [imageAt] at this
        rw [this]
      obtain ⟨tb, hb⟩ := Option.isSome_iff_exists.1
        ((dstColorToTransfer_isSome dst ta).2 (by rw [hl]; exact hcd hc))
      obtain ⟨_, _, _, _, _, ob, _⟩ := dstColorToTransfer_eq_some _ _ _ hb
      refine ⟨tb, by rw [ha]; exact hb, ?_, ?_⟩
      · rw [ob _ (by simp), oa _ (by simp)]
      · rw [ob _ (by simp), oa _ (by simp)]
    · rw [if_neg hc]
      exact ⟨_, rfl, rfl, rfl⟩
  obtain ⟨t1, h1, e1, e2⟩ := h1
  -- the depth/stencil part
  have h2 : ∃ t2 : TransferBarriers,
      (if aspectMask &&& (VK_IMAGE_ASPECT_DEPTH_BIT ||| VK_IMAGE_ASPECT_STENCIL_BIT) ≠ 0 then
        (srcDepthToTransfer src t1).bind (dstDepthToTransfer dst)
      else some t1) = some t2 := by
    by_cases hd : aspectMask &&& (VK_IMAGE_ASPECT_DEPTH_BIT ||| VK_IMAGE_ASPECT_STENCIL_BIT) ≠ 0
    · rw [if_pos hd]
      have hl1 : (t1.fbs src).depth.layout = (fbs src).depth.layout := by
        simp only [imageAt] at e1
        rw [e1]
      obtain ⟨ta, ha⟩ := Option.isSome_iff_exists.1
        ((srcDepthToTransfer_isSome src t1).2 (by rw [hl1]; exact hds hd))
      obtain ⟨_, _, _, _, _, oa, _⟩ := srcDepthToTransfer_eq_some _ _ _ ha
      have hl : (ta.fbs dst).depth.layout = (fbs dst).depth.layout := by
        have := oa (ImageSlot.depth dst) hsd'
        simp only [imageAt] at this e2
        rw [this, e2]
      obtain ⟨tb, hb⟩ := Option.isSome_iff_exists.1
        ((dstDepthToTransfer_isSome dst ta).2 (by rw [hl]; exact hdd hd))
      exact ⟨tb, by rw [ha]; exact hb⟩
    · rw [if_neg hd]
      exact ⟨_, rfl⟩
  obtain ⟨t2, h2⟩ := h2
  unfold transferBarriers
  simp only
  rw [h1]
  simp only [Option.some_bind]
  rw [h2]
  exact ⟨_, _, rfl⟩

/-- The barrier part of `PerformCopy` and `PerformBlit` records no copy and no blit. -/
theorem transferBarriers_no_transfer (src dst aspectMask : Nat)
    (fbs fbs4 : Nat → VKRFramebuffer) (cmds : List VkCommand)
    (h : transferBarriers src dst aspectMask fbs = some (fbs4, cmds)) :
    cmds.filterMap transferLayouts = [] := by
  obtain ⟨sc, dc, sd, dd, f1, f2, f3, _, _, _, _, hc⟩ :=
    transferBarriers_eq_some src dst aspectMask fbs fbs4 cmds h
  rw [hc]
  split_ifs <;> simp [transferLayouts]

/-! ### Copy and Blit steps -/

/-- Claim C11.  A Copy or Blit step with distinct source and destination framebuffers,
whose images of each selected aspect group are tracked in layouts the transition
helpers support, is executed, and afterwards: for the colour group, if the COLOR bit
is set, and for the combined depth/stencil group, if the DEPTH or the STENCIL bit is
set, the source image is tracked in transfer-src-optimal and the destination image
in transfer-dst-optimal; the copy or blit calls recorded are exactly one per selected
group, colour first, each issued with these two layouts; and the images of a group
that is not selected are unchanged. -/
theorem C11_copy_blit_layouts (step : VKRStep) (m : VulkanRenderManager)
    (src dst aspectMask : Nat)
    (hstep :
      (step.stepType = VKStepType.COPY ∧ step.copy.src = src ∧ step.copy.dst = dst ∧
        step.copy.aspectMask = aspectMask) ∨
      (step.stepType = VKStepType.BLIT ∧ step.blit.src = src ∧ step.blit.dst = dst ∧
        step.blit.aspectMask = aspectMask))
    (hne : src ≠ dst)
    (hcs : aspectMask &&& VK_IMAGE_ASPECT_COLOR_BIT ≠ 0 →
      (m.fbs src).color.layout ∈ [VkImageLayout.TRANSFER_SRC_OPTIMAL,
        VkImageLayout.COLOR_ATTACHMENT_OPTIMAL, VkImageLayout.DEPTH_STENCIL_ATTACHMENT_OPTIMAL,
        VkImageLayout.TRANSFER_DST_OPTIMAL, VkImageLayout.SHADER_READ_ONLY_OPTIMAL])
    (hcd : aspectMask &&& VK_IMAGE_ASPECT_COLOR_BIT ≠ 0 →
      (m.fbs dst).color.layout ∈ [VkImageLayout.TRANSFER_DST_OPTIMAL,
        VkImageLayout.COLOR_ATTACHMENT_OPTIMAL, VkImageLayout.TRANSFER_SRC_OPTIMAL,
        VkImageLayout.DEPTH_STENCIL_ATTACHMENT_OPTIMAL, VkImageLayout.SHADER_READ_ONLY_OPTIMAL])
    (hds : aspectMask &&& (VK_IMAGE_ASPECT_DEPTH_BIT ||| VK_IMAGE_ASPECT_STENCIL_BIT) ≠ 0 →
      (m.fbs src).depth.layout ∈ [VkImageLayout.TRANSFER_SRC_OPTIMAL,
        VkImageLayout.COLOR_ATTACHMENT_OPTIMAL, VkImageLayout.DEPTH_STENCIL_ATTACHMENT_OPTIMAL,
        VkImageLayout.TRANSFER_DST_OPTIMAL, VkImageLayout.SHADER_READ_ONLY_OPTIMAL])
    (hdd : aspectMask &&& (VK_IMAGE_ASPECT_DEPTH_BIT ||| VK_IMAGE_ASPECT_STENCIL_BIT) ≠ 0 →
      (m.fbs dst).depth.layout ∈ [VkImageLayout.TRANSFER_DST_OPTIMAL,
        VkImageLayout.COLOR_ATTACHMENT_OPTIMAL, VkImageLayout.TRANSFER_SRC_OPTIMAL,
        VkImageLayout.DEPTH_STENCIL_ATTACHMENT_OPTIMAL,
        VkImageLayout.SHADER_READ_ONLY_OPTIMAL]) :
    ∃ (m1 : VulkanRenderManager) (cmds : List VkCommand),
      performStep step m = some (m1, cmds) ∧
      (aspectMask &&& VK_IMAGE_ASPECT_COLOR_BIT ≠ 0 →
        (m1.fbs src).color.layout = VkImageLayout.TRANSFER_SRC_OPTIMAL ∧
        (m1.fbs dst).color.layout = VkImageLayout.TRANSFER_DST_OPTIMAL) ∧
      (aspectMask &&& (VK_IMAGE_ASPECT_DEPTH_BIT ||| VK_IMAGE_ASPECT_STENCIL_BIT) ≠ 0 →
        (m1.fbs src).depth.layout = VkImageLayout.TRANSFER_SRC_OPTIMAL ∧
        (m1.fbs dst).depth.layout = VkImageLayout.TRANSFER_DST_OPTIMAL) ∧
      cmds.filterMap transferLayouts =
        (if aspectMask &&& VK_IMAGE_ASPECT_COLOR_BIT ≠ 0 then
          [((m.fbs src).color.image, VkImageLayout.TRANSFER_SRC_OPTIMAL,
            (m.fbs dst).color.image, VkImageLayout.TRANSFER_DST_OPTIMAL,
            VK_IMAGE_ASPECT_COLOR_BIT)]
        else []) ++
        (if aspectMask &&& (VK_IMAGE_ASPECT_DEPTH_BIT ||| VK_IMAGE_ASPECT_STENCIL_BIT) ≠ 0 then
          [((m.fbs src).depth.image, VkImageLayout.TRANSFER_SRC_OPTIMAL,
            (m.fbs dst).depth.image, VkImageLayout.TRANSFER_DST_OPTIMAL,
            depthStencilAspect aspectMask)]
        else []) ∧
      (¬ aspectMask &&& VK_IMAGE_ASPECT_COLOR_BIT ≠ 0 →
        ∀ p : Nat, (m1.fbs p).color = (m.fbs p).color) ∧
      (¬ aspectMask &&& (VK_IMAGE_ASPECT_DEPTH_BIT ||| VK_IMAGE_ASPECT_STENCIL_BIT) ≠ 0 →
        ∀ p : Nat, (m1.fbs p).depth = (m.fbs p).depth) := by
  obtain ⟨fbs4, bc, hb⟩ :=
    transferBarriers_returns src dst aspectMask m.fbs hne hcs hcd hds hdd
  obtain ⟨h1, h2, h3, h4, ho, _⟩ := transferBarriers_heap src dst aspectMask m.fbs fbs4 bc hne hb
  have hnt := transferBarriers_no_transfer src dst aspectMask m.fbs fbs4 bc hb
  simp only [imageAt] at h1 h2 h3 h4
  have hcol : ¬ aspectMask &&& VK_IMAGE_ASPECT_COLOR_BIT ≠ 0 →
      ∀ p : Nat, (fbs4 p).color = (m.fbs p).color := by
    intro hc p
    rw [if_neg hc] at h1 h2
    by_cases hps : p = src
    · rw [hps]; exact h1
    · by_cases hpd : p = dst
      · rw [hpd]; exact h2
      · exact ho (ImageSlot.color p) (by simp [hps]) (by simp [hpd]) (by simp) (by simp)
  have hdep : ¬ aspectMask &&& (VK_IMAGE_ASPECT_DEPTH_BIT ||| VK_IMAGE_ASPECT_STENCIL_BIT) ≠ 0 →
      ∀ p : Nat, (fbs4 p).depth = (m.fbs p).depth := by
    intro hd p
    rw [if_neg hd] at h3 h4
    by_cases hps : p = src
    · rw [hps]; exact h3
    · by_cases hpd : p = dst
      · rw [hpd]; exact h4
      · exact ho (ImageSlot.depth p) (by simp) (by simp) (by simp [hps]) (by simp [hpd])
  have hcl : aspectMask &&& VK_IMAGE_ASPECT_COLOR_BIT ≠ 0 →
      (fbs4 src).color.layout = VkImageLayout.TRANSFER_SRC_OPTIMAL ∧
      (fbs4 dst).color.layout = VkImageLayout.TRANSFER_DST_OPTIMAL ∧
      (fbs4 src).color.image = (m.fbs src).color.image ∧
      (fbs4 dst).color.image = (m.fbs dst).color.image := by
    intro hc
    rw [if_pos hc] at h1 h2
    rw [h1, h2]
    exact ⟨rfl, rfl, rfl, rfl⟩
  have hdl : aspectMask &&& (VK_IMAGE_ASPECT_DEPTH_BIT ||| VK_IMAGE_ASPECT_STENCIL_BIT) ≠ 0 →
      (fbs4 src).depth.layout = VkImageLayout.TRANSFER_SRC_OPTIMAL ∧
      (fbs4 dst).depth.layout = VkImageLayout.TRANSFER_DST_OPTIMAL ∧
      (fbs4 src).depth.image = (m.fbs src).depth.image ∧
      (fbs4 dst).depth.image = (m.fbs dst).depth.image := by
    intro hd
    rw [if_pos hd] at h3 h4
    rw [h3, h4]
    exact ⟨rfl, rfl, rfl, rfl⟩
  rcases hstep with ⟨ht, hs, hd, hm⟩ | ⟨ht, hs, hd, hm⟩
  · have hp : ∃ tr : List VkCommand × List VkCommand,
        performStep step m = some ({ m with fbs := fbs4 }, bc ++ tr.1 ++ tr.2) ∧
        tr.1.filterMap transferLayouts =
          (if aspectMask &&& VK_IMAGE_ASPECT_COLOR_BIT ≠ 0 then
            [((fbs4 src).color.image, (fbs4 src).color.layout, (fbs4 dst).color.image,
              (fbs4 dst).color.layout, VK_IMAGE_ASPECT_COLOR_BIT)]
          else []) ∧
        tr.2.filterMap transferLayouts =
          (if aspectMask &&& (VK_IMAGE_ASPECT_DEPTH_BIT ||| VK_IMAGE_ASPECT_STENCIL_BIT) ≠ 0 then
            [((fbs4 src).depth.image, (fbs4 src).depth.layout, (fbs4 dst).depth.image,
              (fbs4 dst).depth.layout, depthStencilAspect aspectMask)]
          else []) := by
      unfold performStep PerformCopy
      rw [ht]
      simp only [hs, hd, hm, hb]
      by_cases hc : aspectMask &&& VK_IMAGE_ASPECT_COLOR_BIT ≠ 0 <;>
      by_cases hd : aspectMask &&& (VK_IMAGE_ASPECT_DEPTH_BIT ||| VK_IMAGE_ASPECT_STENCIL_BIT) ≠ 0
      · simp only [if_pos hc, if_pos hd]
        exact ⟨(_, _), rfl, rfl, rfl⟩
      · simp only [if_pos hc, if_neg hd]
        exact ⟨(_, _), rfl, rfl, rfl⟩
      · simp only [if_neg hc, if_pos hd]
        exact ⟨(_, _), rfl, rfl, rfl⟩
      · simp only [if_neg hc, if_neg hd]
        exact ⟨(_, _), rfl, rfl, rfl⟩
    obtain ⟨tr, hp, hf1, hf2⟩ := hp
    refine ⟨{ m with fbs := fbs4 }, _, hp, fun hc => ⟨(hcl hc).1, (hcl hc).2.1⟩,
      fun hd => ⟨(hdl hd).1, (hdl hd).2.1⟩, ?_, hcol, hdep⟩
    · rw [List.filterMap_append, List.filterMap_append, hnt, List.nil_append, hf1, hf2]
      by_cases hc : aspectMask &&& VK_IMAGE_ASPECT_COLOR_BIT ≠ 0 <;>
      by_cases hd : aspectMask &&& (VK_IMAGE_ASPECT_DEPTH_BIT ||| VK_IMAGE_ASPECT_STENCIL_BIT) ≠ 0
      · obtain ⟨a1, a2, a3, a4⟩ := hcl hc
        obtain ⟨b1, b2, b3, b4⟩ := hdl hd
        simp only [if_pos hc, if_pos hd,
          a1, a2, a3, a4, b1, b2, b3, b4]
      · obtain ⟨a1, a2, a3, a4⟩ := hcl hc
        simp only [if_pos hc, if_neg hd,
          a1, a2, a3, a4]
      · obtain ⟨b1, b2, b3, b4⟩ := hdl hd
        simp only [if_neg hc, if_pos hd,
          b1, b2, b3, b4]
      · simp only [if_neg hc, if_neg hd]
  · have hp : ∃ tr : List VkCommand × List VkCommand,
        performStep step m = some ({ m with fbs := fbs4 }, bc ++ tr.1 ++ tr.2) ∧
        tr.1.filterMap transferLayouts =
          (if aspectMask &&& VK_IMAGE_ASPECT_COLOR_BIT ≠ 0 then
            [((fbs4 src).color.image, (fbs4 src).color.layout, (fbs4 dst).color.image,
              (fbs4 dst).color.layout, VK_IMAGE_ASPECT_COLOR_BIT)]
          else []) ∧
        tr.2.filterMap transferLayouts =
          (if aspectMask &&& (VK_IMAGE_ASPECT_DEPTH_BIT ||| VK_IMAGE_ASPECT_STENCIL_BIT) ≠ 0 then
            [((fbs4 src).depth.image, (fbs4 src).depth.layout, (fbs4 dst).depth.image,
              (fbs4 dst).depth.layout, depthStencilAspect aspectMask)]
          else []) := by
      unfold performStep PerformBlit
      rw [ht]
      simp only [hs, hd, hm, hb]
      by_cases hc : aspectMask &&& VK_IMAGE_ASPECT_COLOR_BIT ≠ 0 <;>
      by_cases hd : aspectMask &&& (VK_IMAGE_ASPECT_DEPTH_BIT ||| VK_IMAGE_ASPECT_STENCIL_BIT) ≠ 0
      · simp only [if_pos hc, if_pos hd]
        exact ⟨(_, _), rfl, rfl, rfl⟩
      · simp only [if_pos hc, if_neg hd]
        exact ⟨(_, _), rfl, rfl, rfl⟩
      · simp only [if_neg hc, if_pos hd]
        exact ⟨(_, _), rfl, rfl, rfl⟩
      · simp only [if_neg hc, if_neg hd]
        exact ⟨(_, _), rfl, rfl, rfl⟩
    obtain ⟨tr, hp, hf1, hf2⟩ := hp
    refine ⟨{ m with fbs := fbs4 }, _, hp, fun hc => ⟨(hcl hc).1, (hcl hc).2.1⟩,
      fun hd => ⟨(hdl hd).1, (hdl hd).2.1⟩, ?_, hcol, hdep⟩
    · rw [List.filterMap_append, List.filterMap_append, hnt, List.nil_append, hf1, hf2]
      by_cases hc : aspectMask &&& VK_IMAGE_ASPECT_COLOR_BIT ≠ 0 <;>
      by_cases hd : aspectMask &&& (VK_IMAGE_ASPECT_DEPTH_BIT ||| VK_IMAGE_ASPECT_STENCIL_BIT) ≠ 0
      · obtain ⟨a1, a2, a3, a4⟩ := hcl hc
        obtain ⟨b1, b2, b3, b4⟩ := hdl hd
        simp only [if_pos hc, if_pos hd,
          a1, a2, a3, a4, b1, b2, b3, b4]
      · obtain ⟨a1, a2, a3, a4⟩ := hcl hc
        simp only [if_pos hc, if_neg hd,
          a1, a2, a3, a4]
      · obtain ⟨b1, b2, b3, b4⟩ := hdl hd
        simp only [if_neg hc, if_pos hd,
          b1, b2, b3, b4]
      · simp only [if_neg hc, if_neg hd]

/-- Claim C11, an instance: the copy of colour and depth from framebuffer 1 to
framebuffer 2, both in attachment layouts. -/
theorem C11_copy_blit_layouts_witness :
    (1 : Nat) ≠ 2 ∧
    ∃ (m1 : VulkanRenderManager) (cmds : List VkCommand),
      performStep exampleCopyBoth exampleManager = some (m1, cmds) ∧
      ((VK_IMAGE_ASPECT_COLOR_BIT ||| VK_IMAGE_ASPECT_DEPTH_BIT) &&& VK_IMAGE_ASPECT_COLOR_BIT ≠ 0 →
        (m1.fbs 1).color.layout = VkImageLayout.TRANSFER_SRC_OPTIMAL ∧
        (m1.fbs 2).color.layout = VkImageLayout.TRANSFER_DST_OPTIMAL) ∧
      ((VK_IMAGE_ASPECT_COLOR_BIT ||| VK_IMAGE_ASPECT_DEPTH_BIT) &&&
          (VK_IMAGE_ASPECT_DEPTH_BIT ||| VK_IMAGE_ASPECT_STENCIL_BIT) ≠ 0 →
        (m1.fbs 1).depth.layout = VkImageLayout.TRANSFER_SRC_OPTIMAL ∧
        (m1.fbs 2).depth.layout = VkImageLayout.TRANSFER_DST_OPTIMAL) ∧
      cmds.filterMap transferLayouts =
        (if (VK_IMAGE_ASPECT_COLOR_BIT ||| VK_IMAGE_ASPECT_DEPTH_BIT) &&&
            VK_IMAGE_ASPECT_COLOR_BIT ≠ 0 then
          [((exampleManager.fbs 1).color.image, VkImageLayout.TRANSFER_SRC_OPTIMAL,
            (exampleManager.fbs 2).color.image, VkImageLayout.TRANSFER_DST_OPTIMAL,
            VK_IMAGE_ASPECT_COLOR_BIT)]
        else []) ++
        (if (VK_IMAGE_ASPECT_COLOR_BIT ||| VK_IMAGE_ASPECT_DEPTH_BIT) &&&
            (VK_IMAGE_ASPECT_DEPTH_BIT ||| VK_IMAGE_ASPECT_STENCIL_BIT) ≠ 0 then
          [((exampleManager.fbs 1).depth.image, VkImageLayout.TRANSFER_SRC_OPTIMAL,
            (exampleManager.fbs 2).depth.image, VkImageLayout.TRANSFER_DST_OPTIMAL,
            depthStencilAspect (VK_IMAGE_ASPECT_COLOR_BIT ||| VK_IMAGE_ASPECT_DEPTH_BIT))]
        else []) ∧
      (¬ (VK_IMAGE_ASPECT_COLOR_BIT ||| VK_IMAGE_ASPECT_DEPTH_BIT) &&&
          VK_IMAGE_ASPECT_COLOR_BIT ≠ 0 →
        ∀ p : Nat, (m1.fbs p).color = (exampleManager.fbs p).color) ∧
      (¬ (VK_IMAGE_ASPECT_COLOR_BIT ||| VK_IMAGE_ASPECT_DEPTH_BIT) &&&
          (VK_IMAGE_ASPECT_DEPTH_BIT ||| VK_IMAGE_ASPECT_STENCIL_BIT) ≠ 0 →
        ∀ p : Nat, (m1.fbs p).depth = (exampleManager.fbs p).depth) :=
  ⟨by decide,
    C11_copy_blit_layouts exampleCopyBoth exampleManager 1 2
      (VK_IMAGE_ASPECT_COLOR_BIT ||| VK_IMAGE_ASPECT_DEPTH_BIT)
      (Or.inl ⟨rfl, rfl, rfl, rfl⟩) (by decide) (fun _ => by decide) (fun _ => by decide)
      (fun _ => by decide) (fun _ => by decide)⟩

/-- What a conditional transition records, read as the barriers the transition needs. -/
theorem SingleTransition.needed {fbs fbs1 : Nat → VKRFramebuffer} {a : ImageSlot}
    {target : VkImageLayout} {aspect : Nat} {barriers : List VkImageMemoryBarrier}
    (h : SingleTransition fbs a target aspect barriers fbs1) (selected : Prop)
    (hs : selected) :
    NeededBarriers selected (imageAt fbs a) target aspect barriers ∧ barriers.length ≤ 1 ∧
      ∀ b ∈ barriers, b.newLayout = target := by
  obtain ⟨h1, _⟩ := h
  rcases h1 with ⟨he, hb⟩ | ⟨hn, b, hb, hi, ho, hnl, ha⟩
  · subst hb
    exact ⟨Or.inr ⟨fun hc => hc.2 he, rfl⟩, by simp, by simp⟩
  · subst hb
    exact ⟨Or.inl ⟨hs, hn, b, rfl, hi, ho, hnl, ha⟩, by simp, by simp [hnl]⟩

/-- An aspect group that is not selected needs no barrier. -/
theorem NeededBarriers.of_not_selected (selected : Prop) (img : VKImage)
    (target : VkImageLayout) (aspect : Nat) (hs : ¬ selected) :
    NeededBarriers selected img target aspect [] :=
  Or.inr ⟨fun hc => hs hc.1, rfl⟩

/-- The two barrier commands of `PerformCopy` and `PerformBlit`: the source barriers,
colour then depth/stencil, and the destination barriers, colour then depth/stencil;
which barriers they are, read from the heap the step starts in. -/
theorem transferBarriers_needed (src dst aspectMask : Nat)
    (fbs fbs4 : Nat → VKRFramebuffer) (cmds : List VkCommand)
    (h : transferBarriers src dst aspectMask fbs = some (fbs4, cmds)) :
    ∃ (sc sd dc dd : List VkImageMemoryBarrier),
      cmds =
        (if (sc ++ sd).length ≠ 0 then
          [VkCommand.PipelineBarrier VK_PIPELINE_STAGE_TOP_OF_PIPE_BIT
            VK_PIPELINE_STAGE_BOTTOM_OF_PIPE_BIT (sc ++ sd)]
        else []) ++
        (if (dc ++ dd).length ≠ 0 then
          [VkCommand.PipelineBarrier VK_PIPELINE_STAGE_TOP_OF_PIPE_BIT
            VK_PIPELINE_STAGE_BOTTOM_OF_PIPE_BIT (dc ++ dd)]
        else []) ∧
      (sc ++ sd).length ≤ 2 ∧ (dc ++ dd).length ≤ 2 ∧
      (∀ b ∈ sc ++ sd, b.newLayout = VkImageLayout.TRANSFER_SRC_OPTIMAL) ∧
      (∀ b ∈ dc ++ dd, b.newLayout = VkImageLayout.TRANSFER_DST_OPTIMAL) ∧
      NeededBarriers (aspectMask &&& VK_IMAGE_ASPECT_COLOR_BIT ≠ 0) (fbs src).color
        VkImageLayout.TRANSFER_SRC_OPTIMAL VK_IMAGE_ASPECT_COLOR_BIT sc ∧
      NeededBarriers
        (aspectMask &&& (VK_IMAGE_ASPECT_DEPTH_BIT ||| VK_IMAGE_ASPECT_STENCIL_BIT) ≠ 0)
        (fbs src).depth VkImageLayout.TRANSFER_SRC_OPTIMAL
        (VK_IMAGE_ASPECT_DEPTH_BIT ||| VK_IMAGE_ASPECT_STENCIL_BIT) sd ∧
      (src ≠ dst →
        NeededBarriers (aspectMask &&& VK_IMAGE_ASPECT_COLOR_BIT ≠ 0) (fbs dst).color
          VkImageLayout.TRANSFER_DST_OPTIMAL VK_IMAGE_ASPECT_COLOR_BIT dc ∧
        NeededBarriers
          (aspectMask &&& (VK_IMAGE_ASPECT_DEPTH_BIT ||| VK_IMAGE_ASPECT_STENCIL_BIT) ≠ 0)
          (fbs dst).depth VkImageLayout.TRANSFER_DST_OPTIMAL
          (VK_IMAGE_ASPECT_DEPTH_BIT ||| VK_IMAGE_ASPECT_STENCIL_BIT) dd) := by
  obtain ⟨sc, dc, sd, dd, f1, f2, f3, hc1, hc0, hd1, hd0, hcmds⟩ :=
    transferBarriers_eq_some src dst aspectMask fbs fbs4 cmds h
  -- the colour group
  have hcol :
      sc.length ≤ 1 ∧ dc.length ≤ 1 ∧
      (∀ b ∈ sc, b.newLayout = VkImageLayout.TRANSFER_SRC_OPTIMAL) ∧
      (∀ b ∈ dc, b.newLayout = VkImageLayout.TRANSFER_DST_OPTIMAL) ∧
      NeededBarriers (aspectMask &&& VK_IMAGE_ASPECT_COLOR_BIT ≠ 0) (fbs src).color
        VkImageLayout.TRANSFER_SRC_OPTIMAL VK_IMAGE_ASPECT_COLOR_BIT sc ∧
      (src ≠ dst →
        NeededBarriers (aspectMask &&& VK_IMAGE_ASPECT_COLOR_BIT ≠ 0) (fbs dst).color
          VkImageLayout.TRANSFER_DST_OPTIMAL VK_IMAGE_ASPECT_COLOR_BIT dc) ∧
      (∀ p : Nat, (f2 p).depth = (fbs p).depth) := by
    by_cases hc : aspectMask &&& VK_IMAGE_ASPECT_COLOR_BIT ≠ 0
    · obtain ⟨s1, s2⟩ := hc1 hc
      obtain ⟨n1, l1, t1⟩ := s1.needed _ hc
      obtain ⟨n2, l2, t2⟩ := s2.needed _ hc
      refine ⟨l1, l2, t1, t2, n1, ?_, ?_⟩
      · intro hne
        have e := s1.2.2.1 (ImageSlot.color dst) (by simp [Ne.symm hne])
        rw [e] at n2
        exact n2
      · intro p
        have e1 := s1.2.2.1 (ImageSlot.depth p) (by simp)
        have e2 := s2.2.2.1 (ImageSlot.depth p) (by simp)
        simp only [imageAt] at e1 e2
        rw [e2, e1]
    · obtain ⟨e1, e2, _, e4⟩ := hc0 hc
      subst e1 e2 e4
      exact ⟨by simp, by simp, by simp, by simp,
        NeededBarriers.of_not_selected _ _ _ _ hc,
        fun _ => NeededBarriers.of_not_selected _ _ _ _ hc, fun _ => rfl⟩
  obtain ⟨lsc, ldc, tsc, tdc, nsc, ndc, hdepth⟩ := hcol
  -- the depth/stencil group
  have hdep :
      sd.length ≤ 1 ∧ dd.length ≤ 1 ∧
      (∀ b ∈ sd, b.newLayout = VkImageLayout.TRANSFER_SRC_OPTIMAL) ∧
      (∀ b ∈ dd, b.newLayout = VkImageLayout.TRANSFER_DST_OPTIMAL) ∧
      NeededBarriers
        (aspectMask &&& (VK_IMAGE_ASPECT_DEPTH_BIT ||| VK_IMAGE_ASPECT_STENCIL_BIT) ≠ 0)
        (fbs src).depth VkImageLayout.TRANSFER_SRC_OPTIMAL
        (VK_IMAGE_ASPECT_DEPTH_BIT ||| VK_IMAGE_ASPECT_STENCIL_BIT) sd ∧
      (src ≠ dst →
        NeededBarriers
          (aspectMask &&& (VK_IMAGE_ASPECT_DEPTH_BIT ||| VK_IMAGE_ASPECT_STENCIL_BIT) ≠ 0)
          (fbs dst).depth VkImageLayout.TRANSFER_DST_OPTIMAL
          (VK_IMAGE_ASPECT_DEPTH_BIT ||| VK_IMAGE_ASPECT_STENCIL_BIT) dd) := by
    by_cases hd : aspectMask &&& (VK_IMAGE_ASPECT_DEPTH_BIT ||| VK_IMAGE_ASPECT_STENCIL_BIT) ≠ 0
    · obtain ⟨s1, s2⟩ := hd1 hd
      obtain ⟨n1, l1, t1⟩ := s1.needed _ hd
      obtain ⟨n2, l2, t2⟩ := s2.needed _ hd
      refine ⟨l1, l2, t1, t2, ?_, ?_⟩
      · simp only [imageAt] at n1
        rw [hdepth src] at n1
        exact n1
      · intro hne
        have e := s1.2.2.1 (ImageSlot.depth dst) (by simp [Ne.symm hne])
        rw [e] at n2
        simp only [imageAt] at n2
        rw [hdepth dst] at n2
        exact n2
    · obtain ⟨e1, e2, _, _⟩ := hd0 hd
      subst e1 e2
      exact ⟨by simp, by simp, by simp, by simp,
        NeededBarriers.of_not_selected _ _ _ _ hd,
        fun _ => NeededBarriers.of_not_selected _ _ _ _ hd⟩
  obtain ⟨lsd, ldd, tsd, tdd, nsd, ndd⟩ := hdep
  refine ⟨sc, sd, dc, dd, hcmds, ?_, ?_, ?_, ?_, nsc, nsd, fun hne => ⟨ndc hne, ndd hne⟩⟩
  · rw [List.length_append]; omega
  · rw [List.length_append]; omega
  · intro b hb
    rcases List.mem_append.1 hb with hb | hb
    · exact tsc b hb
    · exact tsd b hb
  · intro b hb
    rcases List.mem_append.1 hb with hb | hb
    · exact tdc b hb
    · exact tdd b hb

/-- A list built as `a ++ x ++ y` is `a` followed by a tail. -/
theorem append_tail {α : Type} {a x y l : List α} (h : a ++ x ++ y = l) :
    ∃ tr, l = a ++ tr ∧ tr = x ++ y :=
  ⟨x ++ y, by rw [← h, List.append_assoc], rfl⟩

/-- What `PerformCopy` returns: the heap the barrier part leaves, and the commands of
the barrier part followed by copy commands. -/
theorem PerformCopy_eq_some (step : VKRStep) (m m1 : VulkanRenderManager)
    (cmds : List VkCommand) (h : PerformCopy step m = some (m1, cmds)) :
    ∃ (fbs4 : Nat → VKRFramebuffer) (bc tr : List VkCommand),
      transferBarriers step.copy.src step.copy.dst step.copy.aspectMask m.fbs =
        some (fbs4, bc) ∧
      m1 = { m with fbs := fbs4 } ∧ cmds = bc ++ tr ∧
      ∀ c ∈ tr, isPipelineBarrier c = false ∧ barriersOf c = [] := by
  unfold PerformCopy at h
  simp only at h
  cases hb : transferBarriers step.copy.src step.copy.dst step.copy.aspectMask m.fbs with
  | none => rw [hb] at h; simp at h
  | some r =>
    obtain ⟨fbs4, bc⟩ := r
    rw [hb] at h
    simp only [Option.some.injEq, Prod.mk.injEq] at h
    obtain ⟨h1, h2⟩ := h
    obtain ⟨tr, e1, e2⟩ := append_tail h2
    refine ⟨fbs4, bc, tr, rfl, h1.symm, e1, ?_⟩
    · intro c hc
      rw [e2] at hc
      rcases List.mem_append.1 hc with hc | hc
      · split_ifs at hc
        · rw [List.mem_singleton] at hc
          subst hc
          exact ⟨rfl, rfl⟩
        · simp at hc
      · split_ifs at hc
        · rw [List.mem_singleton] at hc
          subst hc
          exact ⟨rfl, rfl⟩
        · simp at hc

/-- What `PerformBlit` returns: the heap the barrier part leaves, and the commands of
the barrier part followed by blit commands. -/
theorem PerformBlit_eq_some (step : VKRStep) (m m1 : VulkanRenderManager)
    (cmds : List VkCommand) (h : PerformBlit step m = some (m1, cmds)) :
    ∃ (fbs4 : Nat → VKRFramebuffer) (bc tr : List VkCommand),
      transferBarriers step.blit.src step.blit.dst step.blit.aspectMask m.fbs =
        some (fbs4, bc) ∧
      m1 = { m with fbs := fbs4 } ∧ cmds = bc ++ tr ∧
      ∀ c ∈ tr, isPipelineBarrier c = false ∧ barriersOf c = [] := by
  unfold PerformBlit at h
  simp only at h
  cases hb : transferBarriers step.blit.src step.blit.dst step.blit.aspectMask m.fbs with
  | none => rw [hb] at h; simp at h
  | some r =>
    obtain ⟨fbs4, bc⟩ := r
    rw [hb] at h
    simp only [Option.some.injEq, Prod.mk.injEq] at h
    obtain ⟨h1, h2⟩ := h
    obtain ⟨tr, e1, e2⟩ := append_tail h2
    refine ⟨fbs4, bc, tr, rfl, h1.symm, e1, ?_⟩
    · intro c hc
      rw [e2] at hc
      rcases List.mem_append.1 hc with hc | hc
      · split_ifs at hc
        · rw [List.mem_singleton] at hc
          subst hc
          exact ⟨rfl, rfl⟩
        · simp at hc
      · split_ifs at hc
        · rw [List.mem_singleton] at hc
          subst hc
          exact ⟨rfl, rfl⟩
        · simp at hc

/-- A Copy or Blit step that is executed is executed by `transferBarriers` followed
by commands that are no barriers. -/
theorem performStep_transfer_eq_some (step : VKRStep) (m m1 : VulkanRenderManager)
    (cmds : List VkCommand) (src dst aspectMask : Nat)
    (hstep :
      (step.stepType = VKStepType.COPY ∧ step.copy.src = src ∧ step.copy.dst = dst ∧
        step.copy.aspectMask = aspectMask) ∨
      (step.stepType = VKStepType.BLIT ∧ step.blit.src = src ∧ step.blit.dst = dst ∧
        step.blit.aspectMask = aspectMask))
    (h : performStep step m = some (m1, cmds)) :
    ∃ (fbs4 : Nat → VKRFramebuffer) (bc tr : List VkCommand),
      transferBarriers src dst aspectMask m.fbs = some (fbs4, bc) ∧
      m1 = { m with fbs := fbs4 } ∧ cmds = bc ++ tr ∧
      ∀ c ∈ tr, isPipelineBarrier c = false ∧ barriersOf c = [] := by
  rcases hstep with ⟨ht, hs, hd, hm⟩ | ⟨ht, hs, hd, hm⟩
  · unfold performStep at h
    rw [ht] at h
    have := PerformCopy_eq_some step m m1 cmds h
    rw [hs, hd, hm] at this
    exact this
  · unfold performStep at h
    rw [ht] at h
    have := PerformBlit_eq_some step m m1 cmds h
    rw [hs, hd, hm] at this
    exact this

/-- Claim C12, refuted as stated: the copy of the colour aspect from framebuffer 1 to
framebuffer 2, both colour images in colour-attachment layout, records two
pipeline-barrier commands, the first with the source barrier and the second with
the destination barrier. -/
theorem C12_counterexample :
    (performStep (exampleCopyStep 1 2 VK_IMAGE_ASPECT_COLOR_BIT) exampleManager).map
        (fun r => r.2.filter isPipelineBarrier) =
      some
        [VkCommand.PipelineBarrier VK_PIPELINE_STAGE_TOP_OF_PIPE_BIT
          VK_PIPELINE_STAGE_BOTTOM_OF_PIPE_BIT
          [{ oldLayout := VkImageLayout.COLOR_ATTACHMENT_OPTIMAL
             newLayout := VkImageLayout.TRANSFER_SRC_OPTIMAL
             image := (exampleManager.fbs 1).color.image
             srcAccessMask := VK_ACCESS_COLOR_ATTACHMENT_WRITE_BIT
             dstAccessMask := VK_ACCESS_TRANSFER_READ_BIT
             aspectMask := VK_IMAGE_ASPECT_COLOR_BIT
             layerCount := 1
             levelCount := 1 }],
         VkCommand.PipelineBarrier VK_PIPELINE_STAGE_TOP_OF_PIPE_BIT
          VK_PIPELINE_STAGE_BOTTOM_OF_PIPE_BIT
          [{ oldLayout := VkImageLayout.COLOR_ATTACHMENT_OPTIMAL
             newLayout := VkImageLayout.TRANSFER_DST_OPTIMAL
             image := (exampleManager.fbs 2).color.image
             srcAccessMask := VK_ACCESS_COLOR_ATTACHMENT_WRITE_BIT
             dstAccessMask := VK_ACCESS_TRANSFER_WRITE_BIT
             aspectMask := VK_IMAGE_ASPECT_COLOR_BIT
             layerCount := 1
             levelCount := 1 }]] := by
  decide

/-- Claim C12, amended.  A Copy or Blit step that is executed records at most two
pipeline-barrier commands, both before its copy or blit commands: first one with
all the source barriers of the step, colour then depth/stencil, if there is any,
then one with all its destination barriers, colour then depth/stencil, if there is
any.  Each holds at most two barriers; a source barrier leads to
transfer-src-optimal and a destination barrier to transfer-dst-optimal; the source
barriers are those the selected aspect groups need from the tracked layouts, and so
are the destination barriers when source and destination are distinct. -/
theorem C12_two_barrier_commands (step : VKRStep) (m m1 : VulkanRenderManager)
    (cmds : List VkCommand) (src dst aspectMask : Nat)
    (hstep :
      (step.stepType = VKStepType.COPY ∧ step.copy.src = src ∧ step.copy.dst = dst ∧
        step.copy.aspectMask = aspectMask) ∨
      (step.stepType = VKStepType.BLIT ∧ step.blit.src = src ∧ step.blit.dst = dst ∧
        step.blit.aspectMask = aspectMask))
    (h : performStep step m = some (m1, cmds)) :
    ∃ (sc sd dc dd : List VkImageMemoryBarrier) (tr : List VkCommand),
      cmds =
        (if (sc ++ sd).length ≠ 0 then
          [VkCommand.PipelineBarrier VK_PIPELINE_STAGE_TOP_OF_PIPE_BIT
            VK_PIPELINE_STAGE_BOTTOM_OF_PIPE_BIT (sc ++ sd)]
        else []) ++
        (if (dc ++ dd).length ≠ 0 then
          [VkCommand.PipelineBarrier VK_PIPELINE_STAGE_TOP_OF_PIPE_BIT
            VK_PIPELINE_STAGE_BOTTOM_OF_PIPE_BIT (dc ++ dd)]
        else []) ++ tr ∧
      (∀ c ∈ tr, isPipelineBarrier c = false) ∧
      (cmds.filter isPipelineBarrier).length ≤ 2 ∧
      (sc ++ sd).length ≤ 2 ∧ (dc ++ dd).length ≤ 2 ∧
      (∀ b ∈ sc ++ sd, b.newLayout = VkImageLayout.TRANSFER_SRC_OPTIMAL) ∧
      (∀ b ∈ dc ++ dd, b.newLayout = VkImageLayout.TRANSFER_DST_OPTIMAL) ∧
      NeededBarriers (aspectMask &&& VK_IMAGE_ASPECT_COLOR_BIT ≠ 0) (m.fbs src).color
        VkImageLayout.TRANSFER_SRC_OPTIMAL VK_IMAGE_ASPECT_COLOR_BIT sc ∧
      NeededBarriers
        (aspectMask &&& (VK_IMAGE_ASPECT_DEPTH_BIT ||| VK_IMAGE_ASPECT_STENCIL_BIT) ≠ 0)
        (m.fbs src).depth VkImageLayout.TRANSFER_SRC_OPTIMAL
        (VK_IMAGE_ASPECT_DEPTH_BIT ||| VK_IMAGE_ASPECT_STENCIL_BIT) sd ∧
      (src ≠ dst →
        NeededBarriers (aspectMask &&& VK_IMAGE_ASPECT_COLOR_BIT ≠ 0) (m.fbs dst).color
          VkImageLayout.TRANSFER_DST_OPTIMAL VK_IMAGE_ASPECT_COLOR_BIT dc ∧
        NeededBarriers
          (aspectMask &&& (VK_IMAGE_ASPECT_DEPTH_BIT ||| VK_IMAGE_ASPECT_STENCIL_BIT) ≠ 0)
          (m.fbs dst).depth VkImageLayout.TRANSFER_DST_OPTIMAL
          (VK_IMAGE_ASPECT_DEPTH_BIT ||| VK_IMAGE_ASPECT_STENCIL_BIT) dd) := by
  obtain ⟨fbs4, bc, tr, hb, _, hcmds, htr⟩ :=
    performStep_transfer_eq_some step m m1 cmds src dst aspectMask hstep h
  obtain ⟨sc, sd, dc, dd, hbc, l1, l2, t1, t2, n1, n2, n3⟩ :=
    transferBarriers_needed src dst aspectMask m.fbs fbs4 bc hb
  have hfilter : tr.filter isPipelineBarrier = [] := by
    rw [List.filter_eq_nil_iff]
    intro c hc
    rw [(htr c hc).1]
    simp
  refine ⟨sc, sd, dc, dd, tr, by rw [hcmds, hbc], fun c hc => (htr c hc).1, ?_,
    l1, l2, t1, t2, n1, n2, n3⟩
  rw [hcmds, hbc, List.filter_append, List.filter_append, hfilter]
  split_ifs <;> simp [isPipelineBarrier]

/-- Claim C12 amended, an instance: the copy of colour and depth from framebuffer 1 to
framebuffer 2, all four images in attachment layouts. -/
theorem C12_two_barrier_commands_witness :
    performStep exampleCopyBoth exampleManager = some (exampleCopied.1, exampleCopied.2) ∧
    ∃ (sc sd dc dd : List VkImageMemoryBarrier) (tr : List VkCommand),
      exampleCopied.2 =
        (if (sc ++ sd).length ≠ 0 then
          [VkCommand.PipelineBarrier VK_PIPELINE_STAGE_TOP_OF_PIPE_BIT
            VK_PIPELINE_STAGE_BOTTOM_OF_PIPE_BIT (sc ++ sd)]
        else []) ++
        (if (dc ++ dd).length ≠ 0 then
          [VkCommand.PipelineBarrier VK_PIPELINE_STAGE_TOP_OF_PIPE_BIT
            VK_PIPELINE_STAGE_BOTTOM_OF_PIPE_BIT (dc ++ dd)]
        else []) ++ tr ∧
      (∀ c ∈ tr, isPipelineBarrier c = false) ∧
      (exampleCopied.2.filter isPipelineBarrier).length ≤ 2 ∧
      (sc ++ sd).length ≤ 2 ∧ (dc ++ dd).length ≤ 2 ∧
      (∀ b ∈ sc ++ sd, b.newLayout = VkImageLayout.TRANSFER_SRC_OPTIMAL) ∧
      (∀ b ∈ dc ++ dd, b.newLayout = VkImageLayout.TRANSFER_DST_OPTIMAL) ∧
      NeededBarriers
        ((VK_IMAGE_ASPECT_COLOR_BIT ||| VK_IMAGE_ASPECT_DEPTH_BIT) &&& VK_IMAGE_ASPECT_COLOR_BIT ≠ 0)
        (exampleManager.fbs 1).color VkImageLayout.TRANSFER_SRC_OPTIMAL
        VK_IMAGE_ASPECT_COLOR_BIT sc ∧
      NeededBarriers
        ((VK_IMAGE_ASPECT_COLOR_BIT ||| VK_IMAGE_ASPECT_DEPTH_BIT) &&&
          (VK_IMAGE_ASPECT_DEPTH_BIT ||| VK_IMAGE_ASPECT_STENCIL_BIT) ≠ 0)
        (exampleManager.fbs 1).depth VkImageLayout.TRANSFER_SRC_OPTIMAL
        (VK_IMAGE_ASPECT_DEPTH_BIT ||| VK_IMAGE_ASPECT_STENCIL_BIT) sd ∧
      ((1 : Nat) ≠ 2 →
        NeededBarriers
          ((VK_IMAGE_ASPECT_COLOR_BIT ||| VK_IMAGE_ASPECT_DEPTH_BIT) &&& VK_IMAGE_ASPECT_COLOR_BIT ≠ 0)
          (exampleManager.fbs 2).color VkImageLayout.TRANSFER_DST_OPTIMAL
          VK_IMAGE_ASPECT_COLOR_BIT dc ∧
        NeededBarriers
          ((VK_IMAGE_ASPECT_COLOR_BIT ||| VK_IMAGE_ASPECT_DEPTH_BIT) &&&
            (VK_IMAGE_ASPECT_DEPTH_BIT ||| VK_IMAGE_ASPECT_STENCIL_BIT) ≠ 0)
          (exampleManager.fbs 2).depth VkImageLayout.TRANSFER_DST_OPTIMAL
          (VK_IMAGE_ASPECT_DEPTH_BIT ||| VK_IMAGE_ASPECT_STENCIL_BIT) dd) :=
  ⟨rfl,
    C12_two_barrier_commands exampleCopyBoth exampleManager exampleCopied.1 exampleCopied.2 1 2
      (VK_IMAGE_ASPECT_COLOR_BIT ||| VK_IMAGE_ASPECT_DEPTH_BIT)
      (Or.inl ⟨rfl, rfl, rfl, rfl⟩) rfl⟩

/-! ### The barriers of a whole command stream -/

/-- The barriers of a conditional transition name the image of its slot. -/
theorem SingleTransition.image_of_mem {fbs fbs1 : Nat → VKRFramebuffer} {a : ImageSlot}
    {target : VkImageLayout} {aspect : Nat} {barriers : List VkImageMemoryBarrier}
    (h : SingleTransition fbs a target aspect barriers fbs1) :
    ∀ b ∈ barriers, b.image = (imageAt fbs a).image := by
  obtain ⟨h1, _⟩ := h
  rcases h1 with ⟨_, hb⟩ | ⟨_, b, hb, hi, _⟩
  · subst hb
    simp
  · subst hb
    simp [hi]

/-- Barriers of two different images can be generated in either order. -/
theorem onImage_append_comm (image i1 i2 : Nat) (x y : List VkImageMemoryBarrier)
    (hne : i1 ≠ i2) (hx : ∀ b ∈ x, b.image = i1) (hy : ∀ b ∈ y, b.image = i2) :
    onImage image (x ++ y) = onImage image (y ++ x) := by
  rw [onImage_append, onImage_append]
  by_cases hi : image = i1
  · have : onImage image y = [] := by
      unfold onImage
      rw [List.filter_eq_nil_iff]
      intro b hb
      have := hy b hb
      simp only [decide_eq_true_eq]
      omega
    rw [this, List.append_nil, List.nil_append]
  · have : onImage image x = [] := by
      unfold onImage
      rw [List.filter_eq_nil_iff]
      intro b hb
      have := hx b hb
      simp only [decide_eq_true_eq]
      omega
    rw [this, List.append_nil, List.nil_append]

/-- The barriers of one barrier command that is recorded only when it has any. -/
theorem allBarriers_of_nonempty (srcStage dstStage : Nat) (l : List VkImageMemoryBarrier) :
    allBarriers (if l.length ≠ 0 then [VkCommand.PipelineBarrier srcStage dstStage l] else []) =
      l := by
  cases l with
  | nil => rfl
  | cons b l => simp [allBarriers, barriersOf]

/-- Commands that carry no barrier add none to a stream. -/
theorem allBarriers_eq_nil (cmds : List VkCommand) (h : ∀ c ∈ cmds, barriersOf c = []) :
    allBarriers cmds = [] := by
  induction cmds with
  | nil => rfl
  | cons c rest ih =>
    have h1 := h c (List.mem_cons_self _ _)
    have h2 := ih (fun d hd => h d (List.mem_cons_of_mem _ hd))
    unfold allBarriers at h2 ⊢
    simp only [List.map_cons, List.flatten_cons, h1, h2, List.append_nil]

/-- The barrier part of `PerformCopy` and `PerformBlit` follows the tracked layouts. -/
theorem transferBarriers_tracks (src dst aspectMask : Nat)
    (fbs fbs4 : Nat → VKRFramebuffer) (cmds : List VkCommand)
    (h : transferBarriers src dst aspectMask fbs = some (fbs4, cmds))
    (hd : DistinctImages fbs) : Tracks fbs (allBarriers cmds) fbs4 := by
  obtain ⟨sc, dc, sd, dd, f1, f2, f3, hc1, hc0, hd1, hd0, hcmds⟩ :=
    transferBarriers_eq_some src dst aspectMask fbs fbs4 cmds h
  -- the colour transitions
  have hcol : Tracks fbs sc f1 ∧ Tracks f1 dc f2 ∧
      ∀ b ∈ dc, b.image = (imageAt fbs (ImageSlot.color dst)).image := by
    by_cases hc : aspectMask &&& VK_IMAGE_ASPECT_COLOR_BIT ≠ 0
    · obtain ⟨s1, s2⟩ := hc1 hc
      have t1 := s1.tracks hd
      refine ⟨t1, s2.tracks (t1.distinct hd), ?_⟩
      intro b hb
      rw [s2.image_of_mem b hb, (t1 _).1]
    · obtain ⟨e1, e2, e3, e4⟩ := hc0 hc
      subst e1 e2 e3 e4
      exact ⟨Tracks.refl _, Tracks.refl _, by simp⟩
  obtain ⟨tsc, tdc, idc⟩ := hcol
  have hd2 : DistinctImages f2 := tdc.distinct (tsc.distinct hd)
  have t02 : Tracks fbs (sc ++ dc) f2 := tsc.trans tdc
  -- the depth/stencil transitions
  have hdep : Tracks f2 sd f3 ∧ Tracks f3 dd fbs4 ∧
      ∀ b ∈ sd, b.image = (imageAt fbs (ImageSlot.depth src)).image := by
    by_cases hds : aspectMask &&& (VK_IMAGE_ASPECT_DEPTH_BIT ||| VK_IMAGE_ASPECT_STENCIL_BIT) ≠ 0
    · obtain ⟨s1, s2⟩ := hd1 hds
      have t1 := s1.tracks hd2
      refine ⟨t1, s2.tracks (t1.distinct hd2), ?_⟩
      intro b hb
      rw [s1.image_of_mem b hb, (t02 _).1]
    · obtain ⟨e1, e2, e3, e4⟩ := hd0 hds
      subst e1 e2 e3 e4
      exact ⟨Tracks.refl _, Tracks.refl _, by simp⟩
  obtain ⟨tsd, tdd, isd⟩ := hdep
  have tall : Tracks fbs (sc ++ dc ++ (sd ++ dd)) fbs4 := t02.trans (tsd.trans tdd)
  have hne : (imageAt fbs (ImageSlot.color dst)).image ≠
      (imageAt fbs (ImageSlot.depth src)).image := by
    intro he
    have := hd _ _ he
    simp at this
  rw [hcmds, allBarriers_append, allBarriers_of_nonempty, allBarriers_of_nonempty]
  refine Tracks.of_onImage_eq ?_ tall
  intro image
  have hcomm := onImage_append_comm image _ _ dc sd hne idc isd
  rw [onImage_append] at hcomm
  simp only [onImage_append, List.append_assoc] at hcomm ⊢
  rw [← List.append_assoc (onImage image sd), ← hcomm, List.append_assoc]

/-- The colour block of `PerformBindFramebufferAsRenderTarget` as a conditional
transition of the heap. -/
theorem transitionColorToAttachment_single (fbs : Nat → VKRFramebuffer) (fb : Nat) :
    SingleTransition fbs (ImageSlot.color fb) VkImageLayout.COLOR_ATTACHMENT_OPTIMAL
      VK_IMAGE_ASPECT_COLOR_BIT (allBarriers (transitionColorToAttachment (fbs fb)).2)
      (Function.update fbs fb (transitionColorToAttachment (fbs fb)).1) := by
  by_cases h : (fbs fb).color.layout = VkImageLayout.COLOR_ATTACHMENT_OPTIMAL
  · have e1 : (transitionColorToAttachment (fbs fb)).1 = fbs fb := by
      unfold transitionColorToAttachment
      rw [if_neg (not_not.2 h)]
    have e2 : (transitionColorToAttachment (fbs fb)).2 = [] := by
      unfold transitionColorToAttachment
      rw [if_neg (not_not.2 h)]
    rw [e1, e2, Function.update_eq_self]
    exact SingleTransition.of_eq fbs _ _ _ h
  · have e1 := transitionColorToAttachment_fst (fbs fb)
    have e2 : (transitionColorToAttachment (fbs fb)).2 =
        [VkCommand.PipelineBarrier VK_PIPELINE_STAGE_BOTTOM_OF_PIPE_BIT
          VK_PIPELINE_STAGE_COLOR_ATTACHMENT_OUTPUT_BIT
          [colorAttachmentBarrier (fbs fb).color]] := by
      rw [transitionColorToAttachment_snd, if_pos h]
    rw [e1, e2]
    exact SingleTransition.of_update_color fbs fb _ _ (colorAttachmentBarrier (fbs fb).color)
      h rfl rfl rfl rfl

/-- The depth block of `PerformBindFramebufferAsRenderTarget` as a conditional
transition of the heap. -/
theorem transitionDepthToAttachment_single (fbs : Nat → VKRFramebuffer) (fb : Nat) :
    SingleTransition fbs (ImageSlot.depth fb) VkImageLayout.DEPTH_STENCIL_ATTACHMENT_OPTIMAL
      (VK_IMAGE_ASPECT_DEPTH_BIT ||| VK_IMAGE_ASPECT_STENCIL_BIT)
      (allBarriers (transitionDepthToAttachment (fbs fb)).2)
      (Function.update fbs fb (transitionDepthToAttachment (fbs fb)).1) := by
  by_cases h : (fbs fb).depth.layout = VkImageLayout.DEPTH_STENCIL_ATTACHMENT_OPTIMAL
  · have e1 : (transitionDepthToAttachment (fbs fb)).1 = fbs fb := by
      unfold transitionDepthToAttachment
      rw [if_neg (not_not.2 h)]
    have e2 : (transitionDepthToAttachment (fbs fb)).2 = [] := by
      unfold transitionDepthToAttachment
      rw [if_neg (not_not.2 h)]
    rw [e1, e2, Function.update_eq_self]
    exact SingleTransition.of_eq fbs _ _ _ h
  · have e1 := transitionDepthToAttachment_fst (fbs fb)
    have e2 : (transitionDepthToAttachment (fbs fb)).2 =
        [VkCommand.PipelineBarrier VK_PIPELINE_STAGE_BOTTOM_OF_PIPE_BIT
          VK_PIPELINE_STAGE_EARLY_FRAGMENT_TESTS_BIT
          [depthAttachmentBarrier (fbs fb).depth]] := by
      rw [transitionDepthToAttachment_snd, if_pos h]
    rw [e1, e2]
    exact SingleTransition.of_update_depth fbs fb _ _ (depthAttachmentBarrier (fbs fb).depth)
      h rfl rfl rfl rfl

/-- The two blocks of `PerformBindFramebufferAsRenderTarget`, one after the other,
follow the tracked layouts. -/
theorem attachmentTransitions_tracks (fbs : Nat → VKRFramebuffer) (fb : Nat)
    (hd : DistinctImages fbs) :
    Tracks fbs
      (allBarriers (transitionColorToAttachment (fbs fb)).2 ++
        allBarriers (transitionDepthToAttachment (transitionColorToAttachment (fbs fb)).1).2)
      (Function.update fbs fb
        (transitionDepthToAttachment (transitionColorToAttachment (fbs fb)).1).1) := by
  have t1 := (transitionColorToAttachment_single fbs fb).tracks hd
  have s2 := transitionDepthToAttachment_single
    (Function.update fbs fb (transitionColorToAttachment (fbs fb)).1) fb
  rw [Function.update_same, Function.update_idem] at s2
  exact t1.trans (s2.tracks (t1.distinct hd))

/-- A command that carries no barrier, recorded or not. -/
theorem allBarriers_ite_nil (c : Prop) [Decidable c] (x : VkCommand)
    (h : barriersOf x = []) : allBarriers (if c then [x] else []) = [] := by
  split
  · simp [allBarriers, h]
  · rfl

/-- The clear of an already bound target carries no barrier. -/
theorem allBarriers_boundClear (step : VKRStep) (w h : Nat) :
    allBarriers (boundClear step w h) = [] := by
  unfold boundClear
  exact allBarriers_ite_nil _ _ rfl

/-- The commands of a sub-command carry no barrier. -/
theorem allBarriers_playCommand (w h : Nat) (c : VkRenderData) :
    allBarriers (playCommand w h c) = [] := by
  cases c <;> simp only [playCommand] <;> first | rfl | exact allBarriers_ite_nil _ _ rfl

/-- The commands of the sub-commands of a step carry no barrier. -/
theorem allBarriers_playCommands (w h : Nat) (cs : List VkRenderData) :
    allBarriers ((cs.map (playCommand w h)).flatten) = [] := by
  induction cs with
  | nil => rfl
  | cons c rest ih =>
    rw [List.map_cons, List.flatten_cons, allBarriers_append, allBarriers_playCommand, ih]
    rfl

/-- The bind of a Render step follows the tracked layouts. -/
theorem PerformBindFramebufferAsRenderTarget_tracks (step : VKRStep)
    (m m1 : VulkanRenderManager) (c : List VkCommand)
    (h : PerformBindFramebufferAsRenderTarget step m = some (m1, c))
    (hd : DistinctImages m.fbs) : Tracks m.fbs (allBarriers c) m1.fbs := by
  unfold PerformBindFramebufferAsRenderTarget at h
  simp only at h
  split at h
  · split at h
    · exact absurd h (by simp)
    · split at h
      · exact absurd h (by simp)
      · simp only [Option.some.injEq, Prod.mk.injEq] at h
        obtain ⟨rfl, rfl⟩ := h
        rw [allBarriers_boundClear]
        exact Tracks.refl _
  · split at h
    · rename_i fb _
      simp only [Option.some.injEq, Prod.mk.injEq] at h
      obtain ⟨rfl, rfl⟩ := h
      have := attachmentTransitions_tracks m.fbs fb hd
      by_cases hp : m.curRenderPass_ = 0
      · simp only [hp, ne_eq, not_true_eq_false, if_false, allBarriers_append]
        simpa [allBarriers, barriersOf] using this
      · simp only [hp, ne_eq, not_false_eq_true, if_true, allBarriers_append]
        simpa [allBarriers, barriersOf] using this
    · simp only [Option.some.injEq, Prod.mk.injEq] at h
      obtain ⟨rfl, rfl⟩ := h
      by_cases hp : m.curRenderPass_ = 0
      · simp only [hp, ne_eq, not_true_eq_false, if_false]
        exact Tracks.refl _
      · simp only [hp, ne_eq, not_false_eq_true, if_true]
        exact Tracks.refl _

/-- Every step follows the tracked layouts. -/
theorem performStep_tracks (step : VKRStep) (m m1 : VulkanRenderManager)
    (c : List VkCommand) (h : performStep step m = some (m1, c))
    (hd : DistinctImages m.fbs) : Tracks m.fbs (allBarriers c) m1.fbs := by
  unfold performStep at h
  split at h
  · unfold PerformRenderPass at h
    cases hb : PerformBindFramebufferAsRenderTarget step m with
    | none =>
      rw [hb] at h
      exact absurd h (by simp)
    | some r =>
      obtain ⟨mb, cb⟩ := r
      rw [hb] at h
      simp only [Option.some.injEq, Prod.mk.injEq] at h
      obtain ⟨rfl, rfl⟩ := h
      rw [allBarriers_append, allBarriers_append, allBarriers_playCommands]
      have : allBarriers [VkCommand.EndRenderPass] = [] := rfl
      rw [this, List.append_nil, List.append_nil]
      exact PerformBindFramebufferAsRenderTarget_tracks step m mb cb hb hd
  · obtain ⟨fbs4, bc, tr, hb, rfl, rfl, htr⟩ := PerformCopy_eq_some step m m1 c h
    rw [allBarriers_append, allBarriers_eq_nil tr (fun c hc => (htr c hc).2), List.append_nil]
    exact transferBarriers_tracks _ _ _ _ _ _ hb hd
  · obtain ⟨fbs4, bc, tr, hb, rfl, rfl, htr⟩ := PerformBlit_eq_some step m m1 c h
    rw [allBarriers_append, allBarriers_eq_nil tr (fun c hc => (htr c hc).2), List.append_nil]
    exact transferBarriers_tracks _ _ _ _ _ _ hb hd
  · simp only [Option.some.injEq, Prod.mk.injEq] at h
    obtain ⟨rfl, rfl⟩ := h
    exact Tracks.refl _

/-- Every list of steps follows the tracked layouts. -/
theorem performSteps_tracks (steps : List VKRStep) (m m1 : VulkanRenderManager)
    (c : List VkCommand) (h : performSteps steps m = some (m1, c))
    (hd : DistinctImages m.fbs) : Tracks m.fbs (allBarriers c) m1.fbs := by
  induction steps generalizing m c with
  | nil =>
    simp only [performSteps, Option.some.injEq, Prod.mk.injEq] at h
    obtain ⟨rfl, rfl⟩ := h
    exact Tracks.refl _
  | cons s rest ih =>
    obtain ⟨m2, c1, c2, h1, h2, rfl⟩ := (performSteps_cons_eq_some s rest m m1 c).1 h
    have t1 := performStep_tracks s m m2 c1 h1 hd
    rw [allBarriers_append]
    exact t1.trans (ih m2 c2 h2 (t1.distinct hd))

/-- A chain of barriers, read barrier by barrier: the first starts from the layout
the chain is followed from, and each next one from the new layout of the one before. -/
theorem chainEnd_adjacent (l l1 : VkImageLayout) (bs : List VkImageMemoryBarrier)
    (h : chainEnd l bs = some l1) :
    (∀ b, bs[0]? = some b → b.oldLayout = l) ∧
    ∀ (i : Nat) (b b2 : VkImageMemoryBarrier),
      bs[i]? = some b → bs[i + 1]? = some b2 → b2.oldLayout = b.newLayout := by
  induction bs generalizing l with
  | nil => simp
  | cons x rest ih =>
    unfold chainEnd at h
    by_cases hx : x.oldLayout = l
    · rw [if_pos hx] at h
      obtain ⟨ih1, ih2⟩ := ih x.newLayout h
      refine ⟨?_, ?_⟩
      · intro b hb
        simp only [List.getElem?_cons_zero, Option.some.injEq] at hb
        rw [← hb]
        exact hx
      · intro i b b2 hb hb2
        cases i with
        | zero =>
          simp only [List.getElem?_cons_zero, Option.some.injEq] at hb
          simp only [zero_add, List.getElem?_cons_succ] at hb2
          rw [← hb]
          exact ih1 b2 hb2
        | succ j =>
          simp only [List.getElem?_cons_succ] at hb hb2
          exact ih2 j b b2 hb hb2
    · rw [if_neg hx] at h
      exact absurd h (by simp)

/-- The heap of `exampleLogTransfers` has distinct image handles. -/
theorem exampleLogTransfers_distinct : DistinctImages exampleLogTransfers.fbs := by
  intro s t h
  cases s <;> cases t <;>
    simp only [exampleLogTransfers, exampleDistinctFramebuffer, imageAt] at h
  · congr 1; omega
  · omega
  · omega
  · congr 1; omega

/-- `Flush` follows the tracked layouts. -/
theorem Flush_tracks (acquired : Nat) (m m1 : VulkanRenderManager) (cmds : List VkCommand)
    (h : Flush acquired m = some (m1, cmds)) (hd : DistinctImages m.fbs) :
    Tracks m.fbs (allBarriers cmds) m1.fbs := by
  unfold Flush at h
  simp only at h
  split at h
  · exact absurd h (by simp)
  · rename_i m2 body hp
    simp only [Option.some.injEq, Prod.mk.injEq] at h
    obtain ⟨rfl, rfl⟩ := h
    have := performSteps_tracks _ _ m2 body hp hd
    have e : allBarriers (VkCommand.TransitionFromPresent (m.swapchainImages_ acquired) :: body) =
        allBarriers body := by
      simp [allBarriers, barriersOf]
    rw [e]
    exact this

/-! ### The tracked layout is authoritative -/

/-- Claim C13.  Every barrier the executor generates goes from the tracked layout
of its image to the layout tracked afterwards: so does the barrier
`SetupTransitionToTransferSrc` fills in, the one `SetupTransitionToTransferDst`
fills in, and the barrier of the colour block and of the depth block of
`PerformBindFramebufferAsRenderTarget`.  Hence, over a heap whose image handles are
distinct, the barriers of each image in the command stream of a `Flush` form a
chain: the first starts from the layout tracked before the `Flush`, each next one
from the new layout of the one before, and the last leads to the layout tracked
after the `Flush`; the image handles stay distinct. -/
theorem C13_tracked_layout_authoritative (acquired : Nat) (m m1 : VulkanRenderManager)
    (cmds : List VkCommand) (hd : DistinctImages m.fbs)
    (h : Flush acquired m = some (m1, cmds)) :
    (∀ (img img1 : VKImage) (aspect : Nat) (b : VkImageMemoryBarrier),
      SetupTransitionToTransferSrc img aspect = some (img1, b) →
        b.image = img.image ∧ b.oldLayout = img.layout ∧ img1.layout = b.newLayout ∧
        img1.image = img.image) ∧
    (∀ (img img1 : VKImage) (aspect : Nat) (b : VkImageMemoryBarrier),
      SetupTransitionToTransferDst img aspect = some (img1, b) →
        b.image = img.image ∧ b.oldLayout = img.layout ∧ img1.layout = b.newLayout ∧
        img1.image = img.image) ∧
    (∀ (f : VKRFramebuffer) (b : VkImageMemoryBarrier),
      b ∈ allBarriers (transitionColorToAttachment f).2 →
        b.image = f.color.image ∧ b.oldLayout = f.color.layout ∧
        (transitionColorToAttachment f).1.color.layout = b.newLayout ∧
        (transitionColorToAttachment f).1.color.image = f.color.image) ∧
    (∀ (f : VKRFramebuffer) (b : VkImageMemoryBarrier),
      b ∈ allBarriers (transitionDepthToAttachment f).2 →
        b.image = f.depth.image ∧ b.oldLayout = f.depth.layout ∧
        (transitionDepthToAttachment f).1.depth.layout = b.newLayout ∧
        (transitionDepthToAttachment f).1.depth.image = f.depth.image) ∧
    Tracks m.fbs (allBarriers cmds) m1.fbs ∧
    (∀ (s : ImageSlot) (b : VkImageMemoryBarrier),
      (onImage (imageAt m.fbs s).image (allBarriers cmds))[0]? = some b →
        b.oldLayout = (imageAt m.fbs s).layout) ∧
    (∀ (s : ImageSlot) (i : Nat) (b b2 : VkImageMemoryBarrier),
      (onImage (imageAt m.fbs s).image (allBarriers cmds))[i]? = some b →
      (onImage (imageAt m.fbs s).image (allBarriers cmds))[i + 1]? = some b2 →
        b2.oldLayout = b.newLayout) ∧
    DistinctImages m1.fbs := by
  have ht := Flush_tracks acquired m m1 cmds h hd
  refine ⟨?_, ?_, ?_, ?_, ht, ?_, ?_, ht.distinct hd⟩
  · intro img img1 aspect b hs
    unfold SetupTransitionToTransferSrc at hs
    simp only at hs
    split at hs
    · exact absurd hs (by simp)
    · simp only [Option.some.injEq, Prod.mk.injEq] at hs
      obtain ⟨rfl, rfl⟩ := hs
      exact ⟨rfl, rfl, rfl, rfl⟩
  · intro img img1 aspect b hs
    unfold SetupTransitionToTransferDst at hs
    simp only at hs
    split at hs
    · exact absurd hs (by simp)
    · simp only [Option.some.injEq, Prod.mk.injEq] at hs
      obtain ⟨rfl, rfl⟩ := hs
      exact ⟨rfl, rfl, rfl, rfl⟩
  · intro f b hb
    rw [transitionColorToAttachment_fst]
    rw [transitionColorToAttachment_snd] at hb
    split at hb
    · simp only [allBarriers, barriersOf, List.map_cons, List.map_nil, List.flatten_cons,
        List.flatten_nil, List.append_nil, List.mem_singleton] at hb
      subst hb
      exact ⟨rfl, rfl, rfl, rfl⟩
    · simp [allBarriers] at hb
  · intro f b hb
    rw [transitionDepthToAttachment_fst]
    rw [transitionDepthToAttachment_snd] at hb
    split at hb
    · simp only [allBarriers, barriersOf, List.map_cons, List.map_nil, List.flatten_cons,
        List.flatten_nil, List.append_nil, List.mem_singleton] at hb
      subst hb
      exact ⟨rfl, rfl, rfl, rfl⟩
    · simp [allBarriers] at hb
  · intro s b hb
    exact (chainEnd_adjacent _ _ _ (ht s).2).1 b hb
  · intro s i b b2 hb hb2
    exact (chainEnd_adjacent _ _ _ (ht s).2).2 i b b2 hb hb2

/-- Claim C13, an instance: a Render step on framebuffer 1, the copy of colour and
depth from framebuffer 1 to framebuffer 2, a Render step on framebuffer 2 and a
Render step on the backbuffer; the colour image of framebuffer 2 goes to
transfer-dst-optimal and back to colour-attachment-optimal. -/
theorem C13_tracked_layout_authoritative_witness :
    DistinctImages exampleLogTransfers.fbs ∧
    Flush 0 exampleLogTransfers =
      some (exampleFlushedTransfers.1, exampleFlushedTransfers.2) ∧
    (onImage (exampleLogTransfers.fbs 2).color.image
        (allBarriers exampleFlushedTransfers.2)).map (fun b => (b.oldLayout, b.newLayout)) =
      [(VkImageLayout.COLOR_ATTACHMENT_OPTIMAL, VkImageLayout.TRANSFER_DST_OPTIMAL),
       (VkImageLayout.TRANSFER_DST_OPTIMAL, VkImageLayout.COLOR_ATTACHMENT_OPTIMAL)] ∧
    (∀ (img img1 : VKImage) (aspect : Nat) (b : VkImageMemoryBarrier),
      SetupTransitionToTransferSrc img aspect = some (img1, b) →
        b.image = img.image ∧ b.oldLayout = img.layout ∧ img1.layout = b.newLayout ∧
        img1.image = img.image) ∧
    (∀ (img img1 : VKImage) (aspect : Nat) (b : VkImageMemoryBarrier),
      SetupTransitionToTransferDst img aspect = some (img1, b) →
        b.image = img.image ∧ b.oldLayout = img.layout ∧ img1.layout = b.newLayout ∧
        img1.image = img.image) ∧
    (∀ (f : VKRFramebuffer) (b : VkImageMemoryBarrier),
      b ∈ allBarriers (transitionColorToAttachment f).2 →
        b.image = f.color.image ∧ b.oldLayout = f.color.layout ∧
        (transitionColorToAttachment f).1.color.layout = b.newLayout ∧
        (transitionColorToAttachment f).1.color.image = f.color.image) ∧
    (∀ (f : VKRFramebuffer) (b : VkImageMemoryBarrier),
      b ∈ allBarriers (transitionDepthToAttachment f).2 →
        b.image = f.depth.image ∧ b.oldLayout = f.depth.layout ∧
        (transitionDepthToAttachment f).1.depth.layout = b.newLayout ∧
        (transitionDepthToAttachment f).1.depth.image = f.depth.image) ∧
    Tracks exampleLogTransfers.fbs (allBarriers exampleFlushedTransfers.2)
      exampleFlushedTransfers.1.fbs ∧
    (∀ (s : ImageSlot) (b : VkImageMemoryBarrier),
      (onImage (imageAt exampleLogTransfers.fbs s).image
          (allBarriers exampleFlushedTransfers.2))[0]? = some b →
        b.oldLayout = (imageAt exampleLogTransfers.fbs s).layout) ∧
    (∀ (s : ImageSlot) (i : Nat) (b b2 : VkImageMemoryBarrier),
      (onImage (imageAt exampleLogTransfers.fbs s).image
          (allBarriers exampleFlushedTransfers.2))[i]? = some b →
      (onImage (imageAt exampleLogTransfers.fbs s).image
          (allBarriers exampleFlushedTransfers.2))[i + 1]? = some b2 →
        b2.oldLayout = b.newLayout) ∧
    DistinctImages exampleFlushedTransfers.1.fbs :=
  ⟨exampleLogTransfers_distinct, rfl, by decide,
    C13_tracked_layout_authoritative 0 exampleLogTransfers exampleFlushedTransfers.1
      exampleFlushedTransfers.2 exampleLogTransfers_distinct rfl⟩


/-! ### Where Copy and Blit steps abort -/

/-- The layouts a source image may be tracked in are those a destination image may
be tracked in. -/
theorem mem_transfer_layouts (l : VkImageLayout) :
    l ∈ [VkImageLayout.TRANSFER_SRC_OPTIMAL, VkImageLayout.COLOR_ATTACHMENT_OPTIMAL,
        VkImageLayout.DEPTH_STENCIL_ATTACHMENT_OPTIMAL, VkImageLayout.TRANSFER_DST_OPTIMAL,
        VkImageLayout.SHADER_READ_ONLY_OPTIMAL] ↔
      l ∈ [VkImageLayout.TRANSFER_DST_OPTIMAL, VkImageLayout.COLOR_ATTACHMENT_OPTIMAL,
        VkImageLayout.TRANSFER_SRC_OPTIMAL, VkImageLayout.DEPTH_STENCIL_ATTACHMENT_OPTIMAL,
        VkImageLayout.SHADER_READ_ONLY_OPTIMAL] := by
  cases l <;> decide

/-- After the transition of a source image, an image is tracked in a layout the
destination transition accepts exactly when it was before. -/
theorem SingleTransition.dst_layout_iff {fbs fbs1 : Nat → VKRFramebuffer} {a : ImageSlot}
    {aspect : Nat} {barriers : List VkImageMemoryBarrier}
    (h : SingleTransition fbs a VkImageLayout.TRANSFER_SRC_OPTIMAL aspect barriers fbs1)
    (ha : (imageAt fbs a).layout ∈ [VkImageLayout.TRANSFER_SRC_OPTIMAL,
        VkImageLayout.COLOR_ATTACHMENT_OPTIMAL, VkImageLayout.DEPTH_STENCIL_ATTACHMENT_OPTIMAL,
        VkImageLayout.TRANSFER_DST_OPTIMAL, VkImageLayout.SHADER_READ_ONLY_OPTIMAL])
    (s : ImageSlot) :
    (imageAt fbs1 s).layout ∈ [VkImageLayout.TRANSFER_DST_OPTIMAL,
        VkImageLayout.COLOR_ATTACHMENT_OPTIMAL, VkImageLayout.TRANSFER_SRC_OPTIMAL,
        VkImageLayout.DEPTH_STENCIL_ATTACHMENT_OPTIMAL,
        VkImageLayout.SHADER_READ_ONLY_OPTIMAL] ↔
      (imageAt fbs s).layout ∈ [VkImageLayout.TRANSFER_DST_OPTIMAL,
        VkImageLayout.COLOR_ATTACHMENT_OPTIMAL, VkImageLayout.TRANSFER_SRC_OPTIMAL,
        VkImageLayout.DEPTH_STENCIL_ATTACHMENT_OPTIMAL,
        VkImageLayout.SHADER_READ_ONLY_OPTIMAL] := by
  obtain ⟨_, h1, h2, _⟩ := h
  by_cases hs : s = a
  · subst hs
    rw [h1]
    constructor
    · intro _
      exact (mem_transfer_layouts _).1 ha
    · intro _
      simp
  · rw [h2 s hs]

/-- The colour transitions of `PerformCopy` and `PerformBlit` return exactly when both
colour images are tracked in the target layout or a layout the helper lists. -/
theorem colorTransfers_isSome (src dst : Nat) (t : TransferBarriers) :
    ((srcColorToTransfer src t).bind (dstColorToTransfer dst)).isSome = true ↔
      (t.fbs src).color.layout ∈ [VkImageLayout.TRANSFER_SRC_OPTIMAL,
        VkImageLayout.COLOR_ATTACHMENT_OPTIMAL, VkImageLayout.DEPTH_STENCIL_ATTACHMENT_OPTIMAL,
        VkImageLayout.TRANSFER_DST_OPTIMAL, VkImageLayout.SHADER_READ_ONLY_OPTIMAL] ∧
      (t.fbs dst).color.layout ∈ [VkImageLayout.TRANSFER_DST_OPTIMAL,
        VkImageLayout.COLOR_ATTACHMENT_OPTIMAL, VkImageLayout.TRANSFER_SRC_OPTIMAL,
        VkImageLayout.DEPTH_STENCIL_ATTACHMENT_OPTIMAL,
        VkImageLayout.SHADER_READ_ONLY_OPTIMAL] := by
  cases h1 : srcColorToTransfer src t with
  | none =>
    have hn : ¬ (srcColorToTransfer src t).isSome = true := by rw [h1]; simp
    rw [srcColorToTransfer_isSome] at hn
    simp only [Option.none_bind, Option.isSome_none, Bool.false_eq_true, false_iff]
    exact fun hc => hn hc.1
  | some ta =>
    have hs : (srcColorToTransfer src t).isSome = true := by rw [h1]; rfl
    rw [srcColorToTransfer_isSome] at hs
    obtain ⟨nb, _, _, st⟩ := srcColorToTransfer_eq_some src t ta h1
    have hd := st.dst_layout_iff hs (ImageSlot.color dst)
    simp only [imageAt] at hd
    simp only [Option.some_bind]
    rw [dstColorToTransfer_isSome, hd]
    exact ⟨fun h => ⟨hs, h⟩, fun h => h.2⟩

/-- The depth/stencil transitions of `PerformCopy` and `PerformBlit` return exactly
when both depth images are tracked in the target layout or a layout the helper
lists. -/
theorem depthTransfers_isSome (src dst : Nat) (t : TransferBarriers) :
    ((srcDepthToTransfer src t).bind (dstDepthToTransfer dst)).isSome = true ↔
      (t.fbs src).depth.layout ∈ [VkImageLayout.TRANSFER_SRC_OPTIMAL,
        VkImageLayout.COLOR_ATTACHMENT_OPTIMAL, VkImageLayout.DEPTH_STENCIL_ATTACHMENT_OPTIMAL,
        VkImageLayout.TRANSFER_DST_OPTIMAL, VkImageLayout.SHADER_READ_ONLY_OPTIMAL] ∧
      (t.fbs dst).depth.layout ∈ [VkImageLayout.TRANSFER_DST_OPTIMAL,
        VkImageLayout.COLOR_ATTACHMENT_OPTIMAL, VkImageLayout.TRANSFER_SRC_OPTIMAL,
        VkImageLayout.DEPTH_STENCIL_ATTACHMENT_OPTIMAL,
        VkImageLayout.SHADER_READ_ONLY_OPTIMAL] := by
  cases h1 : srcDepthToTransfer src t with
  | none =>
    have hn : ¬ (srcDepthToTransfer src t).isSome = true := by rw [h1]; simp
    rw [srcDepthToTransfer_isSome] at hn
    simp only [Option.none_bind, Option.isSome_none, Bool.false_eq_true, false_iff]
    exact fun hc => hn hc.1
  | some ta =>
    have hs : (srcDepthToTransfer src t).isSome = true := by rw [h1]; rfl
    rw [srcDepthToTransfer_isSome] at hs
    obtain ⟨nb, _, _, st⟩ := srcDepthToTransfer_eq_some src t ta h1
    have hd := st.dst_layout_iff hs (ImageSlot.depth dst)
    simp only [imageAt] at hd
    simp only [Option.some_bind]
    rw [dstDepthToTransfer_isSome, hd]
    exact ⟨fun h => ⟨hs, h⟩, fun h => h.2⟩

/-- The barrier part of `PerformCopy` and `PerformBlit` returns exactly when, in each
selected aspect group, the source image and the destination image are tracked in
the target layout or a layout the helper lists. -/
theorem transferBarriers_isSome (src dst aspectMask : Nat) (fbs : Nat → VKRFramebuffer) :
    (transferBarriers src dst aspectMask fbs).isSome = true ↔
      (aspectMask &&& VK_IMAGE_ASPECT_COLOR_BIT ≠ 0 →
        (fbs src).color.layout ∈ [VkImageLayout.TRANSFER_SRC_OPTIMAL,
          VkImageLayout.COLOR_ATTACHMENT_OPTIMAL,
          VkImageLayout.DEPTH_STENCIL_ATTACHMENT_OPTIMAL, VkImageLayout.TRANSFER_DST_OPTIMAL,
          VkImageLayout.SHADER_READ_ONLY_OPTIMAL] ∧
        (fbs dst).color.layout ∈ [VkImageLayout.TRANSFER_DST_OPTIMAL,
          VkImageLayout.COLOR_ATTACHMENT_OPTIMAL, VkImageLayout.TRANSFER_SRC_OPTIMAL,
          VkImageLayout.DEPTH_STENCIL_ATTACHMENT_OPTIMAL,
          VkImageLayout.SHADER_READ_ONLY_OPTIMAL]) ∧
      (aspectMask &&& (VK_IMAGE_ASPECT_DEPTH_BIT ||| VK_IMAGE_ASPECT_STENCIL_BIT) ≠ 0 →
        (fbs src).depth.layout ∈ [VkImageLayout.TRANSFER_SRC_OPTIMAL,
          VkImageLayout.COLOR_ATTACHMENT_OPTIMAL,
          VkImageLayout.DEPTH_STENCIL_ATTACHMENT_OPTIMAL, VkImageLayout.TRANSFER_DST_OPTIMAL,
          VkImageLayout.SHADER_READ_ONLY_OPTIMAL] ∧
        (fbs dst).depth.layout ∈ [VkImageLayout.TRANSFER_DST_OPTIMAL,
          VkImageLayout.COLOR_ATTACHMENT_OPTIMAL, VkImageLayout.TRANSFER_SRC_OPTIMAL,
          VkImageLayout.DEPTH_STENCIL_ATTACHMENT_OPTIMAL,
          VkImageLayout.SHADER_READ_ONLY_OPTIMAL]) := by
  unfold transferBarriers
  simp only [Option.isSome_map']
  cases h1 : (if aspectMask &&& VK_IMAGE_ASPECT_COLOR_BIT ≠ 0 then
      (srcColorToTransfer src { fbs := fbs, srcBarriers := [], dstBarriers := [] }).bind
        (dstColorToTransfer dst)
    else some { fbs := fbs, srcBarriers := [], dstBarriers := [] }) with
  | none =>
    simp only [Option.none_bind, Option.isSome_none, Bool.false_eq_true, false_iff]
    intro hc
    by_cases hsel : aspectMask &&& VK_IMAGE_ASPECT_COLOR_BIT ≠ 0
    · rw [if_pos hsel] at h1
      have := (colorTransfers_isSome src dst
        { fbs := fbs, srcBarriers := [], dstBarriers := [] }).2 (hc.1 hsel)
      rw [h1] at this
      simp at this
    · rw [if_neg hsel] at h1
      simp at h1
  | some t1 =>
    simp only [Option.some_bind]
    -- the colour group is fine, and the depth images are as before
    have hcol : (aspectMask &&& VK_IMAGE_ASPECT_COLOR_BIT ≠ 0 →
        (fbs src).color.layout ∈ [VkImageLayout.TRANSFER_SRC_OPTIMAL,
          VkImageLayout.COLOR_ATTACHMENT_OPTIMAL,
          VkImageLayout.DEPTH_STENCIL_ATTACHMENT_OPTIMAL, VkImageLayout.TRANSFER_DST_OPTIMAL,
          VkImageLayout.SHADER_READ_ONLY_OPTIMAL] ∧
        (fbs dst).color.layout ∈ [VkImageLayout.TRANSFER_DST_OPTIMAL,
          VkImageLayout.COLOR_ATTACHMENT_OPTIMAL, VkImageLayout.TRANSFER_SRC_OPTIMAL,
          VkImageLayout.DEPTH_STENCIL_ATTACHMENT_OPTIMAL,
          VkImageLayout.SHADER_READ_ONLY_OPTIMAL]) := by
      intro hsel
      rw [if_pos hsel] at h1
      have := (colorTransfers_isSome src dst
        { fbs := fbs, srcBarriers := [], dstBarriers := [] }).1 (by rw [h1]; rfl)
      exact this
    have hdepth : ∀ p : Nat, (t1.fbs p).depth = (fbs p).depth := by
      intro p
      obtain ⟨sc, dc, f1, _, _, hs1, hs0⟩ := colorTransfers_eq_some _ src dst _ t1 h1
      by_cases hsel : aspectMask &&& VK_IMAGE_ASPECT_COLOR_BIT ≠ 0
      · obtain ⟨s1, s2⟩ := hs1 hsel
        have e1 := s1.2.2.1 (ImageSlot.depth p) (by simp)
        have e2 := s2.2.2.1 (ImageSlot.depth p) (by simp)
        simp only [imageAt] at e1 e2
        rw [e2, e1]
      · rw [(hs0 hsel).2.2.2]
    by_cases hd : aspectMask &&& (VK_IMAGE_ASPECT_DEPTH_BIT ||| VK_IMAGE_ASPECT_STENCIL_BIT) ≠ 0
    · rw [if_pos hd, depthTransfers_isSome, hdepth src, hdepth dst]
      exact ⟨fun h => ⟨hcol, fun _ => h⟩, fun h => h.2 hd⟩
    · rw [if_neg hd]
      simp only [Option.isSome_some, true_iff]
      exact ⟨hcol, fun h => absurd h hd⟩

/-- A Copy or Blit step returns exactly when its barrier part does. -/
theorem performStep_transfer_isSome (step : VKRStep) (m : VulkanRenderManager)
    (src dst aspectMask : Nat)
    (hstep :
      (step.stepType = VKStepType.COPY ∧ step.copy.src = src ∧ step.copy.dst = dst ∧
        step.copy.aspectMask = aspectMask) ∨
      (step.stepType = VKStepType.BLIT ∧ step.blit.src = src ∧ step.blit.dst = dst ∧
        step.blit.aspectMask = aspectMask)) :
    (performStep step m).isSome = (transferBarriers src dst aspectMask m.fbs).isSome := by
  rcases hstep with ⟨ht, hs, hd, hm⟩ | ⟨ht, hs, hd, hm⟩
  · unfold performStep PerformCopy
    rw [ht]
    simp only [hs, hd, hm]
    cases transferBarriers src dst aspectMask m.fbs <;> rfl
  · unfold performStep PerformBlit
    rw [ht]
    simp only [hs, hd, hm]
    cases transferBarriers src dst aspectMask m.fbs <;> rfl

/-- Claim C22.  `SetupTransitionToTransferSrc` aborts exactly when the tracked layout
of the image is none of colour-attachment-optimal, depth-stencil-attachment-optimal,
transfer-dst-optimal and shader-read-only-optimal, and `SetupTransitionToTransferDst`
exactly when it is none of colour-attachment-optimal,
depth-stencil-attachment-optimal, transfer-src-optimal and shader-read-only-optimal.
A Copy or Blit step aborts exactly when, in an aspect group its mask selects, the
source image needs a transition (is not tracked in transfer-src-optimal) and is
tracked outside the first set, or the destination image needs one (is not tracked in
transfer-dst-optimal) and is tracked outside the second set; otherwise it returns. -/
theorem C22_transfer_aborts (step : VKRStep) (m : VulkanRenderManager)
    (src dst aspectMask : Nat)
    (hstep :
      (step.stepType = VKStepType.COPY ∧ step.copy.src = src ∧ step.copy.dst = dst ∧
        step.copy.aspectMask = aspectMask) ∨
      (step.stepType = VKStepType.BLIT ∧ step.blit.src = src ∧ step.blit.dst = dst ∧
        step.blit.aspectMask = aspectMask)) :
    (∀ (img : VKImage) (aspect : Nat),
      SetupTransitionToTransferSrc img aspect = none ↔
        img.layout ∉ [VkImageLayout.COLOR_ATTACHMENT_OPTIMAL,
          VkImageLayout.DEPTH_STENCIL_ATTACHMENT_OPTIMAL, VkImageLayout.TRANSFER_DST_OPTIMAL,
          VkImageLayout.SHADER_READ_ONLY_OPTIMAL]) ∧
    (∀ (img : VKImage) (aspect : Nat),
      SetupTransitionToTransferDst img aspect = none ↔
        img.layout ∉ [VkImageLayout.COLOR_ATTACHMENT_OPTIMAL,
          VkImageLayout.DEPTH_STENCIL_ATTACHMENT_OPTIMAL, VkImageLayout.TRANSFER_SRC_OPTIMAL,
          VkImageLayout.SHADER_READ_ONLY_OPTIMAL]) ∧
    (performStep step m = none ↔
      (aspectMask &&& VK_IMAGE_ASPECT_COLOR_BIT ≠ 0 ∧
        (((m.fbs src).color.layout ≠ VkImageLayout.TRANSFER_SRC_OPTIMAL ∧
          (m.fbs src).color.layout ∉ [VkImageLayout.COLOR_ATTACHMENT_OPTIMAL,
            VkImageLayout.DEPTH_STENCIL_ATTACHMENT_OPTIMAL,
            VkImageLayout.TRANSFER_DST_OPTIMAL, VkImageLayout.SHADER_READ_ONLY_OPTIMAL]) ∨
         ((m.fbs dst).color.layout ≠ VkImageLayout.TRANSFER_DST_OPTIMAL ∧
          (m.fbs dst).color.layout ∉ [VkImageLayout.COLOR_ATTACHMENT_OPTIMAL,
            VkImageLayout.DEPTH_STENCIL_ATTACHMENT_OPTIMAL,
            VkImageLayout.TRANSFER_SRC_OPTIMAL, VkImageLayout.SHADER_READ_ONLY_OPTIMAL]))) ∨
      (aspectMask &&& (VK_IMAGE_ASPECT_DEPTH_BIT ||| VK_IMAGE_ASPECT_STENCIL_BIT) ≠ 0 ∧
        (((m.fbs src).depth.layout ≠ VkImageLayout.TRANSFER_SRC_OPTIMAL ∧
          (m.fbs src).depth.layout ∉ [VkImageLayout.COLOR_ATTACHMENT_OPTIMAL,
            VkImageLayout.DEPTH_STENCIL_ATTACHMENT_OPTIMAL,
            VkImageLayout.TRANSFER_DST_OPTIMAL, VkImageLayout.SHADER_READ_ONLY_OPTIMAL]) ∨
         ((m.fbs dst).depth.layout ≠ VkImageLayout.TRANSFER_DST_OPTIMAL ∧
          (m.fbs dst).depth.layout ∉ [VkImageLayout.COLOR_ATTACHMENT_OPTIMAL,
            VkImageLayout.DEPTH_STENCIL_ATTACHMENT_OPTIMAL,
            VkImageLayout.TRANSFER_SRC_OPTIMAL, VkImageLayout.SHADER_READ_ONLY_OPTIMAL])))) := by
  refine ⟨?_, ?_, ?_⟩
  · intro img aspect
    rw [← SetupTransitionToTransferSrc_isSome img aspect]
    cases SetupTransitionToTransferSrc img aspect <;> simp
  · intro img aspect
    have := SetupTransitionToTransferDst_isSome img aspect
    cases hl : img.layout <;> rw [hl] at this <;>
      cases hs : SetupTransitionToTransferDst img aspect <;> rw [hs] at this <;> simp at this ⊢
  · have h1 : performStep step m = none ↔ ¬ (performStep step m).isSome = true := by
      cases performStep step m <;> simp
    rw [h1, performStep_transfer_isSome step m src dst aspectMask hstep,
      transferBarriers_isSome]
    have e1 : ∀ l : VkImageLayout,
        (l ≠ VkImageLayout.TRANSFER_SRC_OPTIMAL ∧
          l ∉ [VkImageLayout.COLOR_ATTACHMENT_OPTIMAL,
            VkImageLayout.DEPTH_STENCIL_ATTACHMENT_OPTIMAL,
            VkImageLayout.TRANSFER_DST_OPTIMAL, VkImageLayout.SHADER_READ_ONLY_OPTIMAL]) ↔
        ¬ l ∈ [VkImageLayout.TRANSFER_SRC_OPTIMAL, VkImageLayout.COLOR_ATTACHMENT_OPTIMAL,
          VkImageLayout.DEPTH_STENCIL_ATTACHMENT_OPTIMAL, VkImageLayout.TRANSFER_DST_OPTIMAL,
          VkImageLayout.SHADER_READ_ONLY_OPTIMAL] := by
      intro l
      cases l <;> decide
    have e2 : ∀ l : VkImageLayout,
        (l ≠ VkImageLayout.TRANSFER_DST_OPTIMAL ∧
          l ∉ [VkImageLayout.COLOR_ATTACHMENT_OPTIMAL,
            VkImageLayout.DEPTH_STENCIL_ATTACHMENT_OPTIMAL,
            VkImageLayout.TRANSFER_SRC_OPTIMAL, VkImageLayout.SHADER_READ_ONLY_OPTIMAL]) ↔
        ¬ l ∈ [VkImageLayout.TRANSFER_DST_OPTIMAL, VkImageLayout.COLOR_ATTACHMENT_OPTIMAL,
          VkImageLayout.TRANSFER_SRC_OPTIMAL, VkImageLayout.DEPTH_STENCIL_ATTACHMENT_OPTIMAL,
          VkImageLayout.SHADER_READ_ONLY_OPTIMAL] := by
      intro l
      cases l <;> decide
    rw [e1, e2, e1, e2]
    tauto

/-- Claim C22, an instance: the copy of the colour aspect from framebuffer 1 to
framebuffer 2 while both colour images are tracked in the undefined layout; the step
aborts. -/
theorem C22_transfer_aborts_witness :
    (performStep (exampleCopyStep 1 2 VK_IMAGE_ASPECT_COLOR_BIT)
      exampleManagerUndefined).isSome = false ∧
    (∀ (img : VKImage) (aspect : Nat),
      SetupTransitionToTransferSrc img aspect = none ↔
        img.layout ∉ [VkImageLayout.COLOR_ATTACHMENT_OPTIMAL,
          VkImageLayout.DEPTH_STENCIL_ATTACHMENT_OPTIMAL, VkImageLayout.TRANSFER_DST_OPTIMAL,
          VkImageLayout.SHADER_READ_ONLY_OPTIMAL]) ∧
    (∀ (img : VKImage) (aspect : Nat),
      SetupTransitionToTransferDst img aspect = none ↔
        img.layout ∉ [VkImageLayout.COLOR_ATTACHMENT_OPTIMAL,
          VkImageLayout.DEPTH_STENCIL_ATTACHMENT_OPTIMAL, VkImageLayout.TRANSFER_SRC_OPTIMAL,
          VkImageLayout.SHADER_READ_ONLY_OPTIMAL]) ∧
    (performStep (exampleCopyStep 1 2 VK_IMAGE_ASPECT_COLOR_BIT) exampleManagerUndefined =
        none ↔
      (VK_IMAGE_ASPECT_COLOR_BIT &&& VK_IMAGE_ASPECT_COLOR_BIT ≠ 0 ∧
        (((exampleManagerUndefined.fbs 1).color.layout ≠ VkImageLayout.TRANSFER_SRC_OPTIMAL ∧
          (exampleManagerUndefined.fbs 1).color.layout ∉ [VkImageLayout.COLOR_ATTACHMENT_OPTIMAL,
            VkImageLayout.DEPTH_STENCIL_ATTACHMENT_OPTIMAL,
            VkImageLayout.TRANSFER_DST_OPTIMAL, VkImageLayout.SHADER_READ_ONLY_OPTIMAL]) ∨
         ((exampleManagerUndefined.fbs 2).color.layout ≠ VkImageLayout.TRANSFER_DST_OPTIMAL ∧
          (exampleManagerUndefined.fbs 2).color.layout ∉ [VkImageLayout.COLOR_ATTACHMENT_OPTIMAL,
            VkImageLayout.DEPTH_STENCIL_ATTACHMENT_OPTIMAL,
            VkImageLayout.TRANSFER_SRC_OPTIMAL, VkImageLayout.SHADER_READ_ONLY_OPTIMAL]))) ∨
      (VK_IMAGE_ASPECT_COLOR_BIT &&&
          (VK_IMAGE_ASPECT_DEPTH_BIT ||| VK_IMAGE_ASPECT_STENCIL_BIT) ≠ 0 ∧
        (((exampleManagerUndefined.fbs 1).depth.layout ≠ VkImageLayout.TRANSFER_SRC_OPTIMAL ∧
          (exampleManagerUndefined.fbs 1).depth.layout ∉ [VkImageLayout.COLOR_ATTACHMENT_OPTIMAL,
            VkImageLayout.DEPTH_STENCIL_ATTACHMENT_OPTIMAL,
            VkImageLayout.TRANSFER_DST_OPTIMAL, VkImageLayout.SHADER_READ_ONLY_OPTIMAL]) ∨
         ((exampleManagerUndefined.fbs 2).depth.layout ≠ VkImageLayout.TRANSFER_DST_OPTIMAL ∧
          (exampleManagerUndefined.fbs 2).depth.layout ∉ [VkImageLayout.COLOR_ATTACHMENT_OPTIMAL,
            VkImageLayout.DEPTH_STENCIL_ATTACHMENT_OPTIMAL,
            VkImageLayout.TRANSFER_SRC_OPTIMAL, VkImageLayout.SHADER_READ_ONLY_OPTIMAL])))) :=
  ⟨by decide,
    C22_transfer_aborts (exampleCopyStep 1 2 VK_IMAGE_ASPECT_COLOR_BIT)
      exampleManagerUndefined 1 2 VK_IMAGE_ASPECT_COLOR_BIT (Or.inl ⟨rfl, rfl, rfl, rfl⟩)⟩


/-! ### The bound-target bookkeeping -/

/-- Claim C21, the code at the failing input.  From the state with no framebuffer
bound and no pass open, executing a Render step on the framebuffer at address 1
leaves both `curFramebuffer_` and `curRenderPass_` set.  `EndCurrentRenderpass`, and
with it the recorder calls `CopyFramebuffer` and `BlitFramebuffer`, then clears
`curRenderPass_` and leaves `curFramebuffer_` set, and the bind of the next Render
step on the same framebuffer takes the already-bound branch with no current render
pass, the branch that aborts: so does the `Flush` that executes it. -/
theorem C21_bookkeeping_broken :
    exampleManager.curFramebuffer_ = 0 ∧ exampleManager.curRenderPass_ = 0 ∧
    (Flush 0 (BeginRenderPass (freshStep (some 1)) exampleManager)).map
        (fun r => (r.1.curFramebuffer_, r.1.curRenderPass_)) = some (301, 14) ∧
    (exampleRendered.curFramebuffer_, exampleRendered.curRenderPass_) = (301, 14) ∧
    ((EndCurrentRenderpass exampleRendered).1.curFramebuffer_,
      (EndCurrentRenderpass exampleRendered).1.curRenderPass_) = (301, 0) ∧
    (exampleRenderedCopied.curFramebuffer_, exampleRenderedCopied.curRenderPass_) =
      (301, 0) ∧
    ((BlitFramebuffer 1
        { offset := { x := 0, y := 0 }, extent := { width := 16, height := 16 } } 2
        { offset := { x := 0, y := 0 }, extent := { width := 32, height := 32 } } 0
        exampleRendered).1.curFramebuffer_,
      (BlitFramebuffer 1
        { offset := { x := 0, y := 0 }, extent := { width := 16, height := 16 } } 2
        { offset := { x := 0, y := 0 }, extent := { width := 32, height := 32 } } 0
        exampleRendered).1.curRenderPass_) = (301, 0) ∧
    (exampleRenderedCopied.fbs 1).framebuf = exampleRenderedCopied.curFramebuffer_ ∧
    (PerformBindFramebufferAsRenderTarget (freshStep (some 1))
      exampleRenderedCopied).isSome = false ∧
    (Flush 0 (BeginRenderPass (freshStep (some 1)) exampleRenderedCopied)).isSome = false := by
  decide

/-- With non-null framebuffer and render-pass handles, the bind of a Render step
keeps the bookkeeping consistent, and does not abort where it is consistent. -/
theorem PerformBindFramebufferAsRenderTarget_consistent (step : VKRStep)
    (m : VulkanRenderManager)
    (hfb : ∀ p : Nat, (m.fbs p).framebuf ≠ 0)
    (hbb : m.framebuffers_ m.current_buffer ≠ 0)
    (hrp : ∀ i : Nat, m.renderPasses_ i ≠ 0)
    (hsrp : m.backbufferRenderPass_ ≠ 0)
    (hinv : BookkeepingConsistent m) :
    ∃ (m1 : VulkanRenderManager) (c : List VkCommand),
      PerformBindFramebufferAsRenderTarget step m = some (m1, c) ∧
      BookkeepingConsistent m1 ∧ m1.curFramebuffer_ ≠ 0 ∧ m1.curRenderPass_ ≠ 0 := by
  have hframebuf : (match step.render.framebuffer with
      | some fb => (m.fbs fb).framebuf
      | none => m.framebuffers_ m.current_buffer) ≠ 0 := by
    cases step.render.framebuffer with
    | none => exact hbb
    | some fb => exact hfb fb
  unfold PerformBindFramebufferAsRenderTarget
  simp only
  split
  · rename_i heq
    have hcur : m.curFramebuffer_ ≠ 0 := by rw [← heq]; exact hframebuf
    have hpass : m.curRenderPass_ ≠ 0 := fun h => hcur (hinv.2 h)
    rw [if_neg hpass]
    exact ⟨_, _, rfl, hinv, hcur, hpass⟩
  · cases htarget : step.render.framebuffer with
    | some fb =>
      simp only
      refine ⟨_, _, rfl, ?_, ?_, ?_⟩
      · unfold BookkeepingConsistent
        simp only
        constructor
        · intro h
          exact absurd h (hfb fb)
        · intro h
          by_cases hp : m.curRenderPass_ = 0
          · simp only [hp, ne_eq, not_true_eq_false, if_false] at h
            exact absurd h (hrp _)
          · simp only [hp, ne_eq, not_false_eq_true, if_true] at h
            exact absurd h (hrp _)
      · exact hfb fb
      · by_cases hp : m.curRenderPass_ = 0
        · simp only [hp, ne_eq, not_true_eq_false, if_false]
          exact hrp _
        · simp only [hp, ne_eq, not_false_eq_true, if_true]
          exact hrp _
    | none =>
      simp only
      have hs : GetSurfaceRenderPass
          (if m.curRenderPass_ ≠ 0 then { m with curRenderPass_ := 0, curFramebuffer_ := 0 }
            else m) ≠ 0 := by
        unfold GetSurfaceRenderPass
        by_cases hp : m.curRenderPass_ = 0
        · simp only [hp, ne_eq, not_true_eq_false, if_false]
          exact hsrp
        · simp only [hp, ne_eq, not_false_eq_true, if_true]
          exact hsrp
      refine ⟨_, _, rfl, ?_, hbb, hs⟩
      unfold BookkeepingConsistent
      simp only
      exact ⟨fun h => absurd h hbb, fun h => absurd h hs⟩

/-- The two blocks of `PerformBindFramebufferAsRenderTarget` leave the framebuffer
handles of the heap as they are. -/
theorem attachmentTransitions_framebuf (fbs : Nat → VKRFramebuffer) (fb p : Nat) :
    (Function.update fbs fb
      (transitionDepthToAttachment (transitionColorToAttachment (fbs fb)).1).1 p).framebuf =
      (fbs p).framebuf := by
  by_cases hp : p = fb
  · subst hp
    rw [Function.update_same, transitionDepthToAttachment_fst,
      transitionColorToAttachment_fst]
  · rw [Function.update_noteq hp]

/-- The bind of a Render step leaves the framebuffer handles of the heap as they
are. -/
theorem PerformBindFramebufferAsRenderTarget_framebuf (step : VKRStep)
    (m m1 : VulkanRenderManager) (c : List VkCommand)
    (h : PerformBindFramebufferAsRenderTarget step m = some (m1, c)) (p : Nat) :
    (m1.fbs p).framebuf = (m.fbs p).framebuf := by
  unfold PerformBindFramebufferAsRenderTarget at h
  simp only at h
  split at h
  · split at h
    · exact absurd h (by simp)
    · split at h
      · exact absurd h (by simp)
      · simp only [Option.some.injEq, Prod.mk.injEq] at h
        obtain ⟨rfl, _⟩ := h
        rfl
  · split at h
    · rename_i fb _
      simp only [Option.some.injEq, Prod.mk.injEq] at h
      obtain ⟨rfl, _⟩ := h
      have := attachmentTransitions_framebuf m.fbs fb p
      by_cases hp : m.curRenderPass_ = 0
      · simpa [hp] using this
      · simpa [hp] using this
    · simp only [Option.some.injEq, Prod.mk.injEq] at h
      obtain ⟨rfl, _⟩ := h
      by_cases hp : m.curRenderPass_ = 0 <;> simp [hp]

/-- The barrier part of `PerformCopy` and `PerformBlit` leaves the framebuffer handles
of the heap as they are. -/
theorem transferBarriers_framebuf (src dst aspectMask : Nat)
    (fbs fbs4 : Nat → VKRFramebuffer) (cmds : List VkCommand)
    (h : transferBarriers src dst aspectMask fbs = some (fbs4, cmds)) (p : Nat) :
    (fbs4 p).framebuf = (fbs p).framebuf := by
  obtain ⟨sc, dc, sd, dd, f1, f2, f3, hc1, hc0, hd1, hd0, _⟩ :=
    transferBarriers_eq_some src dst aspectMask fbs fbs4 cmds h
  have h2 : (f2 p).framebuf = (fbs p).framebuf := by
    by_cases hc : aspectMask &&& VK_IMAGE_ASPECT_COLOR_BIT ≠ 0
    · obtain ⟨s1, s2⟩ := hc1 hc
      rw [(s2.2.2.2 p).1, (s1.2.2.2 p).1]
    · rw [(hc0 hc).2.2.2]
  by_cases hd : aspectMask &&& (VK_IMAGE_ASPECT_DEPTH_BIT ||| VK_IMAGE_ASPECT_STENCIL_BIT) ≠ 0
  · obtain ⟨s1, s2⟩ := hd1 hd
    rw [(s2.2.2.2 p).1, (s1.2.2.2 p).1, h2]
  · rw [(hd0 hd).2.2.2, h2]

/-- Executing a step leaves the framebuffer handles of the heap as they are. -/
theorem performStep_framebuf (step : VKRStep) (m m1 : VulkanRenderManager)
    (c : List VkCommand) (h : performStep step m = some (m1, c)) (p : Nat) :
    (m1.fbs p).framebuf = (m.fbs p).framebuf := by
  unfold performStep at h
  split at h
  · unfold PerformRenderPass at h
    cases hb : PerformBindFramebufferAsRenderTarget step m with
    | none =>
      rw [hb] at h
      exact absurd h (by simp)
    | some r =>
      obtain ⟨mb, cb⟩ := r
      rw [hb] at h
      simp only [Option.some.injEq, Prod.mk.injEq] at h
      obtain ⟨rfl, _⟩ := h
      exact PerformBindFramebufferAsRenderTarget_framebuf step m mb cb hb p
  · obtain ⟨fbs4, bc, tr, hb, rfl, _, _⟩ := PerformCopy_eq_some step m m1 c h
    exact transferBarriers_framebuf _ _ _ _ _ _ hb p
  · obtain ⟨fbs4, bc, tr, hb, rfl, _, _⟩ := PerformBlit_eq_some step m m1 c h
    exact transferBarriers_framebuf _ _ _ _ _ _ hb p
  · simp only [Option.some.injEq, Prod.mk.injEq] at h
    obtain ⟨rfl, _⟩ := h
    rfl

/-- With non-null framebuffer and render-pass handles, executing a step keeps the
bookkeeping consistent. -/
theorem performStep_consistent (step : VKRStep) (m m1 : VulkanRenderManager)
    (c : List VkCommand)
    (hfb : ∀ p : Nat, (m.fbs p).framebuf ≠ 0)
    (hbb : m.framebuffers_ m.current_buffer ≠ 0)
    (hrp : ∀ i : Nat, m.renderPasses_ i ≠ 0)
    (hsrp : m.backbufferRenderPass_ ≠ 0)
    (hinv : BookkeepingConsistent m)
    (h : performStep step m = some (m1, c)) : BookkeepingConsistent m1 := by
  unfold performStep at h
  split at h
  · unfold PerformRenderPass at h
    obtain ⟨mb, cb, hb, hcons, _, _⟩ :=
      PerformBindFramebufferAsRenderTarget_consistent step m hfb hbb hrp hsrp hinv
    rw [hb] at h
    simp only [Option.some.injEq, Prod.mk.injEq] at h
    obtain ⟨rfl, _⟩ := h
    exact hcons
  · obtain ⟨fbs4, bc, tr, hb, rfl, _, _⟩ := PerformCopy_eq_some step m m1 c h
    exact hinv
  · obtain ⟨fbs4, bc, tr, hb, rfl, _, _⟩ := PerformBlit_eq_some step m m1 c h
    exact hinv
  · simp only [Option.some.injEq, Prod.mk.injEq] at h
    obtain ⟨rfl, _⟩ := h
    exact hinv

/-- Within the executor the bound-target bookkeeping stays consistent: with non-null
framebuffer and render-pass handles, executing any list of Render, Copy, Blit and
Readback steps from a state in which `curFramebuffer_` is null exactly when
`curRenderPass_` is leaves a state in which it is so again, and in which the bind of
any Render step returns, that is, reaches neither of its two aborts. -/
theorem executor_keeps_bookkeeping_consistent (steps : List VKRStep)
    (m m1 : VulkanRenderManager) (cmds : List VkCommand)
    (hfb : ∀ p : Nat, (m.fbs p).framebuf ≠ 0)
    (hbb : m.framebuffers_ m.current_buffer ≠ 0)
    (hrp : ∀ i : Nat, m.renderPasses_ i ≠ 0)
    (hsrp : m.backbufferRenderPass_ ≠ 0)
    (hinv : BookkeepingConsistent m)
    (h : performSteps steps m = some (m1, cmds)) :
    BookkeepingConsistent m1 ∧
    ∀ step : VKRStep, ∃ (m2 : VulkanRenderManager) (c : List VkCommand),
      PerformBindFramebufferAsRenderTarget step m1 = some (m2, c) ∧
      BookkeepingConsistent m2 := by
  induction steps generalizing m cmds with
  | nil =>
    simp only [performSteps, Option.some.injEq, Prod.mk.injEq] at h
    obtain ⟨rfl, _⟩ := h
    refine ⟨hinv, fun step => ?_⟩
    obtain ⟨m2, c, h2, hc2, _, _⟩ :=
      PerformBindFramebufferAsRenderTarget_consistent step m hfb hbb hrp hsrp hinv
    exact ⟨m2, c, h2, hc2⟩
  | cons s rest ih =>
    obtain ⟨m2, c1, c2, h1, h2, _⟩ := (performSteps_cons_eq_some s rest m m1 cmds).1 h
    obtain ⟨_, _, _, e4, e5, _, e7, e8, _, _⟩ := performStep_frame s m m2 c1 h1
    refine ih m2 c2 ?_ ?_ ?_ ?_ (performStep_consistent s m m2 c1 hfb hbb hrp hsrp hinv h1) h2
    · intro p
      rw [performStep_framebuf s m m2 c1 h1 p]
      exact hfb p
    · rw [e5, e4]
      exact hbb
    · intro i
      rw [e7]
      exact hrp i
    · rw [e8]
      exact hsrp

/-- The executor keeps the bookkeeping consistent, an instance: the four steps of
`exampleLogMixed` executed from the state of the examples. -/
theorem executor_keeps_bookkeeping_consistent_witness :
    BookkeepingConsistent exampleManager ∧
    performSteps exampleLogMixed.steps_ exampleManager =
      some (exampleExecutedMixed.1, exampleExecutedMixed.2) ∧
    BookkeepingConsistent exampleExecutedMixed.1 ∧
    ∀ step : VKRStep, ∃ (m2 : VulkanRenderManager) (c : List VkCommand),
      PerformBindFramebufferAsRenderTarget step exampleExecutedMixed.1 = some (m2, c) ∧
      BookkeepingConsistent m2 :=
  ⟨Iff.rfl, rfl,
    executor_keeps_bookkeeping_consistent exampleLogMixed.steps_ exampleManager
      exampleExecutedMixed.1 exampleExecutedMixed.2
      (fun p => Nat.ne_of_gt (Nat.lt_of_lt_of_le (by decide : 0 < 300) (Nat.le_add_right 300 p)))
      (by decide) (fun i => Nat.ne_of_gt
        (Nat.lt_of_lt_of_le (by decide : 0 < 10) (Nat.le_add_right 10 i)))
      (by decide) Iff.rfl rfl⟩


/-! ### Init commands -/

/-- Claim C23, the code at the failing inputs.  On slot 1 with no pending init
commands anywhere, `GetInitCmd` between `BeginFrameWrites` and `EndFrame` returns the
slot's init command buffer, 821, but the buffer it puts into recording state is the
slot's main command buffer, 811, which `BeginFrameWrites` has begun already; it
leaves the slot's flag false, and `EndFrame` submits the main buffer alone.  On slot
1 while slot 0 has pending init commands, `GetInitCmd` puts no buffer into recording
state at all, as the flag it tests is that of slot 0, and `EndFrame` again submits
the main buffer alone. -/
theorem C23_init_commands_lost :
    ((exampleFrameManager false).frameData_ 1).hasInitCommands = false ∧
    (GetInitCmd 1 (exampleFrameManager false)).1 =
      ((exampleFrameManager false).frameData_ 1).initCmd ∧
    (GetInitCmd 1 (exampleFrameManager false)).1 = 821 ∧
    (GetInitCmd 1 (exampleFrameManager false)).2.2 =
      [DeviceCall.BeginCommandBuffer 811 VK_COMMAND_BUFFER_USAGE_ONE_TIME_SUBMIT_BIT] ∧
    ((GetInitCmd 1 (exampleFrameManager false)).2.1.frameData_ 1).hasInitCommands = false ∧
    begunBuffers (BeginFrameWrites 1 (exampleFrameManager false) ++
      (GetInitCmd 1 (exampleFrameManager false)).2.2) = [811, 811] ∧
    submittedBuffers (EndFrame 1 (GetInitCmd 1 (exampleFrameManager false)).2.1).2 =
      [[811]] ∧
    ((exampleFrameManager true).frameData_ 0).hasInitCommands = true ∧
    ((exampleFrameManager true).frameData_ 1).hasInitCommands = false ∧
    (GetInitCmd 1 (exampleFrameManager true)).1 = 821 ∧
    (GetInitCmd 1 (exampleFrameManager true)).2.2 = [] ∧
    ((GetInitCmd 1 (exampleFrameManager true)).2.1.frameData_ 1).hasInitCommands = false ∧
    submittedBuffers (EndFrame 1 (GetInitCmd 1 (exampleFrameManager true)).2.1).2 =
      [[811]] := by
  decide

end VulkanRenderManager

end PPSSPP
